import Mathlib

/-!
# WS2812 LED strip peripheral (`components/esp_peripherals/periph_ws2812.c`)

A shallow embedding of the pulse encoder (`ws2812_data_copy`), the transmit
orchestrator (`ws2812_set_colors`), the periodic animation handler
(`ws2812_timer_handler`) and the control entry points, followed by theorems
about them.

Conventions of the embedding.

* `uint32_t` / `unsigned int` values are natural numbers; every operation that
  can leave the 32-bit range is followed by `u32` (reduction modulo `2^32`).
  `uint8_t` values are natural numbers reduced modulo `256` where they are
  produced.  `long long` time stamps are integers.
* The RMT pulse memory `RMTMEM.chan[RMTCHANNEL].data32[..]` is a function from
  the descriptor index to the 32-bit word `val` stored there.
* Arrays allocated by the driver (`color`, `state`, `process.buffer`) are lists.
  A read outside a list yields a default value and a write outside is dropped;
  the C code has undefined behaviour there, and every theorem that depends on
  such an access states the bound that excludes it.
* `audio_malloc` can return `NULL`: the environment carries an oracle that
  tells which calls succeed, and `ws2812_set_colors` takes its `ESP_FAIL`
  branch when the call it makes fails.
-/

namespace WS2812

/-! ## Machine integers -/

/-- Reduction of a natural number to the `uint32_t` range. -/
def u32 (n : Nat) : Nat := n % 4294967296

/-- Reduction of a natural number to the `uint8_t` range. -/
def u8 (n : Nat) : Nat := n % 256

/-- Subtraction `a - b` of two `uint32_t` values, wrapping modulo `2^32`. -/
def u32_sub (a b : Nat) : Nat :=
  if u32 b ≤ u32 a then u32 a - u32 b else u32 a + 4294967296 - u32 b

/-- Subtraction `a - b` stored back into a `uint8_t` (as done by `-=`). -/
def u8_sub (a b : Nat) : Nat := (u8 a + (256 - u8 b)) % 256

/-- Addition `a + b` stored back into a `uint8_t` (as done by `+=`). -/
def u8_add (a b : Nat) : Nat := (a + b) % 256

/-! ## Constants (`periph_ws2812.c`, lines 38-51) -/

/-- Clock divider of the RMT channel: `#define DIVIDER 4`. -/
def DIVIDER : Nat := 4

/-- The C constant `DURATION` is `12.5` (nanoseconds per APB clock); it is held
here in tenths of a nanosecond so that it is a natural number.  The products
and quotients formed from it below are exact in binary floating point
(`12.5 * 4 = 50`, `350 / 50 = 7`, `900 / 50 = 18`, `50000 / 50 = 1000`), so
integer division of the scaled values computes what the C casts compute. -/
def DURATION_x10 : Nat := 125

/-- Number of descriptors of one bank: `#define MAX_PULSES 32`. -/
def MAX_PULSES : Nat := 32

/-- High time of a 0 bit: `(uint32_t)(350 / (DURATION*DIVIDER)) & 0x00007FFF`. -/
def PULSE_T0H : Nat := u32 (350 * 10 / (DURATION_x10 * DIVIDER)) &&& 0x00007FFF

/-- High time of a 1 bit: `(uint32_t)(900 / (DURATION*DIVIDER)) & 0x00007FFF`. -/
def PULSE_T1H : Nat := u32 (900 * 10 / (DURATION_x10 * DIVIDER)) &&& 0x00007FFF

/-- Low time of a 0 bit: `(uint32_t)(900 / (DURATION*DIVIDER)) & 0x00007FFF`. -/
def PULSE_T0L : Nat := u32 (900 * 10 / (DURATION_x10 * DIVIDER)) &&& 0x00007FFF

/-- Low time of a 1 bit: `(uint32_t)(350 / (DURATION*DIVIDER)) & 0x00007FFF`. -/
def PULSE_T1L : Nat := u32 (350 * 10 / (DURATION_x10 * DIVIDER)) &&& 0x00007FFF

/-- Reset gap: `50000 / (DURATION*DIVIDER)`. -/
def PULSE_TRS : Nat := 50000 * 10 / (DURATION_x10 * DIVIDER)

/-- Descriptor of a 0 bit:
`((uint32_t)PULSE_T0L<<16) + (((uint32_t)1)<<15) + (PULSE_T0H)`. -/
def PULSE_BIT0 : Nat := u32 (u32 (PULSE_T0L <<< 16) + u32 (1 <<< 15) + PULSE_T0H)

/-- Descriptor of a 1 bit:
`((uint32_t)PULSE_T1L<<16) + (((uint32_t)1)<<15) + (PULSE_T1H)`. -/
def PULSE_BIT1 : Nat := u32 (u32 (PULSE_T1L <<< 16) + u32 (1 <<< 15) + PULSE_T1H)

/-- Number of steps of one fade phase: `#define FADE_STEP 30`. -/
def FADE_STEP : Nat := 30

/-- The color black, `LED2812_COLOR_BLACK` of `periph_ws2812.h`. -/
def LED2812_COLOR_BLACK : Nat := 0

/-! ## The RMT descriptor word

`rmt_item32_t` is declared by the SoC headers, not by this file: a 32-bit word
`val` overlaid with the bit fields `duration0 : 15`, `level0 : 1`,
`duration1 : 15`, `level1 : 1`, lowest bits first.  `PULSE_BIT0` and
`PULSE_BIT1` above are composed for exactly this layout. -/

/-- Field `duration0` (bits 0..14) of a descriptor word. -/
def duration0 (val : Nat) : Nat := val % 32768

/-- Field `level0` (bit 15) of a descriptor word. -/
def level0 (val : Nat) : Nat := val / 32768 % 2

/-- Field `duration1` (bits 16..30) of a descriptor word. -/
def duration1 (val : Nat) : Nat := val / 65536 % 32768

/-- Field `level1` (bit 31) of a descriptor word. -/
def level1 (val : Nat) : Nat := val / 2147483648 % 2

/-- The word after the store `item.duration1 = d`: bits 16..30 are replaced by
the low 15 bits of `d`, the other bits are kept. -/
def set_duration1 (val d : Nat) : Nat :=
  val % 65536 + (d % 32768) * 65536 + (val / 2147483648 % 2) * 2147483648

/-- RMT pulse memory of the channel: descriptor index to stored word. -/
abbrev rmt_mem := Nat → Nat

/-- The store `RMTMEM.chan[RMTCHANNEL].data32[idx].val = v`. -/
def rmt_write (mem : rmt_mem) (idx v : Nat) : rmt_mem :=
  fun k => if k = idx then v else mem k

/-! ## Driver data (`periph_ws2812.c`, lines 53-85) -/

/-- Return codes of the driver functions. -/
inductive esp_err_t where
  | ESP_OK
  | ESP_FAIL
  deriving DecidableEq, Repr

/-- Animation modes `periph_ws2812_mode_t`; `INVALID` stands for every other
value the enum-typed field can hold. -/
inductive periph_ws2812_mode_t where
  | PERIPH_WS2812_BLINK
  | PERIPH_WS2812_FADE
  | PERIPH_WS2812_ONE
  | INVALID (raw : Nat)
  deriving DecidableEq, Repr

/-- Per-LED animation state `periph_ws2812_state_t`. -/
structure periph_ws2812_state_t where
  color : Nat
  mode : periph_ws2812_mode_t
  time_on_ms : Nat
  time_off_ms : Nat
  tick : Int
  loop : Nat
  is_on : Bool
  is_set : Bool
  deriving DecidableEq, Repr

/-- Transmit process state `periph_ws2812_process_t`; `buffer` is the byte
array the pointer refers to (`[]` for `NULL`). -/
structure periph_ws2812_process_t where
  pos : Nat
  half : Nat
  buffer : List Nat
  deriving DecidableEq, Repr

/-- Driver record `periph_ws2812_t` (the timer, semaphore and interrupt handles
carry no data of their own and are left out). -/
structure periph_ws2812_t where
  color : List Nat
  led_num : Nat
  state : List periph_ws2812_state_t
  process : periph_ws2812_process_t
  deriving DecidableEq, Repr

/-- Components of the union `rgb_value`: the packed structure `r, g, b` lies
over the least significant three bytes of `num` (little-endian target). -/
def rgb_r (num : Nat) : Nat := num % 256

/-- Component `g` of the union `rgb_value` (second byte of `num`). -/
def rgb_g (num : Nat) : Nat := num / 256 % 256

/-- Component `b` of the union `rgb_value` (third byte of `num`). -/
def rgb_b (num : Nat) : Nat := num / 65536 % 256

/-- The word `num` of a union `rgb_value` whose components `r, g, b` have been
overwritten: the fourth byte of the original word is kept. -/
def rgb_num (num r g b : Nat) : Nat :=
  u8 r + 256 * u8 g + 65536 * u8 b + 16777216 * (u32 num / 16777216)

/-! ## `ws2812_data_copy` (lines 114-153) -/

/-- Inner loop `for (j = 0; j < 8; j++, bit <<= 1)` of `ws2812_data_copy`
for byte index `i`: the loop state is the shifting word `bit` and the memory. -/
def data_copy_bits (offset i : Nat) (byte : Nat) (mem : rmt_mem) : Nat × rmt_mem :=
  (List.range 8).foldl
    (fun (s : Nat × rmt_mem) j =>
      (u32 (s.1 <<< 1),
       rmt_write s.2 (u32 (u32 (j + u32 (i * 8)) + offset))
         (if (s.1 >>> 7) &&& 0x01 ≠ 0 then PULSE_BIT1 else PULSE_BIT0)))
    (byte, mem)

/-- Body of the loop `for (i = 0; i < len; i++)` of `ws2812_data_copy`. -/
def data_copy_byte (ws : periph_ws2812_t) (offset : Nat) (mem : rmt_mem) (i : Nat) :
    rmt_mem :=
  let bit := ws.process.buffer.getD (u32 (i + ws.process.pos)) 0
  let mem1 := (data_copy_bits offset i bit mem).2
  if u32 (i + ws.process.pos) = u32_sub (u32 (ws.led_num * 3)) 1 then
    let idx := u32 (u32 (7 + u32 (i * 8)) + offset)
    rmt_write mem1 idx (set_duration1 (mem1 idx) PULSE_TRS)
  else mem1

/-- Zero fill `for (...; i < MAX_PULSES; i++) data32[i + offset].val = 0`
starting at index `start`. -/
def data_copy_zero (offset start : Nat) (mem : rmt_mem) : rmt_mem :=
  (List.range' start (MAX_PULSES - start)).foldl
    (fun m i => rmt_write m (u32 (i + offset)) 0) mem

/-- The function `ws2812_data_copy`: result code, driver record and pulse
memory after the call. -/
def ws2812_data_copy (ws : periph_ws2812_t) (mem : rmt_mem) :
    esp_err_t × periph_ws2812_t × rmt_mem :=
  let offset := u32 (ws.process.half * MAX_PULSES)
  let ws1 := { ws with process := { ws.process with
                 half := if ws.process.half ≠ 0 then 0 else 1 } }
  let len0 := u32_sub (u32 (ws1.led_num * 3)) ws1.process.pos
  let len := if len0 > MAX_PULSES / 8 then MAX_PULSES / 8 else len0
  if len = 0 then
    (esp_err_t.ESP_FAIL, ws1, data_copy_zero offset 0 mem)
  else
    let mem1 := (List.range len).foldl (data_copy_byte ws1 offset) mem
    let mem2 := data_copy_zero offset (u32 (len * 8)) mem1
    (esp_err_t.ESP_OK,
     { ws1 with process := { ws1.process with pos := u32 (ws1.process.pos + len) } },
     mem2)

/-! ## `ws2812_set_colors` (lines 168-202) -/

/-- What the driver touches outside its own record: the pulse memory of the
RMT channel, the frames handed to the hardware (the transmit buffer as it is
each time `tx_start` is set), the number of calls of `audio_sys_get_time_ms`
made so far, and the heap: `malloc_ok n` tells whether call number `n` of
`audio_malloc` returns a buffer, `mallocs` counts the calls made so far. -/
structure env_t where
  data32 : rmt_mem
  frames : List (List Nat)
  clock : Nat
  malloc_ok : Nat → Bool
  mallocs : Nat

/-- A call of `audio_malloc`: whether a buffer is returned (`false` for `NULL`),
and the environment with the call counted. -/
def audio_malloc (env : env_t) : Bool × env_t :=
  (env.malloc_ok env.mallocs, { env with mallocs := env.mallocs + 1 })

/-- Serialisation loop of `ws2812_set_colors` (lines 175-182): a fresh buffer of
`led_num * 3` bytes receives `g, r, b` of every LED. -/
def set_colors_buffer (ws : periph_ws2812_t) : List Nat :=
  (List.range ws.led_num).foldl
    (fun buf i =>
      let rgb := ws.color.getD i 0
      ((buf.set (0 + i * 3) (rgb_g rgb)).set (1 + i * 3) (rgb_r rgb)).set (2 + i * 3) (rgb_b rgb))
    (List.replicate (u32 (ws.led_num * 3)) 0)

/-- Lines 175-190 of `ws2812_set_colors`, once the buffer has been allocated
and up to the point where the hardware is started: serialise, reset the cursor and the bank selector, fill bank 0 and, if
bytes remain, the next bank.  The third component counts the calls of
`ws2812_data_copy` that were made. -/
def ws2812_set_colors_prime (ws : periph_ws2812_t) (mem : rmt_mem) :
    periph_ws2812_t × rmt_mem × Nat :=
  let ws1 := { ws with process := { pos := 0, half := 0, buffer := set_colors_buffer ws } }
  let r1 := ws2812_data_copy ws1 mem
  if r1.2.1.process.pos < u32 (r1.2.1.led_num * 3) then
    let r2 := ws2812_data_copy r1.2.1 r1.2.2
    (r2.2.1, r2.2.2, 2)
  else
    (r1.2.1, r1.2.2, 1)

/-- The function `ws2812_set_colors` for a non-null driver record (every caller
passes one).  When `audio_malloc` returns `NULL` the function stores `NULL` in
`process.buffer` and returns `ESP_FAIL` at once (line 173): nothing is
serialised and the hardware is not started.  Otherwise the frame is recorded
when `tx_start` is set; the refills done by the interrupt handler while the
caller waits on the semaphore act on `process.pos`, `process.half` and the pulse
memory only and are not replayed here; the buffer is released (`NULL`) before
the function returns `ESP_OK`. -/
def ws2812_set_colors (ws : periph_ws2812_t) (env : env_t) :
    esp_err_t × periph_ws2812_t × env_t :=
  let a := audio_malloc env
  if a.1 = false then
    (esp_err_t.ESP_FAIL, { ws with process := { ws.process with buffer := [] } }, a.2)
  else
    let p := ws2812_set_colors_prime ws a.2.data32
    let env1 := { a.2 with data32 := p.2.1, frames := a.2.frames ++ [p.1.process.buffer] }
    (esp_err_t.ESP_OK, { p.1 with process := { p.1.process with buffer := [] } }, env1)

/-! ## `ws2812_timer_handler` (lines 204-304) -/

/-- Value read from the state array outside its bounds. -/
def state_zero : periph_ws2812_state_t :=
  { color := 0, mode := periph_ws2812_mode_t.INVALID 0, time_on_ms := 0, time_off_ms := 0,
    tick := 0, loop := 0, is_on := false, is_set := false }

/-- The read `st[i]`. -/
def state_at (ws : periph_ws2812_t) (i : Nat) : periph_ws2812_state_t :=
  ws.state.getD i state_zero

/-- An assignment to fields of `st[i]`. -/
def upd_state (ws : periph_ws2812_t) (i : Nat)
    (f : periph_ws2812_state_t → periph_ws2812_state_t) : periph_ws2812_t :=
  { ws with state := ws.state.set i (f (state_at ws i)) }

/-- The read `periph_ws2812->color[i]`. -/
def color_at (ws : periph_ws2812_t) (i : Nat) : Nat :=
  ws.color.getD i 0

/-- The assignment `periph_ws2812->color[i] = c`. -/
def set_color (ws : periph_ws2812_t) (i c : Nat) : periph_ws2812_t :=
  { ws with color := ws.color.set i c }

/-- A call of `audio_sys_get_time_ms`: `T n` is the value the `n`-th call
returns. -/
def audio_sys_get_time_ms (T : Nat → Int) (env : env_t) : Int × env_t :=
  (T env.clock, { env with clock := env.clock + 1 })

/-- Case `PERIPH_WS2812_ONE` of the handler (lines 211-218). -/
def handler_one (i : Nat) (ws : periph_ws2812_t) (env : env_t) : periph_ws2812_t × env_t :=
  if (state_at ws i).is_on then
    let ws1 := set_color ws i (state_at ws i).color
    let r := ws2812_set_colors ws1 env
    let ws2 := upd_state r.2.1 i (fun s => { s with is_on := false })
    let ws3 := upd_state ws2 i (fun s => { s with loop := 0 })
    (ws3, r.2.2)
  else (ws, env)

/-- Lines 230-245 of case `PERIPH_WS2812_BLINK`: the two phase tests.  The
clock is read for a test only when the `is_on` conjunct before it holds. -/
def handler_blink_phase (T : Nat → Int) (i : Nat) (ws : periph_ws2812_t) (env : env_t) :
    periph_ws2812_t × env_t :=
  if (state_at ws i).is_on then
    let t := audio_sys_get_time_ms T env
    if t.1 - (state_at ws i).tick > ((state_at ws i).time_off_ms : Int) then
      if (state_at ws i).loop > 0 then
        let ws1 := upd_state ws i (fun s => { s with loop := u32_sub s.loop 1 })
        let ws2 := upd_state ws1 i (fun s => { s with is_on := false })
        let t2 := audio_sys_get_time_ms T t.2
        let ws3 := upd_state ws2 i (fun s => { s with tick := t2.1 })
        let ws4 := set_color ws3 i (state_at ws3 i).color
        let r := ws2812_set_colors ws4 t2.2
        (r.2.1, r.2.2)
      else (ws, t.2)
    else (ws, t.2)
  else
    let t := audio_sys_get_time_ms T env
    if t.1 - (state_at ws i).tick > ((state_at ws i).time_on_ms : Int) then
      let ws1 := upd_state ws i (fun s => { s with is_on := true })
      let t2 := audio_sys_get_time_ms T t.2
      let ws2 := upd_state ws1 i (fun s => { s with tick := t2.1 })
      let ws3 := set_color ws2 i LED2812_COLOR_BLACK
      let r := ws2812_set_colors ws3 t2.2
      (r.2.1, r.2.2)
    else (ws, t.2)

/-- Case `PERIPH_WS2812_BLINK` of the handler (lines 220-246). -/
def handler_blink (T : Nat → Int) (i : Nat) (ws : periph_ws2812_t) (env : env_t) :
    periph_ws2812_t × env_t :=
  if (state_at ws i).is_set = false then (ws, env)
  else
    let s1 : periph_ws2812_t × env_t :=
      if (state_at ws i).loop = 0 then
        let ws1 := set_color ws i LED2812_COLOR_BLACK
        let r := ws2812_set_colors ws1 env
        (upd_state r.2.1 i (fun s => { s with is_set := false }), r.2.2)
      else (ws, env)
    handler_blink_phase T i s1.1 s1.2

/-- Lines 259-296 of case `PERIPH_WS2812_FADE`: the fade-down and the fade-up
step. -/
def handler_fade_phase (T : Nat → Int) (i : Nat) (ws : periph_ws2812_t) (env : env_t) :
    periph_ws2812_t × env_t :=
  if (state_at ws i).is_on then
    let t := audio_sys_get_time_ms T env
    if t.1 - (state_at ws i).tick > ((u32 ((state_at ws i).time_on_ms / FADE_STEP) : Nat) : Int) then
      let t2 := audio_sys_get_time_ms T t.2
      let ws1 := upd_state ws i (fun s => { s with tick := t2.1 })
      let rgb := (state_at ws1 i).color
      let rgb1 := color_at ws1 i
      let r1 := u8_sub (rgb_r rgb1) (rgb_r rgb / FADE_STEP)
      let g1 := u8_sub (rgb_g rgb1) (rgb_g rgb / FADE_STEP)
      let b1 := u8_sub (rgb_b rgb1) (rgb_b rgb / FADE_STEP)
      let r := ws2812_set_colors ws1 t2.2
      let ws2 := set_color r.2.1 i (rgb_num rgb1 r1 g1 b1)
      if r1 ≤ rgb_r rgb / FADE_STEP ∧ g1 ≤ rgb_g rgb / FADE_STEP ∧ b1 ≤ rgb_b rgb / FADE_STEP then
        let ws3 := upd_state ws2 i (fun s => { s with is_on := false })
        let ws4 := upd_state ws3 i (fun s => { s with loop := u32_sub s.loop 1 })
        (ws4, r.2.2)
      else (ws2, r.2.2)
    else (ws, t.2)
  else
    let t := audio_sys_get_time_ms T env
    if t.1 - (state_at ws i).tick > ((u32 ((state_at ws i).time_off_ms / FADE_STEP) : Nat) : Int) then
      let t2 := audio_sys_get_time_ms T t.2
      let ws1 := upd_state ws i (fun s => { s with tick := t2.1 })
      let rgb := (state_at ws1 i).color
      let rgb1 := color_at ws1 i
      let r1 := u8_add (rgb_r rgb1) (rgb_r rgb / FADE_STEP)
      let g1 := u8_add (rgb_g rgb1) (rgb_g rgb / FADE_STEP)
      let b1 := u8_add (rgb_b rgb1) (rgb_b rgb / FADE_STEP)
      let r := ws2812_set_colors ws1 t2.2
      let ws2 := set_color r.2.1 i (rgb_num rgb1 r1 g1 b1)
      if ((rgb_r rgb : Int) - (r1 : Int) ≤ ((rgb_r rgb / FADE_STEP : Nat) : Int))
          ∧ ((rgb_g rgb : Int) - (g1 : Int) ≤ ((rgb_g rgb / FADE_STEP : Nat) : Int))
          ∧ ((rgb_b rgb : Int) - (b1 : Int) ≤ ((rgb_b rgb / FADE_STEP : Nat) : Int)) then
        (upd_state ws2 i (fun s => { s with is_on := true }), r.2.2)
      else (ws2, r.2.2)
    else (ws, t.2)

/-- Case `PERIPH_WS2812_FADE` of the handler (lines 248-297). -/
def handler_fade (T : Nat → Int) (i : Nat) (ws : periph_ws2812_t) (env : env_t) :
    periph_ws2812_t × env_t :=
  if (state_at ws i).is_set = false then (ws, env)
  else if (state_at ws i).loop = 0 then
    let ws1 := set_color ws i LED2812_COLOR_BLACK
    let r := ws2812_set_colors ws1 env
    (upd_state r.2.1 i (fun s => { s with is_set := false }), r.2.2)
  else handler_fade_phase T i ws env

/-- Body of the loop of `ws2812_timer_handler` for LED `i`: the `switch` on
`st[i].mode`; the default case only logs a warning. -/
def ws2812_timer_handler_led (T : Nat → Int) (i : Nat) (ws : periph_ws2812_t) (env : env_t) :
    periph_ws2812_t × env_t :=
  match (state_at ws i).mode with
  | periph_ws2812_mode_t.PERIPH_WS2812_ONE => handler_one i ws env
  | periph_ws2812_mode_t.PERIPH_WS2812_BLINK => handler_blink T i ws env
  | periph_ws2812_mode_t.PERIPH_WS2812_FADE => handler_fade T i ws env
  | periph_ws2812_mode_t.INVALID _ => (ws, env)

/-- The function `ws2812_timer_handler`: one tick of the periodic timer. -/
def ws2812_timer_handler (T : Nat → Int) (ws : periph_ws2812_t) (env : env_t) :
    periph_ws2812_t × env_t :=
  (List.range ws.led_num).foldl
    (fun (s : periph_ws2812_t × env_t) i => ws2812_timer_handler_led T i s.1 s.2)
    (ws, env)

/-! ## `periph_ws2812_control` and `periph_ws2812_stop` (lines 410-448) -/

/-- One entry of the array `control_cfg` (`periph_ws2812_ctrl_cfg_t`): the
fields the driver reads. -/
structure periph_ws2812_ctrl_cfg_t where
  color : Nat
  time_on_ms : Nat
  time_off_ms : Nat
  loop : Nat
  mode : periph_ws2812_mode_t
  deriving DecidableEq, Repr

/-- Value read from the configuration array outside its bounds. -/
def cfg_zero : periph_ws2812_ctrl_cfg_t :=
  { color := 0, time_on_ms := 0, time_off_ms := 0, loop := 0,
    mode := periph_ws2812_mode_t.INVALID 0 }

/-- Body of the loop of `periph_ws2812_control` for LED `i` (lines 418-426). -/
def control_led (T : Nat → Int) (control_cfg : List periph_ws2812_ctrl_cfg_t) (i : Nat)
    (ws : periph_ws2812_t) (env : env_t) : periph_ws2812_t × env_t :=
  let c := control_cfg.getD i cfg_zero
  let ws1 := upd_state ws i (fun s => { s with color := c.color })
  let ws2 := set_color ws1 i c.color
  let ws3 := upd_state ws2 i (fun s => { s with time_on_ms := c.time_on_ms })
  let ws4 := upd_state ws3 i (fun s => { s with time_off_ms := c.time_off_ms })
  let t := audio_sys_get_time_ms T env
  let ws5 := upd_state ws4 i (fun s => { s with tick := t.1 })
  let ws6 := upd_state ws5 i (fun s => { s with loop := c.loop })
  let ws7 := upd_state ws6 i (fun s => { s with is_on := true })
  let ws8 := upd_state ws7 i (fun s => { s with is_set := true })
  let ws9 := upd_state ws8 i (fun s => { s with mode := c.mode })
  (ws9, t.2)

/-- The function `periph_ws2812_control`; `periph` is the driver record held by
the handle and `control_cfg` the configuration array, `none` for `NULL`. -/
def periph_ws2812_control (T : Nat → Int) (periph : Option periph_ws2812_t)
    (control_cfg : Option (List periph_ws2812_ctrl_cfg_t)) (env : env_t) :
    esp_err_t × Option periph_ws2812_t × env_t :=
  match periph with
  | none => (esp_err_t.ESP_FAIL, none, env)
  | some ws =>
    match control_cfg with
    | none => (esp_err_t.ESP_FAIL, some ws, env)
    | some cfg =>
      let s := (List.range ws.led_num).foldl
        (fun (s : periph_ws2812_t × env_t) i => control_led T cfg i s.1 s.2) (ws, env)
      (esp_err_t.ESP_OK, some s.1, s.2)

/-- The function `periph_ws2812_stop`. -/
def periph_ws2812_stop (periph : Option periph_ws2812_t) (env : env_t) :
    esp_err_t × Option periph_ws2812_t × env_t :=
  match periph with
  | none => (esp_err_t.ESP_FAIL, none, env)
  | some ws =>
    let ws1 := (List.range ws.led_num).foldl
      (fun (w : periph_ws2812_t) i =>
        let w1 := upd_state w i (fun s => { s with color := LED2812_COLOR_BLACK })
        let w2 := upd_state w1 i (fun s => { s with is_on := true })
        upd_state w2 i (fun s => { s with mode := periph_ws2812_mode_t.PERIPH_WS2812_ONE }))
      ws
    let r := ws2812_set_colors ws1 env
    (esp_err_t.ESP_OK, some r.2.1, r.2.2)

/-! ## Notions used to state the properties -/

/-- Descriptor word that encodes bit `7 - j` of `byte`: `PULSE_BIT1` when the
bit is set, `PULSE_BIT0` otherwise. -/
def bit_code (byte j : Nat) : Nat :=
  if byte / 2 ^ (7 - j) % 2 = 1 then PULSE_BIT1 else PULSE_BIT0

/-- Descriptor expected at position `n` of the pulse train of buffer `B`: the
code of bit `7 - n % 8` of byte `n / 8`, with the reset gap stored in
`duration1` at the last position. -/
def pulse_of (B : List Nat) (n : Nat) : Nat :=
  if n + 1 = 8 * B.length
  then set_duration1 (bit_code (B.getD (n / 8) 0) (n % 8)) PULSE_TRS
  else bit_code (B.getD (n / 8) 0) (n % 8)

/-- Number of bytes left for one call, capped at the four bytes of a bank. -/
def chunk_len (ws : periph_ws2812_t) : Nat :=
  min (ws.led_num * 3 - ws.process.pos) 4

/-- Well-formed feeder state: the buffer holds `led_num * 3` bytes, that length
fits `uint32_t`, every element is a byte, and the bank selector is 0 or 1. -/
structure feeder_ok (ws : periph_ws2812_t) : Prop where
  len_eq : ws.process.buffer.length = ws.led_num * 3
  len_lt : ws.led_num * 3 < 4294967296
  bytes : ∀ b ∈ ws.process.buffer, b < 256
  half_le : ws.process.half ≤ 1

/-- Calls `ws2812_data_copy` until it returns `ESP_FAIL` and collects, call
after call, the descriptors each successful call encoded: the first
`8 * (bytes consumed)` words of the bank the call was aimed at, read when the
call returns.  The result is `none` when `fuel` calls did not reach
`ESP_FAIL`. -/
def pulse_stream : Nat → periph_ws2812_t → rmt_mem → Option (List Nat)
  | 0, _, _ => none
  | fuel + 1, ws, mem =>
    match ws2812_data_copy ws mem with
    | (esp_err_t.ESP_FAIL, _, _) => some []
    | (esp_err_t.ESP_OK, ws1, mem1) =>
      (pulse_stream fuel ws1 mem1).map
        (fun rest =>
          (List.range (8 * (ws1.process.pos - ws.process.pos))).map
            (fun k => mem1 (u32 (ws.process.half * MAX_PULSES) + k)) ++ rest)

/-- The bit a receiver reads from a descriptor: 1 for the long high time
`PULSE_T1H`, 0 otherwise. -/
def decode_bit (val : Nat) : Nat :=
  if duration0 val = PULSE_T1H then 1 else 0

/-- The byte read from eight descriptors, most significant bit first. -/
def decode_byte (ds : List Nat) : Nat :=
  ds.foldl (fun acc d => 2 * acc + decode_bit d) 0

/-- The bytes read from a pulse train, eight descriptors per byte. -/
def decode_stream (s : List Nat) : List Nat :=
  (List.range (s.length / 8)).map (fun k => decode_byte ((s.drop (8 * k)).take 8))

/-- Byte `j` (0, 1, 2) that color `c` contributes to the transmit buffer: `g`,
`r`, `b` in this order. -/
def wire_byte (c j : Nat) : Nat :=
  if j = 0 then rgb_g c else if j = 1 then rgb_r c else rgb_b c

/-- What the evaluation of LED `j` may change in the driver record: entry `j`
of the state array and entry `j` of the color array (and the transmit process
state); the array lengths and `led_num` stay. -/
structure only_led (j : Nat) (ws ws1 : periph_ws2812_t) : Prop where
  led_num : ws1.led_num = ws.led_num
  state_len : ws1.state.length = ws.state.length
  color_len : ws1.color.length = ws.color.length
  state_eq : ∀ i, i ≠ j → state_at ws1 i = state_at ws i
  color_eq : ∀ i, i ≠ j → color_at ws1 i = color_at ws i

/-- The loop of `ws2812_timer_handler` run over the LED indices of list `l`,
starting from driver record and environment `s`. -/
def handler_loop (T : Nat → Int) (l : List Nat) (s : periph_ws2812_t × env_t) :
    periph_ws2812_t × env_t :=
  l.foldl (fun (s : periph_ws2812_t × env_t) j => ws2812_timer_handler_led T j s.1 s.2) s

/-- Driver record and environment at the moment the loop of
`ws2812_timer_handler` reaches LED `i`, the LEDs before it having been
evaluated. -/
def handler_upto (T : Nat → Int) (ws : periph_ws2812_t) (env : env_t) (i : Nat) :
    periph_ws2812_t × env_t :=
  handler_loop T (List.range i) (ws, env)

/-- The loop of `periph_ws2812_control` run over the LED indices of list `l`. -/
def control_loop (T : Nat → Int) (cfg : List periph_ws2812_ctrl_cfg_t) (l : List Nat)
    (s : periph_ws2812_t × env_t) : periph_ws2812_t × env_t :=
  l.foldl (fun (s : periph_ws2812_t × env_t) i => control_led T cfg i s.1 s.2) s

/-- The animation state `periph_ws2812_control` gives an LED from configuration
entry `c` when the clock reads `t`. -/
def state_of_cfg (c : periph_ws2812_ctrl_cfg_t) (t : Int) : periph_ws2812_state_t :=
  { color := c.color, mode := c.mode, time_on_ms := c.time_on_ms,
    time_off_ms := c.time_off_ms, tick := t, loop := c.loop, is_on := true, is_set := true }

/-- Three channel targets whose non-zero members are all equal. -/
def uniform_chans (tr tg tb : Nat) : Prop :=
  (tr = 0 ∨ tg = 0 ∨ tr = tg) ∧ (tg = 0 ∨ tb = 0 ∨ tg = tb) ∧ (tr = 0 ∨ tb = 0 ∨ tr = tb)

/-- A target color whose non-zero channels are all equal. -/
def uniform_color (tgt : Nat) : Prop :=
  uniform_chans (rgb_r tgt) (rgb_g tgt) (rgb_b tgt)

instance uniform_color_decidable (tgt : Nat) : Decidable (uniform_color tgt) := by
  unfold uniform_color uniform_chans
  infer_instance

/-- Every call of `audio_malloc` made in environment `env` returns a buffer. -/
def malloc_succeeds (env : env_t) : Prop := ∀ n, env.malloc_ok n = true

/-- The function `ws2812_handle_interrupt` (lines 155-166) as it acts on the
driver record and the pulse memory: `thr_event` and `tx_end` are the two
interrupt status bits.  A threshold event refills a bank with
`ws2812_data_copy`; the end-of-transmission event only gives the semaphore,
which touches neither the record nor the memory. -/
def ws2812_handle_interrupt (thr_event tx_end : Bool) (ws : periph_ws2812_t) (mem : rmt_mem) :
    periph_ws2812_t × rmt_mem :=
  if thr_event then (ws2812_data_copy ws mem).2
  else if tx_end then (ws, mem)
  else (ws, mem)

/-- The driver record at line 184 of `ws2812_set_colors`: the buffer has been
serialised and `pos` and `half` have been reset, no call of `ws2812_data_copy`
has been made yet. -/
def set_colors_reset (ws : periph_ws2812_t) : periph_ws2812_t :=
  { ws with process := { pos := 0, half := 0, buffer := set_colors_buffer ws } }

/-- Driver record and pulse memory after `n` successive calls of
`ws2812_data_copy`, whoever makes them (`ws2812_set_colors` or the interrupt
handler). -/
def data_copy_calls : Nat → periph_ws2812_t × rmt_mem → periph_ws2812_t × rmt_mem
  | 0, s => s
  | n + 1, s => (ws2812_data_copy (data_copy_calls n s).1 (data_copy_calls n s).2).2

/-- Driver record and pulse memory after `n` threshold interrupts. -/
def refills : Nat → periph_ws2812_t × rmt_mem → periph_ws2812_t × rmt_mem
  | 0, s => s
  | n + 1, s => ws2812_handle_interrupt true false (refills n s).1 (refills n s).2

/-- The indices of `process.buffer` a call of `ws2812_data_copy` reads, in
order: `i + ws->process.pos` for `i < len` (line 132). -/
def data_copy_reads (ws : periph_ws2812_t) : List Nat :=
  let len0 := u32_sub (u32 (ws.led_num * 3)) ws.process.pos
  let len := if len0 > MAX_PULSES / 8 then MAX_PULSES / 8 else len0
  (List.range len).map (fun i => u32 (i + ws.process.pos))

/-- The indices of `data32` written for byte `i` of a call of
`ws2812_data_copy`: `j + i * 8 + offset` for the eight bits (lines 136, 138) and
`7 + i * 8 + offset` once more when the byte is the last of the buffer
(line 142). -/
def data_copy_writes_byte (ws : periph_ws2812_t) (offset i : Nat) : List Nat :=
  (List.range 8).map (fun j => u32 (u32 (j + u32 (i * 8)) + offset))
  ++ (if u32 (i + ws.process.pos) = u32_sub (u32 (ws.led_num * 3)) 1
      then [u32 (u32 (7 + u32 (i * 8)) + offset)] else [])

/-- The indices of `data32` a call of `ws2812_data_copy` writes: `i + offset`
for all of the bank when no byte is left (line 126); otherwise those of the
`len` bytes followed by the zero fill `i + offset`, `len * 8 ≤ i < MAX_PULSES`
(line 147). -/
def data_copy_writes (ws : periph_ws2812_t) : List Nat :=
  let offset := u32 (ws.process.half * MAX_PULSES)
  let len0 := u32_sub (u32 (ws.led_num * 3)) ws.process.pos
  let len := if len0 > MAX_PULSES / 8 then MAX_PULSES / 8 else len0
  if len = 0 then
    (List.range' 0 (MAX_PULSES - 0)).map (fun i => u32 (i + offset))
  else
    (List.range len).flatMap (data_copy_writes_byte ws offset)
    ++ (List.range' (u32 (len * 8)) (MAX_PULSES - u32 (len * 8))).map (fun i => u32 (i + offset))

/-- The feeder state invariant: the bank selector is 0 or 1, the cursor is at
most the buffer length `3 * led_num`, and the buffer holds that many bytes. -/
def feeder_inv (ws : periph_ws2812_t) : Prop :=
  ws.process.half ≤ 1 ∧ ws.process.pos ≤ 3 * ws.led_num
  ∧ ws.process.buffer.length = 3 * ws.led_num

instance feeder_inv_decidable (ws : periph_ws2812_t) : Decidable (feeder_inv ws) := by
  unfold feeder_inv
  infer_instance

/-- Body of the loop of `periph_ws2812_stop` for LED `i` (lines 441-445). -/
def stop_led (w : periph_ws2812_t) (i : Nat) : periph_ws2812_t :=
  upd_state
    (upd_state
      (upd_state w i (fun s => { s with color := LED2812_COLOR_BLACK }))
      i (fun s => { s with is_on := true }))
    i (fun s => { s with mode := periph_ws2812_mode_t.PERIPH_WS2812_ONE })

/-- The loop of `periph_ws2812_stop` run over the LED indices of list `l`. -/
def stop_loop (l : List Nat) (w : periph_ws2812_t) : periph_ws2812_t :=
  l.foldl stop_led w

/-- The animation state `periph_ws2812_stop` turns state `s` into. -/
def state_stopped (s : periph_ws2812_state_t) : periph_ws2812_state_t :=
  { s with color := LED2812_COLOR_BLACK, is_on := true,
           mode := periph_ws2812_mode_t.PERIPH_WS2812_ONE }

/-- A dim channel value: between 1 and `FADE_STEP - 1`, so that its fade step
`c / FADE_STEP` is 0. -/
def dim_chan (c : Nat) : Prop := 1 ≤ c ∧ c ≤ FADE_STEP - 1

instance dim_chan_decidable (c : Nat) : Decidable (dim_chan c) := by
  unfold dim_chan
  infer_instance

/-- A FADE LED `i` with target `tgt` and loop count `N` that is still in its
first fade-down phase, its dim channels at their target value. -/
def dim_inv (ws : periph_ws2812_t) (i tgt N : Nat) : Prop :=
  i < ws.state.length ∧ i < ws.color.length
  ∧ (state_at ws i).mode = periph_ws2812_mode_t.PERIPH_WS2812_FADE
  ∧ (state_at ws i).color = tgt
  ∧ (state_at ws i).is_set = true
  ∧ (state_at ws i).is_on = true
  ∧ (state_at ws i).loop = N
  ∧ (dim_chan (rgb_r tgt) → rgb_r (color_at ws i) = rgb_r tgt)
  ∧ (dim_chan (rgb_g tgt) → rgb_g (color_at ws i) = rgb_g tgt)
  ∧ (dim_chan (rgb_b tgt) → rgb_b (color_at ws i) = rgb_b tgt)

/-! ## Concrete inputs used in the examples -/

/-- An environment with cleared pulse memory, no frame sent, a fresh clock and
a heap on which every allocation succeeds. -/
def env_idle : env_t :=
  { data32 := fun _ => 0, frames := [], clock := 0, malloc_ok := fun _ => true, mallocs := 0 }

/-- The environment `env_idle` with an exhausted heap: every allocation fails. -/
def env_no_heap : env_t :=
  { data32 := fun _ => 0, frames := [], clock := 0, malloc_ok := fun _ => false, mallocs := 0 }

/-- A strip of `colors.length` LEDs showing `colors`, every animation state idle
and no transmission prepared. -/
def strip_of (colors : List Nat) : periph_ws2812_t :=
  { color := colors, led_num := colors.length,
    state := List.replicate colors.length state_zero,
    process := { pos := 0, half := 0, buffer := [] } }

/-- A feeder state with `led_num` LEDs, transmit buffer `B`, cursor `pos` and
bank selector `half`; the color and state arrays play no part in the feeder. -/
def feeder_at (led_num : Nat) (B : List Nat) (pos half : Nat) : periph_ws2812_t :=
  { color := [], led_num := led_num, state := [],
    process := { pos := pos, half := half, buffer := B } }

/-- Driver record and environment after `periph_ws2812_control` has applied the
configuration array `cfg` to the driver record `ws`. -/
def after_control (T : Nat → Int) (ws : periph_ws2812_t)
    (cfg : List periph_ws2812_ctrl_cfg_t) (env : env_t) : periph_ws2812_t × env_t :=
  match periph_ws2812_control T (some ws) (some cfg) env with
  | (_, some ws1, env1) => (ws1, env1)
  | (_, none, env1) => (ws, env1)

/-- Driver record and environment after `periph_ws2812_stop` has been called on
the driver record `ws`. -/
def after_stop (ws : periph_ws2812_t) (env : env_t) : periph_ws2812_t × env_t :=
  match periph_ws2812_stop (some ws) env with
  | (_, some ws1, env1) => (ws1, env1)
  | (_, none, env1) => (ws, env1)

/-- The driver record and environment after `n` ticks of the timer. -/
def run_ticks (T : Nat → Int) : Nat → periph_ws2812_t × env_t → periph_ws2812_t × env_t
  | 0, s => s
  | n + 1, s => ws2812_timer_handler T (run_ticks T n s).1 (run_ticks T n s).2

/-- A configuration entry with the given mode, color and loop count and both
phase durations zero. -/
def cfg_of (mode : periph_ws2812_mode_t) (color loop : Nat) : periph_ws2812_ctrl_cfg_t :=
  { color := color, time_on_ms := 0, time_off_ms := 0, loop := loop, mode := mode }

/-- An environment with cleared pulse memory and no frame sent in which the
clock has been read `n` times; every allocation succeeds. -/
def env_at (n : Nat) : env_t :=
  { data32 := fun _ => 0, frames := [], clock := n, malloc_ok := fun _ => true, mallocs := 0 }

/-- A clock that advances by 10 ms with every reading. -/
def clock_10ms : Nat → Int := fun n => 10 * (n : Int)

/-! # Theorems -/

theorem u32_of_lt {n : Nat} (h : n < 4294967296) : u32 n = n := Nat.mod_eq_of_lt h

theorem u32_sub_of_le {a b : Nat} (ha : a < 4294967296) (hb : b ≤ a) : u32_sub a b = a - b := by
  have h1 : u32 a = a := u32_of_lt ha
  have h2 : u32 b = b := u32_of_lt (by omega)
  unfold u32_sub
  rw [h1, h2, if_pos hb]

theorem zero_fold_apply (offset : Nat) (ho : offset ≤ 32) :
    ∀ (n s : Nat) (mem : rmt_mem) (k : Nat), s + n ≤ 32 →
      ((List.range' s n).foldl (fun m i => rmt_write m (u32 (i + offset)) 0) mem) k
        = if offset + s ≤ k ∧ k < offset + s + n then 0 else mem k := by
  intro n
  induction n with
  | zero =>
    intro s mem k _
    rw [if_neg (by omega)]; rfl
  | succ n ih =>
    intro s mem k hs
    rw [List.range'_succ, List.foldl_cons, ih (s + 1) _ k (by omega)]
    have hu : u32 (s + offset) = s + offset := u32_of_lt (by omega)
    simp only [rmt_write, hu]
    by_cases h1 : k = s + offset
    · subst h1; rw [if_pos rfl, if_neg (by omega), if_pos (by omega)]
    · simp only [h1, if_false]
      by_cases h2 : offset + (s + 1) ≤ k ∧ k < offset + (s + 1) + n
      · rw [if_pos h2, if_pos (by omega)]
      · rw [if_neg h2, if_neg (by omega)]

theorem data_copy_zero_apply (offset start : Nat) (mem : rmt_mem) (k : Nat)
    (ho : offset ≤ 32) (hs : start ≤ 32) :
    data_copy_zero offset start mem k
      = if offset + start ≤ k ∧ k < offset + 32 then 0 else mem k := by
  unfold data_copy_zero MAX_PULSES
  rw [zero_fold_apply offset ho _ _ _ _ (by omega)]
  have : offset + start + (32 - start) = offset + 32 := by omega
  rw [this]


theorem bits_fold (offset i byte : Nat) (mem : rmt_mem)
    (ho : offset ≤ 32) (hi : i < 4) (hb : byte < 256) :
    ∀ n, n ≤ 8 →
      (List.range n).foldl
        (fun (s : Nat × rmt_mem) j =>
          (u32 (s.1 <<< 1),
           rmt_write s.2 (u32 (u32 (j + u32 (i * 8)) + offset))
             (if (s.1 >>> 7) &&& 0x01 ≠ 0 then PULSE_BIT1 else PULSE_BIT0)))
        (byte, mem)
      = (byte * 2 ^ n,
         fun k => if offset + 8 * i ≤ k ∧ k < offset + 8 * i + n
                  then bit_code byte (k - (offset + 8 * i)) else mem k) := by
  intro n
  induction n with
  | zero =>
    intro _
    simp only [List.range_zero, List.foldl_nil, pow_zero, mul_one, Prod.mk.injEq, true_and]
    funext k
    rw [if_neg (by omega)]
  | succ n ih =>
    intro hn
    rw [List.range_succ, List.foldl_append, ih (by omega)]
    simp only [List.foldl_cons, List.foldl_nil, Prod.mk.injEq]
    have hidx : u32 (u32 (n + u32 (i * 8)) + offset) = offset + 8 * i + n := by
      simp only [u32]
      omega
    have hn8 : n < 8 := by omega
    constructor
    · clear hidx ih
      simp only [u32, Nat.shiftLeft_eq]
      interval_cases n <;> norm_num <;> omega
    · funext k
      simp only [rmt_write, hidx]
      by_cases hk : k = offset + 8 * i + n
      · have hc : offset + 8 * i ≤ k ∧ k < offset + 8 * i + (n + 1) := by omega
        have hj : k - (offset + 8 * i) = n := by omega
        rw [if_pos hk, if_pos hc, hj]
        clear hidx ih hc hj hk
        simp only [bit_code, Nat.shiftRight_eq_div_pow, Nat.and_one_is_mod]
        have e : (byte * 2 ^ n / 2 ^ 7 % 2 ≠ 0) ↔ (byte / 2 ^ (7 - n) % 2 = 1) := by
          interval_cases n <;> norm_num <;> omega
        by_cases hb1 : byte / 2 ^ (7 - n) % 2 = 1
        · rw [if_pos hb1, if_pos (e.2 hb1)]
        · rw [if_neg hb1, if_neg (fun h => hb1 (e.1 h))]
      · rw [if_neg hk]
        by_cases h2 : offset + 8 * i ≤ k ∧ k < offset + 8 * i + n
        · rw [if_pos h2, if_pos (by omega)]
        · rw [if_neg h2, if_neg (by omega)]


theorem data_copy_bits_apply (offset i byte : Nat) (mem : rmt_mem) (k : Nat)
    (ho : offset ≤ 32) (hi : i < 4) (hb : byte < 256) :
    (data_copy_bits offset i byte mem).2 k
      = if offset + 8 * i ≤ k ∧ k < offset + 8 * i + 8
        then bit_code byte (k - (offset + 8 * i)) else mem k := by
  unfold data_copy_bits
  rw [bits_fold offset i byte mem ho hi hb 8 (le_refl 8)]

theorem getD_lt_256 (B : List Nat) (h : ∀ b ∈ B, b < 256) (n : Nat) : B.getD n 0 < 256 := by
  by_cases hn : n < B.length
  · rw [List.getD_eq_getElem B 0 hn]
    exact h _ (List.getElem_mem hn)
  · rw [List.getD_eq_default B 0 (by omega)]; omega

theorem data_copy_byte_apply (ws : periph_ws2812_t) (offset : Nat) (mem : rmt_mem)
    (i k : Nat) (hw : feeder_ok ws) (ho : offset ≤ 32) (hi : i < 4)
    (hp : ws.process.pos + i < ws.led_num * 3) :
    data_copy_byte ws offset mem i k
      = if offset + 8 * i ≤ k ∧ k < offset + 8 * i + 8
        then pulse_of ws.process.buffer (8 * (ws.process.pos + i) + (k - (offset + 8 * i)))
        else mem k := by
  have hL := hw.len_lt
  have hlen := hw.len_eq
  have hidx : u32 (i + ws.process.pos) = ws.process.pos + i := by
    simp only [u32]; omega
  have hbyte := getD_lt_256 ws.process.buffer hw.bytes (ws.process.pos + i)
  have hlast : u32_sub (u32 (ws.led_num * 3)) 1 = ws.led_num * 3 - 1 := by
    rw [u32_of_lt hL, u32_sub_of_le hL (by omega)]
  have h7 : u32 (u32 (7 + u32 (i * 8)) + offset) = offset + 8 * i + 7 := by
    simp only [u32]; omega
  unfold data_copy_byte
  simp only [hidx, hlast, h7]
  by_cases hin : offset + 8 * i ≤ k ∧ k < offset + 8 * i + 8
  · rw [if_pos hin]
    have hdiv : (8 * (ws.process.pos + i) + (k - (offset + 8 * i))) / 8 = ws.process.pos + i := by
      omega
    have hmod : (8 * (ws.process.pos + i) + (k - (offset + 8 * i))) % 8 = k - (offset + 8 * i) := by
      omega
    unfold pulse_of
    rw [hdiv, hmod, hlen]
    by_cases hl : ws.process.pos + i = ws.led_num * 3 - 1
    · rw [if_pos hl]
      by_cases hk : k = offset + 8 * i + 7
      · have : 8 * (ws.process.pos + i) + (k - (offset + 8 * i)) + 1 = 8 * (ws.led_num * 3) := by
          omega
        rw [if_pos this]
        simp only [rmt_write]
        rw [if_pos hk, data_copy_bits_apply _ _ _ _ _ ho hi hbyte, if_pos (by omega)]
        have : offset + 8 * i + 7 - (offset + 8 * i) = k - (offset + 8 * i) := by omega
        rw [this]
      · have : ¬ (8 * (ws.process.pos + i) + (k - (offset + 8 * i)) + 1 = 8 * (ws.led_num * 3)) := by
          omega
        rw [if_neg this]
        simp only [rmt_write]
        rw [if_neg hk, data_copy_bits_apply _ _ _ _ _ ho hi hbyte, if_pos hin]
    · rw [if_neg hl]
      have : ¬ (8 * (ws.process.pos + i) + (k - (offset + 8 * i)) + 1 = 8 * (ws.led_num * 3)) := by
        omega
      rw [if_neg this, data_copy_bits_apply _ _ _ _ _ ho hi hbyte, if_pos hin]
  · rw [if_neg hin]
    by_cases hl : ws.process.pos + i = ws.led_num * 3 - 1
    · rw [if_pos hl]
      simp only [rmt_write]
      rw [if_neg (by omega), data_copy_bits_apply _ _ _ _ _ ho hi hbyte, if_neg hin]
    · rw [if_neg hl, data_copy_bits_apply _ _ _ _ _ ho hi hbyte, if_neg hin]

theorem bytes_fold_apply (ws : periph_ws2812_t) (offset : Nat) (mem : rmt_mem)
    (hw : feeder_ok ws) (ho : offset ≤ 32) :
    ∀ n, n ≤ 4 → ws.process.pos + n ≤ ws.led_num * 3 → ∀ k,
      (List.range n).foldl (data_copy_byte ws offset) mem k
        = if offset ≤ k ∧ k < offset + 8 * n
          then pulse_of ws.process.buffer (8 * ws.process.pos + (k - offset))
          else mem k := by
  intro n
  induction n with
  | zero =>
    intro _ _ k
    rw [if_neg (by omega)]; rfl
  | succ n ih =>
    intro hn hp k
    rw [List.range_succ, List.foldl_append, List.foldl_cons, List.foldl_nil,
      data_copy_byte_apply ws offset _ n k hw ho (by omega) (by omega),
      ih (by omega) (by omega) k]
    by_cases h1 : offset + 8 * n ≤ k ∧ k < offset + 8 * n + 8
    · rw [if_pos h1, if_pos (by omega)]
      congr 1; omega
    · rw [if_neg h1]
      by_cases h2 : offset ≤ k ∧ k < offset + 8 * n
      · rw [if_pos h2, if_pos (by omega)]
      · rw [if_neg h2, if_neg (by omega)]

theorem data_copy_len (ws : periph_ws2812_t) (hL : ws.led_num * 3 < 4294967296)
    (hp : ws.process.pos ≤ ws.led_num * 3) :
    (if u32_sub (u32 (ws.led_num * 3)) ws.process.pos > MAX_PULSES / 8 then MAX_PULSES / 8
      else u32_sub (u32 (ws.led_num * 3)) ws.process.pos) = chunk_len ws := by
  rw [u32_of_lt hL, u32_sub_of_le hL hp]
  simp only [MAX_PULSES, chunk_len]
  split <;> omega

theorem data_copy_offset (ws : periph_ws2812_t) (hh : ws.process.half ≤ 1) :
    u32 (ws.process.half * MAX_PULSES) = 32 * ws.process.half := by
  simp only [u32, MAX_PULSES]; omega

theorem data_copy_toggle (ws : periph_ws2812_t) (hh : ws.process.half ≤ 1) :
    (if ws.process.half ≠ 0 then 0 else 1) = 1 - ws.process.half := by
  split <;> omega

/-- A call with bytes remaining: result code and driver record. -/
theorem data_copy_ok (ws : periph_ws2812_t) (mem : rmt_mem) (hw : feeder_ok ws)
    (hp : ws.process.pos < ws.led_num * 3) :
    ws2812_data_copy ws mem
      = (esp_err_t.ESP_OK,
         { ws with process := { pos := ws.process.pos + chunk_len ws,
                                half := 1 - ws.process.half,
                                buffer := ws.process.buffer } },
         (ws2812_data_copy ws mem).2.2) := by
  have hL := hw.len_lt
  have hh := hw.half_le
  have hlen := data_copy_len ws hL (by omega)
  have hc : chunk_len ws ≠ 0 := by simp only [chunk_len]; omega
  have hc4 : chunk_len ws ≤ 4 := by simp only [chunk_len]; omega
  have hcl : chunk_len ws ≤ ws.led_num * 3 - ws.process.pos := by simp only [chunk_len]; omega
  have hpos : u32 (ws.process.pos + chunk_len ws) = ws.process.pos + chunk_len ws := by
    simp only [u32]; omega
  unfold ws2812_data_copy
  simp only [hlen, if_neg hc, data_copy_toggle ws hh, hpos]

/-- A call with bytes remaining: the pulse memory afterwards. -/
theorem data_copy_ok_mem (ws : periph_ws2812_t) (mem : rmt_mem) (hw : feeder_ok ws)
    (hp : ws.process.pos < ws.led_num * 3) (k : Nat) :
    (ws2812_data_copy ws mem).2.2 k
      = if 32 * ws.process.half ≤ k ∧ k < 32 * ws.process.half + 8 * chunk_len ws
        then pulse_of ws.process.buffer (8 * ws.process.pos + (k - 32 * ws.process.half))
        else if 32 * ws.process.half ≤ k ∧ k < 32 * ws.process.half + 32 then 0
        else mem k := by
  have hL := hw.len_lt
  have hh := hw.half_le
  have hlen := data_copy_len ws hL (by omega)
  have hc : chunk_len ws ≠ 0 := by simp only [chunk_len]; omega
  have hc4 : chunk_len ws ≤ 4 := by simp only [chunk_len]; omega
  have hcl : chunk_len ws ≤ ws.led_num * 3 - ws.process.pos := by simp only [chunk_len]; omega
  have h8 : u32 (chunk_len ws * 8) = 8 * chunk_len ws := by simp only [u32]; omega
  have hw1 : feeder_ok { ws with process := { ws.process with
      half := if ws.process.half ≠ 0 then 0 else 1 } } :=
    ⟨hw.len_eq, hw.len_lt, hw.bytes, by simp only []; split <;> omega⟩
  unfold ws2812_data_copy
  simp only [hlen, if_neg hc, data_copy_offset ws hh, h8]
  rw [data_copy_zero_apply _ _ _ _ (by omega) (by omega),
    bytes_fold_apply _ _ _ hw1 (by omega) _ hc4 (by simp only []; omega)]
  simp only []
  split_ifs <;> first | rfl | (exfalso; omega)

/-- A call with the cursor at the end of the buffer. -/
theorem data_copy_end (ws : periph_ws2812_t) (mem : rmt_mem)
    (hL : ws.led_num * 3 < 4294967296) (hh : ws.process.half ≤ 1)
    (hp : ws.process.pos = ws.led_num * 3) :
    ws2812_data_copy ws mem
      = (esp_err_t.ESP_FAIL,
         { ws with process := { pos := ws.process.pos,
                                half := 1 - ws.process.half,
                                buffer := ws.process.buffer } },
         (ws2812_data_copy ws mem).2.2) := by
  have hlen := data_copy_len ws hL (by omega)
  have hc : chunk_len ws = 0 := by simp only [chunk_len]; omega
  unfold ws2812_data_copy
  simp only [hlen, hc, if_true, data_copy_toggle ws hh]

theorem data_copy_end_mem (ws : periph_ws2812_t) (mem : rmt_mem)
    (hL : ws.led_num * 3 < 4294967296) (hh : ws.process.half ≤ 1)
    (hp : ws.process.pos = ws.led_num * 3) (k : Nat) :
    (ws2812_data_copy ws mem).2.2 k
      = if 32 * ws.process.half ≤ k ∧ k < 32 * ws.process.half + 32 then 0 else mem k := by
  have hlen := data_copy_len ws hL (by omega)
  have hc : chunk_len ws = 0 := by simp only [chunk_len]; omega
  unfold ws2812_data_copy
  simp only [hlen, hc, if_true, data_copy_offset ws hh]
  rw [data_copy_zero_apply _ _ _ _ (by omega) (by omega)]
  simp only [Nat.add_zero]

theorem pulse_stream_from : ∀ (fuel : Nat) (ws : periph_ws2812_t) (mem : rmt_mem),
    feeder_ok ws → ws.process.pos ≤ ws.led_num * 3 →
    (ws.led_num * 3 - ws.process.pos + 3) / 4 < fuel →
    pulse_stream fuel ws mem
      = some ((List.range' (8 * ws.process.pos) (8 * (ws.led_num * 3 - ws.process.pos))).map
          (pulse_of ws.process.buffer)) := by
  intro fuel
  induction fuel with
  | zero => intro ws mem _ _ hf; omega
  | succ fuel ih =>
    intro ws mem hw hp hf
    rw [pulse_stream]
    by_cases hend : ws.process.pos = ws.led_num * 3
    · rw [data_copy_end ws mem hw.len_lt hw.half_le hend]
      have : ws.led_num * 3 - ws.process.pos = 0 := by omega
      simp only [this, Nat.mul_zero, List.range'_zero, List.map_nil]
    · have hlt : ws.process.pos < ws.led_num * 3 := by omega
      have hc4 : chunk_len ws ≤ 4 := by simp only [chunk_len]; omega
      have hcl : chunk_len ws ≤ ws.led_num * 3 - ws.process.pos := by simp only [chunk_len]; omega
      have hc0 : chunk_len ws = 4 ∨ chunk_len ws = ws.led_num * 3 - ws.process.pos := by
        simp only [chunk_len]; omega
      have hw1 : feeder_ok { ws with process :=
          { pos := ws.process.pos + chunk_len ws, half := 1 - ws.process.half,
            buffer := ws.process.buffer } } :=
        ⟨hw.len_eq, hw.len_lt, hw.bytes, by simp only []; omega⟩
      rw [data_copy_ok ws mem hw hlt]
      simp only []
      rw [ih _ _ hw1 (by simp only []; omega) (by simp only []; omega)]
      simp only [Option.map_some', Option.some.injEq, data_copy_offset ws hw.half_le]
      have hR : List.range' (8 * ws.process.pos) (8 * (ws.led_num * 3 - ws.process.pos))
          = List.range' (8 * ws.process.pos) (8 * chunk_len ws)
            ++ List.range' (8 * (ws.process.pos + chunk_len ws))
                (8 * (ws.led_num * 3 - (ws.process.pos + chunk_len ws))) := by
        have hstart : 8 * (ws.process.pos + chunk_len ws)
            = 8 * ws.process.pos + 8 * chunk_len ws := by omega
        rw [hstart, List.range'_append_1]
        congr 1; omega
      rw [hR, List.map_append]
      congr 1
      rw [List.range'_eq_map_range, List.map_map]
      have hsub : ws.process.pos + chunk_len ws - ws.process.pos = chunk_len ws := by omega
      rw [hsub]
      apply List.map_congr_left
      intro k hk
      have hk8 : k < 8 * chunk_len ws := List.mem_range.1 hk
      rw [data_copy_ok_mem ws mem hw hlt, if_pos (by omega)]
      simp only [Function.comp_apply]
      congr 1; omega

theorem duration0_bit_code (byte j : Nat) :
    duration0 (bit_code byte j) = if byte / 2 ^ (7 - j) % 2 = 1 then PULSE_T1H else PULSE_T0H := by
  unfold bit_code
  split <;> decide

theorem duration0_set_duration1 (v d : Nat) : duration0 (set_duration1 v d) = duration0 v := by
  simp only [duration0, set_duration1]; omega

theorem duration1_set_duration1 (v d : Nat) : duration1 (set_duration1 v d) = d % 32768 := by
  simp only [duration1, set_duration1]; omega

theorem duration1_bit_code_ne (byte j : Nat) : duration1 (bit_code byte j) ≠ PULSE_TRS := by
  unfold bit_code
  split <;> decide

theorem decode_bit_pulse_of (B : List Nat) (n : Nat) :
    decode_bit (pulse_of B n) = B.getD (n / 8) 0 / 2 ^ (7 - n % 8) % 2 := by
  have h : decode_bit (bit_code (B.getD (n / 8) 0) (n % 8))
      = B.getD (n / 8) 0 / 2 ^ (7 - n % 8) % 2 := by
    unfold decode_bit
    rw [duration0_bit_code]
    by_cases hb : B.getD (n / 8) 0 / 2 ^ (7 - n % 8) % 2 = 1
    · rw [if_pos hb, if_pos rfl, hb]
    · rw [if_neg hb, if_neg (by decide)]; omega
  unfold pulse_of
  split
  · unfold decode_bit at h ⊢
    rw [duration0_set_duration1]; exact h
  · exact h

theorem decode_byte_eight (f : Nat → Nat) (b : Nat) (hb : b < 256)
    (hf : ∀ j, j < 8 → decode_bit (f j) = b / 2 ^ (7 - j) % 2) :
    decode_byte ((List.range 8).map f) = b := by
  have h0 := hf 0 (by omega)
  have h1 := hf 1 (by omega)
  have h2 := hf 2 (by omega)
  have h3 := hf 3 (by omega)
  have h4 := hf 4 (by omega)
  have h5 := hf 5 (by omega)
  have h6 := hf 6 (by omega)
  have h7 := hf 7 (by omega)
  norm_num at h0 h1 h2 h3 h4 h5 h6 h7
  simp only [decode_byte, List.range, List.range.loop, List.map, List.foldl, h0, h1, h2, h3, h4,
    h5, h6, h7]
  omega

theorem decode_stream_pulse_of (B : List Nat) (hB : ∀ b ∈ B, b < 256) :
    decode_stream ((List.range (8 * B.length)).map (pulse_of B)) = B := by
  unfold decode_stream
  apply List.ext_getElem
  · simp
  · intro k h1 h2
    simp only [List.length_map, List.length_range] at h1
    have hk : k < B.length := h2
    simp only [List.getElem_map, List.getElem_range]
    have hchunk : ((List.map (pulse_of B) (List.range (8 * B.length))).drop (8 * k)).take 8
        = (List.range 8).map (fun j => pulse_of B (8 * k + j)) := by
      apply List.ext_getElem
      · simp; omega
      · intro j hj1 hj2
        simp
    rw [hchunk]
    apply decode_byte_eight _ _ (hB _ (List.getElem_mem hk))
    intro j hj
    rw [decode_bit_pulse_of]
    have hd : (8 * k + j) / 8 = k := by omega
    have hm : (8 * k + j) % 8 = j := by omega
    rw [hd, hm, List.getD_eq_getElem B 0 hk]

/-- Claim C1: round trip of the pulse encoder.  For `led_num ≥ 1`, a buffer `B`
of `3 * led_num` bytes (a length that fits `uint32_t`), cursor and bank selector
at 0, calling `ws2812_data_copy` until it returns `ESP_FAIL` (any `fuel` above
`(3 * led_num + 3) / 4` calls reaches it) yields exactly `8 * (3 * led_num)`
descriptors; descriptor `8 * k + j` is `PULSE_BIT1` when bit `7 - j` of `B[k]` is
set and `PULSE_BIT0` otherwise, the last descriptor, and only it, carries
`duration1 = PULSE_TRS = 1000`, and decoding the stream returns `B`. -/
theorem C1_pulse_encoder_round_trip (led_num : Nat) (B : List Nat) (color : List Nat)
    (state : List periph_ws2812_state_t) (mem : rmt_mem) (fuel : Nat)
    (h1 : 1 ≤ led_num) (hlen : B.length = 3 * led_num) (hL : 3 * led_num < 4294967296)
    (hB : ∀ b ∈ B, b < 256) (hf : (3 * led_num + 3) / 4 < fuel) :
    ∃ s : List Nat,
      pulse_stream fuel
          { color := color, led_num := led_num, state := state,
            process := { pos := 0, half := 0, buffer := B } } mem = some s
      ∧ s.length = 8 * (3 * led_num)
      ∧ (∀ k j, k < 3 * led_num → j < 8 →
          s.getD (8 * k + j) 0
            = if 8 * k + j + 1 = 8 * (3 * led_num)
              then set_duration1
                (if (B.getD k 0).testBit (7 - j) then PULSE_BIT1 else PULSE_BIT0) PULSE_TRS
              else (if (B.getD k 0).testBit (7 - j) then PULSE_BIT1 else PULSE_BIT0))
      ∧ (∀ n, n < 8 * (3 * led_num) →
          (duration1 (s.getD n 0) = PULSE_TRS ↔ n + 1 = 8 * (3 * led_num)))
      ∧ PULSE_TRS = 1000
      ∧ decode_stream s = B := by
  have hw : feeder_ok
      { color := color, led_num := led_num, state := state,
        process := { pos := 0, half := 0, buffer := B } } :=
    ⟨by simp only []; omega, by simp only []; omega, hB, by simp only []; omega⟩
  have hs := pulse_stream_from fuel _ mem hw (by simp only []; omega) (by simp only []; omega)
  simp only [Nat.mul_zero, Nat.sub_zero, ← List.range_eq_range'] at hs
  have h8 : 8 * (led_num * 3) = 8 * B.length := by omega
  rw [h8] at hs
  have hget : ∀ n, n < 8 * B.length →
      ((List.range (8 * B.length)).map (pulse_of B)).getD n 0 = pulse_of B n := by
    intro n hn
    rw [List.getD_eq_getElem _ 0 (by simpa using hn)]
    simp
  refine ⟨_, hs, by simp; omega, ?_, ?_, by decide, decode_stream_pulse_of B hB⟩
  · intro k j hk hj
    rw [hget _ (by omega)]
    have hd : (8 * k + j) / 8 = k := by omega
    have hm : (8 * k + j) % 8 = j := by omega
    simp only [pulse_of, hd, hm, bit_code, Nat.testBit_to_div_mod, decide_eq_true_eq, hlen]
  · intro n hn
    rw [hget _ (by omega)]
    unfold pulse_of
    by_cases hl : n + 1 = 8 * B.length
    · rw [if_pos hl, duration1_set_duration1]
      constructor
      · intro _; omega
      · intro _; decide
    · rw [if_neg hl]
      constructor
      · intro h; exact absurd h (duration1_bit_code_ne _ _)
      · intro h; omega

theorem getD_set (l : List Nat) (i k a : Nat) :
    (l.set i a).getD k 0 = if i = k ∧ k < l.length then a else l.getD k 0 := by
  simp only [List.getD_eq_getElem?_getD, List.getElem?_set]
  by_cases h : i = k
  · subst h
    by_cases h2 : i < l.length
    · simp [h2]
    · simp [h2, List.getElem?_eq_none (Nat.le_of_not_lt h2)]
  · simp [h]

theorem buffer_fold (color : List Nat) (L : Nat) :
    ∀ n, 3 * n ≤ L →
      ((List.range n).foldl
        (fun buf i =>
          let rgb := color.getD i 0
          ((buf.set (0 + i * 3) (rgb_g rgb)).set (1 + i * 3) (rgb_r rgb)).set (2 + i * 3)
            (rgb_b rgb))
        (List.replicate L 0)).length = L
      ∧ ∀ k, ((List.range n).foldl
        (fun buf i =>
          let rgb := color.getD i 0
          ((buf.set (0 + i * 3) (rgb_g rgb)).set (1 + i * 3) (rgb_r rgb)).set (2 + i * 3)
            (rgb_b rgb))
        (List.replicate L 0)).getD k 0
          = if k < 3 * n then wire_byte (color.getD (k / 3) 0) (k % 3) else 0 := by
  intro n
  induction n with
  | zero =>
    intro _
    refine ⟨by simp, fun k => ?_⟩
    simp only [List.range_zero, List.foldl_nil, List.getD_eq_getElem?_getD,
      List.getElem?_replicate]
    split <;> simp
  | succ n ih =>
    intro hn
    obtain ⟨hl, hg⟩ := ih (by omega)
    rw [List.range_succ, List.foldl_append]
    simp only [List.foldl_cons, List.foldl_nil, List.length_set]
    refine ⟨hl, fun k => ?_⟩
    simp only [getD_set, List.length_set, hl, hg]
    by_cases h2 : k = 2 + n * 3
    · subst h2
      have hd : (2 + n * 3) / 3 = n := by omega
      have hm : (2 + n * 3) % 3 = 2 := by omega
      rw [if_pos ⟨rfl, by omega⟩, if_pos (by omega), hd, hm]
      simp [wire_byte]
    · rw [if_neg (fun h => h2 h.1.symm)]
      by_cases h1 : k = 1 + n * 3
      · subst h1
        have hd : (1 + n * 3) / 3 = n := by omega
        have hm : (1 + n * 3) % 3 = 1 := by omega
        rw [if_pos ⟨rfl, by omega⟩, if_pos (by omega), hd, hm]
        simp [wire_byte]
      · rw [if_neg (fun h => h1 h.1.symm)]
        by_cases h0 : k = 0 + n * 3
        · subst h0
          have hd : (0 + n * 3) / 3 = n := by omega
          have hm : (0 + n * 3) % 3 = 0 := by omega
          rw [if_pos ⟨rfl, by omega⟩, if_pos (by omega), hd, hm]
          simp [wire_byte]
        · rw [if_neg (fun h => h0 h.1.symm)]
          by_cases hk : k < 3 * n
          · rw [if_pos hk, if_pos (by omega)]
          · rw [if_neg hk, if_neg (by omega)]

theorem set_colors_buffer_length (ws : periph_ws2812_t) (hL : ws.led_num * 3 < 4294967296) :
    (set_colors_buffer ws).length = ws.led_num * 3 := by
  unfold set_colors_buffer
  rw [u32_of_lt hL]
  exact (buffer_fold ws.color (ws.led_num * 3) ws.led_num (by omega)).1

theorem set_colors_buffer_getD (ws : periph_ws2812_t) (hL : ws.led_num * 3 < 4294967296)
    (k : Nat) :
    (set_colors_buffer ws).getD k 0
      = if k < 3 * ws.led_num then wire_byte (ws.color.getD (k / 3) 0) (k % 3) else 0 := by
  unfold set_colors_buffer
  rw [u32_of_lt hL]
  exact (buffer_fold ws.color (ws.led_num * 3) ws.led_num (by omega)).2 k

theorem wire_byte_lt (c j : Nat) : wire_byte c j < 256 := by
  unfold wire_byte rgb_g rgb_r rgb_b
  split
  · omega
  · split <;> omega

theorem set_colors_buffer_bytes (ws : periph_ws2812_t) (hL : ws.led_num * 3 < 4294967296) :
    ∀ b ∈ set_colors_buffer ws, b < 256 := by
  intro b hb
  obtain ⟨k, hk, rfl⟩ := List.getElem_of_mem hb
  rw [← List.getD_eq_getElem _ 0 hk, set_colors_buffer_getD ws hL]
  split
  · exact wire_byte_lt _ _
  · omega

theorem data_copy_color (ws : periph_ws2812_t) (mem : rmt_mem) :
    (ws2812_data_copy ws mem).2.1.color = ws.color := by
  unfold ws2812_data_copy
  simp only []
  split_ifs <;> rfl

theorem data_copy_state (ws : periph_ws2812_t) (mem : rmt_mem) :
    (ws2812_data_copy ws mem).2.1.state = ws.state := by
  unfold ws2812_data_copy
  simp only []
  split_ifs <;> rfl

theorem data_copy_led_num (ws : periph_ws2812_t) (mem : rmt_mem) :
    (ws2812_data_copy ws mem).2.1.led_num = ws.led_num := by
  unfold ws2812_data_copy
  simp only []
  split_ifs <;> rfl

theorem data_copy_buffer (ws : periph_ws2812_t) (mem : rmt_mem) :
    (ws2812_data_copy ws mem).2.1.process.buffer = ws.process.buffer := by
  unfold ws2812_data_copy
  simp only []
  split_ifs <;> rfl


theorem prime_color (ws : periph_ws2812_t) (mem : rmt_mem) :
    (ws2812_set_colors_prime ws mem).1.color = ws.color := by
  simp only [ws2812_set_colors_prime]
  split <;> simp only [data_copy_color]

theorem prime_state (ws : periph_ws2812_t) (mem : rmt_mem) :
    (ws2812_set_colors_prime ws mem).1.state = ws.state := by
  simp only [ws2812_set_colors_prime]
  split <;> simp only [data_copy_state]

theorem prime_led_num (ws : periph_ws2812_t) (mem : rmt_mem) :
    (ws2812_set_colors_prime ws mem).1.led_num = ws.led_num := by
  simp only [ws2812_set_colors_prime]
  split <;> simp only [data_copy_led_num]

theorem prime_buffer (ws : periph_ws2812_t) (mem : rmt_mem) :
    (ws2812_set_colors_prime ws mem).1.process.buffer = set_colors_buffer ws := by
  simp only [ws2812_set_colors_prime]
  split <;> simp only [data_copy_buffer]

theorem set_colors_color (ws : periph_ws2812_t) (env : env_t) :
    (ws2812_set_colors ws env).2.1.color = ws.color := by
  simp only [ws2812_set_colors]
  split <;> simp only [prime_color]

theorem set_colors_state (ws : periph_ws2812_t) (env : env_t) :
    (ws2812_set_colors ws env).2.1.state = ws.state := by
  simp only [ws2812_set_colors]
  split <;> simp only [prime_state]

theorem set_colors_led_num (ws : periph_ws2812_t) (env : env_t) :
    (ws2812_set_colors ws env).2.1.led_num = ws.led_num := by
  simp only [ws2812_set_colors]
  split <;> simp only [prime_led_num]

/-- The frames after a call of `ws2812_set_colors`: one more when the buffer was
allocated, the same when `audio_malloc` returned `NULL`. -/
theorem set_colors_frames (ws : periph_ws2812_t) (env : env_t) :
    (ws2812_set_colors ws env).2.2.frames
      = if env.malloc_ok env.mallocs = true then env.frames ++ [set_colors_buffer ws]
        else env.frames := by
  simp only [ws2812_set_colors, audio_malloc]
  cases h : env.malloc_ok env.mallocs
  · simp only [if_true, Bool.false_eq_true, if_false]
  · simp only [Bool.true_eq_false, if_false, if_true, prime_buffer]

theorem set_colors_clock (ws : periph_ws2812_t) (env : env_t) :
    (ws2812_set_colors ws env).2.2.clock = env.clock := by
  simp only [ws2812_set_colors, audio_malloc]
  split <;> rfl

theorem set_colors_malloc_ok (ws : periph_ws2812_t) (env : env_t) :
    (ws2812_set_colors ws env).2.2.malloc_ok = env.malloc_ok := by
  simp only [ws2812_set_colors, audio_malloc]
  split <;> rfl

/-- Every call of `ws2812_set_colors` makes one call of `audio_malloc`. -/
theorem set_colors_mallocs (ws : periph_ws2812_t) (env : env_t) :
    (ws2812_set_colors ws env).2.2.mallocs = env.mallocs + 1 := by
  simp only [ws2812_set_colors, audio_malloc]
  split <;> rfl

/-- The return code of `ws2812_set_colors` tells whether the buffer was
allocated. -/
theorem set_colors_code (ws : periph_ws2812_t) (env : env_t) :
    (ws2812_set_colors ws env).1
      = if env.malloc_ok env.mallocs = true then esp_err_t.ESP_OK else esp_err_t.ESP_FAIL := by
  simp only [ws2812_set_colors, audio_malloc]
  cases h : env.malloc_ok env.mallocs
  · simp only [if_true, Bool.false_eq_true, if_false]
  · simp only [Bool.true_eq_false, if_false, if_true]

/-- The pulse memory after a call of `ws2812_set_colors`. -/
theorem set_colors_data32 (ws : periph_ws2812_t) (env : env_t) :
    (ws2812_set_colors ws env).2.2.data32
      = if env.malloc_ok env.mallocs = true then (ws2812_set_colors_prime ws env.data32).2.1
        else env.data32 := by
  simp only [ws2812_set_colors, audio_malloc]
  cases h : env.malloc_ok env.mallocs
  · simp only [if_true, Bool.false_eq_true, if_false]
  · simp only [Bool.true_eq_false, if_false, if_true]

theorem prime_feeder_ok (ws : periph_ws2812_t) (hL : ws.led_num * 3 < 4294967296) :
    feeder_ok
      { color := ws.color, led_num := ws.led_num, state := ws.state,
        process := { pos := 0, half := 0, buffer := set_colors_buffer ws } } :=
  ⟨set_colors_buffer_length ws hL, hL, set_colors_buffer_bytes ws hL, Nat.zero_le 1⟩

/-- Priming of a strip whose buffer exceeds four bytes: two calls. -/
theorem prime_long (ws : periph_ws2812_t) (mem : rmt_mem) (hL : ws.led_num * 3 < 4294967296)
    (h4 : 4 < 3 * ws.led_num) :
    (ws2812_set_colors_prime ws mem).2.2 = 2
      ∧ (ws2812_set_colors_prime ws mem).1.process.half = 0
      ∧ (ws2812_set_colors_prime ws mem).1.process.pos = min (3 * ws.led_num) 8
      ∧ ∀ k, k < 64 →
          (ws2812_set_colors_prime ws mem).2.1 k
            = if k < 8 * min (3 * ws.led_num) 8 then pulse_of (set_colors_buffer ws) k else 0 := by
  have hw1 := prime_feeder_ok ws hL
  have hc1 : chunk_len
      { color := ws.color, led_num := ws.led_num, state := ws.state,
        process := { pos := 0, half := 0, buffer := set_colors_buffer ws } } = 4 := by
    simp only [chunk_len]; omega
  have hok1 := data_copy_ok _ mem hw1 (by simp only []; omega)
  have hmem1 := data_copy_ok_mem _ mem hw1 (by simp only []; omega)
  rw [hc1] at hok1 hmem1
  simp only [Nat.zero_add, Nat.sub_zero, Nat.mul_zero] at hok1 hmem1
  have hw2 : feeder_ok
      { color := ws.color, led_num := ws.led_num, state := ws.state,
        process := { pos := 4, half := 1, buffer := set_colors_buffer ws } } :=
    ⟨hw1.len_eq, hL, hw1.bytes, Nat.le_refl 1⟩
  have hc2 : chunk_len
      { color := ws.color, led_num := ws.led_num, state := ws.state,
        process := { pos := 4, half := 1, buffer := set_colors_buffer ws } }
      = min (3 * ws.led_num) 8 - 4 := by
    simp only [chunk_len]; omega
  have hok2 := fun m => data_copy_ok _ m hw2 (by simp only []; omega)
  have hmem2 := fun m => data_copy_ok_mem _ m hw2 (by simp only []; omega)
  simp only [hc2] at hok2 hmem2
  have hu : u32 (ws.led_num * 3) = ws.led_num * 3 := u32_of_lt hL
  have hlt : 4 < ws.led_num * 3 := by omega
  simp only [ws2812_set_colors_prime]
  rw [hok1]
  simp only [hu, if_pos hlt]
  rw [hok2]
  refine ⟨trivial, by simp only [], by simp only []; omega, ?_⟩
  intro k hk
  simp only []
  rw [hmem2, hmem1]
  simp only [Nat.mul_one, Nat.zero_add, Nat.sub_zero, Nat.mul_zero, Nat.zero_le, true_and]
  split_ifs <;> first | rfl | (exfalso; omega) | (congr 1; omega)

/-- Priming of a strip whose buffer has at most four bytes: one call. -/
theorem prime_short (ws : periph_ws2812_t) (mem : rmt_mem) (hL : 3 * ws.led_num ≤ 4) :
    (ws2812_set_colors_prime ws mem).2.2 = 1
      ∧ (ws2812_set_colors_prime ws mem).1.process.half = 1
      ∧ (ws2812_set_colors_prime ws mem).1.process.pos = 3 * ws.led_num
      ∧ (∀ k, 32 ≤ k → (ws2812_set_colors_prime ws mem).2.1 k = mem k)
      ∧ ∀ k, k < 32 →
          (ws2812_set_colors_prime ws mem).2.1 k
            = if k < 8 * (3 * ws.led_num) then pulse_of (set_colors_buffer ws) k else 0 := by
  have hL2 : ws.led_num * 3 < 4294967296 := by omega
  have hw1 := prime_feeder_ok ws hL2
  have hu : u32 (ws.led_num * 3) = ws.led_num * 3 := u32_of_lt hL2
  by_cases h0 : ws.led_num = 0
  · have hend := data_copy_end _ mem hw1.len_lt hw1.half_le (by simp only []; omega)
    have hmem := data_copy_end_mem _ mem hw1.len_lt hw1.half_le (by simp only []; omega)
    simp only [Nat.mul_zero, Nat.sub_zero] at hend hmem
    have hnlt : ¬ (0 < ws.led_num * 3) := by omega
    simp only [ws2812_set_colors_prime]
    rw [hend]
    simp only [hu, if_neg hnlt]
    refine ⟨trivial, trivial, by omega, ?_, ?_⟩
    · intro k hk
      rw [hmem, if_neg (by omega)]
    · intro k hk
      rw [hmem, if_pos (by omega), if_neg (by omega)]
  · have hc1 : chunk_len
        { color := ws.color, led_num := ws.led_num, state := ws.state,
          process := { pos := 0, half := 0, buffer := set_colors_buffer ws } }
        = ws.led_num * 3 := by
      simp only [chunk_len]; omega
    have hok1 := data_copy_ok _ mem hw1 (by simp only []; omega)
    have hmem1 := data_copy_ok_mem _ mem hw1 (by simp only []; omega)
    rw [hc1] at hok1 hmem1
    simp only [Nat.zero_add, Nat.sub_zero, Nat.mul_zero] at hok1 hmem1
    have hnlt : ¬ (ws.led_num * 3 < ws.led_num * 3) := by omega
    simp only [ws2812_set_colors_prime]
    rw [hok1]
    simp only [hu, if_neg hnlt]
    refine ⟨trivial, trivial, by omega, ?_, ?_⟩
    · intro k hk
      rw [hmem1, if_neg (by omega), if_neg (by omega)]
    · intro k hk
      rw [hmem1]
      split_ifs <;> first | rfl | (exfalso; omega)

theorem C1_witness :
    (1 ≤ 1 ∧ [0xA5, 0x00, 0xFF].length = 3 * 1 ∧ 3 * 1 < 4294967296
      ∧ (∀ b ∈ [0xA5, 0x00, 0xFF], b < 256) ∧ (3 * 1 + 3) / 4 < 2)
    ∧ ∃ s : List Nat,
      pulse_stream 2
          { color := [], led_num := 1, state := [],
            process := { pos := 0, half := 0, buffer := [0xA5, 0x00, 0xFF] } }
          (fun _ => 0) = some s
      ∧ s.length = 8 * (3 * 1)
      ∧ (∀ k j, k < 3 * 1 → j < 8 →
          s.getD (8 * k + j) 0
            = if 8 * k + j + 1 = 8 * (3 * 1)
              then set_duration1
                (if (([0xA5, 0x00, 0xFF] : List Nat).getD k 0).testBit (7 - j)
                  then PULSE_BIT1 else PULSE_BIT0) PULSE_TRS
              else (if (([0xA5, 0x00, 0xFF] : List Nat).getD k 0).testBit (7 - j)
                  then PULSE_BIT1 else PULSE_BIT0))
      ∧ (∀ n, n < 8 * (3 * 1) →
          (duration1 (s.getD n 0) = PULSE_TRS ↔ n + 1 = 8 * (3 * 1)))
      ∧ PULSE_TRS = 1000
      ∧ decode_stream s = [0xA5, 0x00, 0xFF] :=
  ⟨⟨by decide, by decide, by decide, by decide, by decide⟩,
   C1_pulse_encoder_round_trip 1 [0xA5, 0x00, 0xFF] [] [] (fun _ => 0) 2
     (by decide) (by decide) (by decide) (by decide) (by decide)⟩

theorem C2_counterexample :
    (ws2812_set_colors (strip_of [0xFF0000, 0x000000, 0x000000]) env_idle).2.2.frames
        = [[0x00, 0x00, 0xFF, 0x00, 0x00, 0x00, 0x00, 0x00, 0x00]]
    ∧ (ws2812_set_colors (strip_of [0xFF0000, 0x000000, 0x000000]) env_idle).2.2.frames
        ≠ [[0x00, 0xFF, 0x00, 0x00, 0x00, 0x00, 0x00, 0x00, 0x00]] := by
  decide

/-- Claim C2, amended: `ws2812_set_colors`, when its buffer allocation succeeds,
hands the hardware a buffer of `3 * led_num` bytes holding, for every LED, the components `g`, `r`, `b` of its
packed color in this order, where `r` is the least significant byte of the
packed value, `g` the second and `b` the third byte.  For the strip
`[0xFF0000, 0, 0]` the buffer is `[0,0,0xFF, 0,0,0, 0,0,0]`; the buffer
`[0,0xFF,0, 0,0,0, 0,0,0]` belongs to the strip `[0x0000FF, 0, 0]`. -/
theorem C2_set_colors_wire_order (ws : periph_ws2812_t) (env : env_t)
    (hL : ws.led_num * 3 < 4294967296) (hmal : env.malloc_ok env.mallocs = true) :
    (∃ buf : List Nat,
      (ws2812_set_colors ws env).2.2.frames = env.frames ++ [buf]
      ∧ buf.length = 3 * ws.led_num
      ∧ ∀ i, i < ws.led_num →
          buf.getD (3 * i) 0 = color_at ws i / 256 % 256
          ∧ buf.getD (3 * i + 1) 0 = color_at ws i % 256
          ∧ buf.getD (3 * i + 2) 0 = color_at ws i / 65536 % 256)
    ∧ (ws2812_set_colors (strip_of [0xFF0000, 0x000000, 0x000000]) env_idle).2.2.frames
        = [[0x00, 0x00, 0xFF, 0x00, 0x00, 0x00, 0x00, 0x00, 0x00]]
    ∧ (ws2812_set_colors (strip_of [0x0000FF, 0x000000, 0x000000]) env_idle).2.2.frames
        = [[0x00, 0xFF, 0x00, 0x00, 0x00, 0x00, 0x00, 0x00, 0x00]] := by
  refine ⟨⟨set_colors_buffer ws, by rw [set_colors_frames ws env, if_pos hmal], ?_, ?_⟩,
    by decide, by decide⟩
  · rw [set_colors_buffer_length ws hL]; omega
  · intro i hi
    have h0 : (3 * i) / 3 = i := by omega
    have h1 : (3 * i + 1) / 3 = i := by omega
    have h2 : (3 * i + 2) / 3 = i := by omega
    have m0 : (3 * i) % 3 = 0 := by omega
    have m1 : (3 * i + 1) % 3 = 1 := by omega
    have m2 : (3 * i + 2) % 3 = 2 := by omega
    rw [set_colors_buffer_getD ws hL, set_colors_buffer_getD ws hL,
      set_colors_buffer_getD ws hL, if_pos (by omega), if_pos (by omega), if_pos (by omega),
      h0, h1, h2, m0, m1, m2]
    simp [wire_byte, color_at, rgb_g, rgb_r, rgb_b]

theorem C2_witness :
    ((strip_of [0x0000FF, 0x00FF00, 0xFF0000]).led_num * 3 < 4294967296
      ∧ env_idle.malloc_ok env_idle.mallocs = true)
    ∧ (∃ buf : List Nat,
      (ws2812_set_colors (strip_of [0x0000FF, 0x00FF00, 0xFF0000]) env_idle).2.2.frames
          = env_idle.frames ++ [buf]
      ∧ buf.length = 3 * (strip_of [0x0000FF, 0x00FF00, 0xFF0000]).led_num
      ∧ ∀ i, i < (strip_of [0x0000FF, 0x00FF00, 0xFF0000]).led_num →
          buf.getD (3 * i) 0 = color_at (strip_of [0x0000FF, 0x00FF00, 0xFF0000]) i / 256 % 256
          ∧ buf.getD (3 * i + 1) 0 = color_at (strip_of [0x0000FF, 0x00FF00, 0xFF0000]) i % 256
          ∧ buf.getD (3 * i + 2) 0
              = color_at (strip_of [0x0000FF, 0x00FF00, 0xFF0000]) i / 65536 % 256) :=
  ⟨⟨by decide, by decide⟩,
   (C2_set_colors_wire_order (strip_of [0x0000FF, 0x00FF00, 0xFF0000]) env_idle
    (by decide) (by decide)).1⟩

theorem C3_counterexample :
    (feeder_at 1 [0, 0, 0] 4 0).process.half ≤ 1
    ∧ (feeder_at 1 [0, 0, 0] 4 0).process.pos ≥ 3 * (feeder_at 1 [0, 0, 0] 4 0).led_num
    ∧ (ws2812_data_copy (feeder_at 1 [0, 0, 0] 4 0) (fun _ => 0)).1 = esp_err_t.ESP_OK
    ∧ (ws2812_data_copy (feeder_at 1 [0, 0, 0] 4 0) (fun _ => 0)).2.1.process.pos = 8
    ∧ (ws2812_data_copy (feeder_at 1 [0, 0, 0] 4 0) (fun _ => 0)).2.2 0 = PULSE_BIT0
    ∧ ¬ ((ws2812_data_copy (feeder_at 1 [0, 0, 0] 4 0) (fun _ => 0)).1 = esp_err_t.ESP_FAIL
        ∧ (ws2812_data_copy (feeder_at 1 [0, 0, 0] 4 0) (fun _ => 0)).2.1.process.pos
            = (feeder_at 1 [0, 0, 0] 4 0).process.pos
        ∧ ∀ k, k < 32 →
            (ws2812_data_copy (feeder_at 1 [0, 0, 0] 4 0) (fun _ => 0)).2.2
              (32 * (feeder_at 1 [0, 0, 0] 4 0).process.half + k) = 0) := by
  refine ⟨by decide, by decide, by decide, by decide, by decide, ?_⟩
  intro h
  exact absurd h.1 (by decide)

/-- Claim C3, amended: when the cursor stands exactly at the end of the buffer
(`pos = 3 * led_num`, a length that fits `uint32_t`) and the bank selector is 0
or 1, `ws2812_data_copy` returns `ESP_FAIL`, leaves `pos` unchanged and sets all
32 descriptors of the selected bank to zero. -/
theorem C3_bank_exhaustion (ws : periph_ws2812_t) (mem : rmt_mem)
    (hL : 3 * ws.led_num < 4294967296) (hh : ws.process.half ≤ 1)
    (hp : ws.process.pos = 3 * ws.led_num) :
    (ws2812_data_copy ws mem).1 = esp_err_t.ESP_FAIL
    ∧ (ws2812_data_copy ws mem).2.1.process.pos = ws.process.pos
    ∧ ∀ k, k < 32 → (ws2812_data_copy ws mem).2.2 (32 * ws.process.half + k) = 0 := by
  have hL2 : ws.led_num * 3 < 4294967296 := by omega
  have hp2 : ws.process.pos = ws.led_num * 3 := by omega
  have hend := data_copy_end ws mem hL2 hh hp2
  refine ⟨?_, ?_, ?_⟩
  · rw [hend]
  · rw [hend]
  · intro k hk
    rw [data_copy_end_mem ws mem hL2 hh hp2, if_pos (by omega)]

theorem C3_witness :
    (3 * (feeder_at 1 [1, 2, 3] 3 1).led_num < 4294967296
      ∧ (feeder_at 1 [1, 2, 3] 3 1).process.half ≤ 1
      ∧ (feeder_at 1 [1, 2, 3] 3 1).process.pos = 3 * (feeder_at 1 [1, 2, 3] 3 1).led_num)
    ∧ (ws2812_data_copy (feeder_at 1 [1, 2, 3] 3 1) (fun _ => 77)).1 = esp_err_t.ESP_FAIL
    ∧ (ws2812_data_copy (feeder_at 1 [1, 2, 3] 3 1) (fun _ => 77)).2.1.process.pos
        = (feeder_at 1 [1, 2, 3] 3 1).process.pos
    ∧ ∀ k, k < 32 →
        (ws2812_data_copy (feeder_at 1 [1, 2, 3] 3 1) (fun _ => 77)).2.2
          (32 * (feeder_at 1 [1, 2, 3] 3 1).process.half + k) = 0 :=
  ⟨⟨by decide, by decide, by decide⟩,
   C3_bank_exhaustion (feeder_at 1 [1, 2, 3] 3 1) (fun _ => 77)
     (by decide) (by decide) (by decide)⟩

theorem C4_counterexample :
    3 * (strip_of [0x0000FF]).led_num * 8 < MAX_PULSES
    ∧ (ws2812_set_colors_prime (strip_of [0x0000FF]) (fun _ => 57005)).2.2 = 1
    ∧ (ws2812_set_colors_prime (strip_of [0x0000FF]) (fun _ => 57005)).1.process.half = 1
    ∧ (∀ k, k < 32 →
        (ws2812_set_colors_prime (strip_of [0x0000FF]) (fun _ => 57005)).2.1 (32 + k) = 57005)
    ∧ (ws2812_set_colors_prime (strip_of [0x0000FF]) (fun _ => 57005)).2.2 ≠ 2 := by
  decide

/-- Claim C4, amended: once its buffer is allocated and before it starts the
hardware, `ws2812_set_colors` calls
`ws2812_data_copy` a second time exactly when bytes remain after the first call.
For `led_num ≥ 2` (more than four bytes) it makes two calls and all 64
descriptors of bank 0 and bank 1 are written: they hold the pulses of the first
`min (3 * led_num) 8` bytes followed by zeros.  For a short strip
(`3 * led_num ≤ 4`, that is `led_num ≤ 1`) it makes one call, which fills bank
0 only; bank 1 is left as it was. -/
theorem C4_priming (ws : periph_ws2812_t) (mem : rmt_mem)
    (hL : ws.led_num * 3 < 4294967296) :
    (4 < 3 * ws.led_num →
      (ws2812_set_colors_prime ws mem).2.2 = 2
      ∧ (ws2812_set_colors_prime ws mem).1.process.half = 0
      ∧ ∀ k, k < 64 →
          (ws2812_set_colors_prime ws mem).2.1 k
            = if k < 8 * min (3 * ws.led_num) 8
              then pulse_of (set_colors_buffer ws) k else 0)
    ∧ (3 * ws.led_num ≤ 4 →
      (ws2812_set_colors_prime ws mem).2.2 = 1
      ∧ (ws2812_set_colors_prime ws mem).1.process.half = 1
      ∧ (∀ k, 32 ≤ k → (ws2812_set_colors_prime ws mem).2.1 k = mem k)
      ∧ ∀ k, k < 32 →
          (ws2812_set_colors_prime ws mem).2.1 k
            = if k < 8 * (3 * ws.led_num) then pulse_of (set_colors_buffer ws) k else 0)
    ∧ (ws2812_set_colors ws { data32 := mem, frames := [], clock := 0,
                              malloc_ok := fun _ => true, mallocs := 0 }).2.2.data32
        = (ws2812_set_colors_prime ws mem).2.1 := by
  refine ⟨fun h4 => ?_, fun h4 => ?_, rfl⟩
  · obtain ⟨a, b, _, d⟩ := prime_long ws mem hL h4
    exact ⟨a, b, d⟩
  · obtain ⟨a, b, _, d, e⟩ := prime_short ws mem h4
    exact ⟨a, b, d, e⟩

theorem C4_witness :
    ((strip_of [0x0000FF, 0x00FF00]).led_num * 3 < 4294967296
      ∧ 4 < 3 * (strip_of [0x0000FF, 0x00FF00]).led_num)
    ∧ (ws2812_set_colors_prime (strip_of [0x0000FF, 0x00FF00]) (fun _ => 57005)).2.2 = 2
    ∧ (ws2812_set_colors_prime (strip_of [0x0000FF, 0x00FF00]) (fun _ => 57005)).1.process.half
        = 0
    ∧ ∀ k, k < 64 →
        (ws2812_set_colors_prime (strip_of [0x0000FF, 0x00FF00]) (fun _ => 57005)).2.1 k
          = if k < 8 * min (3 * (strip_of [0x0000FF, 0x00FF00]).led_num) 8
            then pulse_of (set_colors_buffer (strip_of [0x0000FF, 0x00FF00])) k else 0 :=
  ⟨⟨by decide, by decide⟩,
   (C4_priming (strip_of [0x0000FF, 0x00FF00]) (fun _ => 57005) (by decide)).1 (by decide)⟩

theorem getD_set_any {α : Type} (l : List α) (i k : Nat) (a d : α) :
    (l.set i a).getD k d = if i = k ∧ k < l.length then a else l.getD k d := by
  simp only [List.getD_eq_getElem?_getD, List.getElem?_set]
  by_cases h : i = k
  · subst h
    by_cases h2 : i < l.length
    · simp [h2]
    · simp [h2, List.getElem?_eq_none (Nat.le_of_not_lt h2)]
  · simp [h]

theorem only_led_refl (j : Nat) (ws : periph_ws2812_t) : only_led j ws ws :=
  ⟨rfl, rfl, rfl, fun _ _ => rfl, fun _ _ => rfl⟩

theorem only_led_trans {j : Nat} {a b c : periph_ws2812_t}
    (h1 : only_led j a b) (h2 : only_led j b c) : only_led j a c :=
  ⟨h2.led_num.trans h1.led_num, h2.state_len.trans h1.state_len,
   h2.color_len.trans h1.color_len,
   fun i hi => (h2.state_eq i hi).trans (h1.state_eq i hi),
   fun i hi => (h2.color_eq i hi).trans (h1.color_eq i hi)⟩

theorem only_led_upd_state (j : Nat) (ws : periph_ws2812_t)
    (f : periph_ws2812_state_t → periph_ws2812_state_t) : only_led j ws (upd_state ws j f) := by
  refine ⟨rfl, by simp [upd_state], rfl, fun i hi => ?_, fun _ _ => rfl⟩
  simp only [state_at, upd_state, getD_set_any]
  rw [if_neg (fun h => hi h.1.symm)]

theorem only_led_set_color (j : Nat) (ws : periph_ws2812_t) (c : Nat) :
    only_led j ws (set_color ws j c) := by
  refine ⟨rfl, rfl, by simp [set_color], fun _ _ => rfl, fun i hi => ?_⟩
  simp only [color_at, set_color, getD_set_any]
  rw [if_neg (fun h => hi h.1.symm)]

theorem only_led_set_colors (j : Nat) (ws : periph_ws2812_t) (env : env_t) :
    only_led j ws (ws2812_set_colors ws env).2.1 := by
  refine ⟨set_colors_led_num ws env, ?_, ?_, fun i _ => ?_, fun i _ => ?_⟩
  · rw [set_colors_state]
  · rw [set_colors_color]
  · simp only [state_at, set_colors_state]
  · simp only [color_at, set_colors_color]

theorem ol_upd {j : Nat} {ws x : periph_ws2812_t}
    (f : periph_ws2812_state_t → periph_ws2812_state_t) (h : only_led j ws x) :
    only_led j ws (upd_state x j f) :=
  only_led_trans h (only_led_upd_state j x f)

theorem ol_col {j : Nat} {ws x : periph_ws2812_t} (c : Nat) (h : only_led j ws x) :
    only_led j ws (set_color x j c) :=
  only_led_trans h (only_led_set_color j x c)

theorem ol_tx {j : Nat} {ws x : periph_ws2812_t} (env : env_t) (h : only_led j ws x) :
    only_led j ws (ws2812_set_colors x env).2.1 :=
  only_led_trans h (only_led_set_colors j x env)

theorem handler_one_only (j : Nat) (ws : periph_ws2812_t) (env : env_t) :
    only_led j ws (handler_one j ws env).1 := by
  unfold handler_one
  simp only []
  split_ifs <;> try simp only []
  · exact ol_upd _ (ol_upd _ (ol_tx _ (ol_col _ (only_led_refl j ws))))
  · exact only_led_refl j ws

theorem handler_blink_phase_only (T : Nat → Int) (j : Nat) (ws : periph_ws2812_t) (env : env_t) :
    only_led j ws (handler_blink_phase T j ws env).1 := by
  unfold handler_blink_phase
  simp only []
  split_ifs <;> try simp only []
  · exact ol_tx _ (ol_col _ (ol_upd _ (ol_upd _ (ol_upd _ (only_led_refl j ws)))))
  · exact only_led_refl j ws
  · exact only_led_refl j ws
  · exact ol_tx _ (ol_col _ (ol_upd _ (ol_upd _ (only_led_refl j ws))))
  · exact only_led_refl j ws

theorem handler_blink_only (T : Nat → Int) (j : Nat) (ws : periph_ws2812_t) (env : env_t) :
    only_led j ws (handler_blink T j ws env).1 := by
  unfold handler_blink
  simp only []
  split_ifs <;> try simp only []
  · exact only_led_refl j ws
  · exact only_led_trans (ol_upd _ (ol_tx _ (ol_col _ (only_led_refl j ws))))
      (handler_blink_phase_only T j _ _)
  · exact handler_blink_phase_only T j _ _

theorem handler_fade_phase_only (T : Nat → Int) (j : Nat) (ws : periph_ws2812_t) (env : env_t) :
    only_led j ws (handler_fade_phase T j ws env).1 := by
  unfold handler_fade_phase
  simp only []
  split_ifs <;> try simp only []
  · exact ol_upd _ (ol_upd _ (ol_col _ (ol_tx _ (ol_upd _ (only_led_refl j ws)))))
  · exact ol_col _ (ol_tx _ (ol_upd _ (only_led_refl j ws)))
  · exact only_led_refl j ws
  · exact ol_upd _ (ol_col _ (ol_tx _ (ol_upd _ (only_led_refl j ws))))
  · exact ol_col _ (ol_tx _ (ol_upd _ (only_led_refl j ws)))
  · exact only_led_refl j ws

theorem handler_fade_only (T : Nat → Int) (j : Nat) (ws : periph_ws2812_t) (env : env_t) :
    only_led j ws (handler_fade T j ws env).1 := by
  unfold handler_fade
  simp only []
  split_ifs <;> try simp only []
  · exact only_led_refl j ws
  · exact ol_upd _ (ol_tx _ (ol_col _ (only_led_refl j ws)))
  · exact handler_fade_phase_only T j _ _

theorem handler_led_only (T : Nat → Int) (j : Nat) (ws : periph_ws2812_t) (env : env_t) :
    only_led j ws (ws2812_timer_handler_led T j ws env).1 := by
  unfold ws2812_timer_handler_led
  split
  · exact handler_one_only j ws env
  · exact handler_blink_only T j ws env
  · exact handler_fade_only T j ws env
  · exact only_led_refl j ws

theorem state_len_upd (ws : periph_ws2812_t) (i : Nat)
    (f : periph_ws2812_state_t → periph_ws2812_state_t) :
    (upd_state ws i f).state.length = ws.state.length := by
  simp [upd_state]

theorem color_len_upd (ws : periph_ws2812_t) (i : Nat)
    (f : periph_ws2812_state_t → periph_ws2812_state_t) :
    (upd_state ws i f).color.length = ws.color.length := rfl

theorem state_len_col (ws : periph_ws2812_t) (i c : Nat) :
    (set_color ws i c).state.length = ws.state.length := rfl

theorem color_len_col (ws : periph_ws2812_t) (i c : Nat) :
    (set_color ws i c).color.length = ws.color.length := by
  simp [set_color]

theorem state_len_tx (ws : periph_ws2812_t) (env : env_t) :
    (ws2812_set_colors ws env).2.1.state.length = ws.state.length := by
  rw [set_colors_state]

theorem color_len_tx (ws : periph_ws2812_t) (env : env_t) :
    (ws2812_set_colors ws env).2.1.color.length = ws.color.length := by
  rw [set_colors_color]

theorem state_at_upd (ws : periph_ws2812_t) (i : Nat)
    (f : periph_ws2812_state_t → periph_ws2812_state_t) (h : i < ws.state.length) :
    state_at (upd_state ws i f) i = f (state_at ws i) := by
  simp only [state_at, upd_state, getD_set_any]
  rw [if_pos ⟨trivial, h⟩]

theorem color_at_upd (ws : periph_ws2812_t) (i j : Nat)
    (f : periph_ws2812_state_t → periph_ws2812_state_t) :
    color_at (upd_state ws i f) j = color_at ws j := rfl

theorem state_at_col (ws : periph_ws2812_t) (i j c : Nat) :
    state_at (set_color ws i c) j = state_at ws j := rfl

theorem color_at_col (ws : periph_ws2812_t) (i c : Nat) (h : i < ws.color.length) :
    color_at (set_color ws i c) i = c := by
  simp only [color_at, set_color, getD_set_any]
  rw [if_pos ⟨trivial, h⟩]

theorem state_at_tx (ws : periph_ws2812_t) (env : env_t) (j : Nat) :
    state_at (ws2812_set_colors ws env).2.1 j = state_at ws j := by
  simp only [state_at, set_colors_state]

theorem color_at_tx (ws : periph_ws2812_t) (env : env_t) (j : Nat) :
    color_at (ws2812_set_colors ws env).2.1 j = color_at ws j := by
  simp only [color_at, set_colors_color]

/-- Case ONE-SHOT with `is_on` set: the result of the evaluation. -/
theorem handler_one_fire (i : Nat) (ws : periph_ws2812_t) (env : env_t)
    (hs : i < ws.state.length) (hc : i < ws.color.length)
    (hon : (state_at ws i).is_on = true) :
    state_at (handler_one i ws env).1 i
        = { state_at ws i with is_on := false, loop := 0 }
    ∧ color_at (handler_one i ws env).1 i = (state_at ws i).color
    ∧ (handler_one i ws env).2.frames
        = (if env.malloc_ok env.mallocs = true
           then env.frames ++ [set_colors_buffer (set_color ws i (state_at ws i).color)]
           else env.frames)
    ∧ (handler_one i ws env).2.clock = env.clock := by
  unfold handler_one
  rw [if_pos hon]
  simp only [state_at_upd, color_at_upd, state_at_col, color_at_col, state_at_tx, color_at_tx,
    state_len_upd, state_len_col, state_len_tx, color_len_upd, color_len_col, color_len_tx,
    set_colors_frames, set_colors_clock, hs, hc, and_self]

/-- Case ONE-SHOT with `is_on` clear: nothing happens. -/
theorem handler_one_idle (i : Nat) (ws : periph_ws2812_t) (env : env_t)
    (hoff : (state_at ws i).is_on = false) :
    handler_one i ws env = (ws, env) := by
  unfold handler_one
  rw [if_neg (by rw [hoff]; decide)]

theorem handler_eq_loop (T : Nat → Int) (ws : periph_ws2812_t) (env : env_t) :
    ws2812_timer_handler T ws env = handler_loop T (List.range ws.led_num) (ws, env) := rfl

theorem handler_loop_nil (T : Nat → Int) (s : periph_ws2812_t × env_t) :
    handler_loop T [] s = s := rfl

theorem handler_loop_cons (T : Nat → Int) (j : Nat) (l : List Nat)
    (s : periph_ws2812_t × env_t) :
    handler_loop T (j :: l) s = handler_loop T l (ws2812_timer_handler_led T j s.1 s.2) := rfl

theorem handler_loop_append (T : Nat → Int) (l1 l2 : List Nat) (s : periph_ws2812_t × env_t) :
    handler_loop T (l1 ++ l2) s = handler_loop T l2 (handler_loop T l1 s) := by
  simp only [handler_loop, List.foldl_append]

/-- The loop keeps `led_num` and the array lengths. -/
theorem handler_loop_len (T : Nat → Int) :
    ∀ (l : List Nat) (s : periph_ws2812_t × env_t),
      (handler_loop T l s).1.led_num = s.1.led_num
      ∧ (handler_loop T l s).1.state.length = s.1.state.length
      ∧ (handler_loop T l s).1.color.length = s.1.color.length := by
  intro l
  induction l with
  | nil => intro s; exact ⟨rfl, rfl, rfl⟩
  | cons j l ih =>
    intro s
    rw [handler_loop_cons]
    obtain ⟨a, b, c⟩ := ih (ws2812_timer_handler_led T j s.1 s.2)
    have h := handler_led_only T j s.1 s.2
    exact ⟨a.trans h.led_num, b.trans h.state_len, c.trans h.color_len⟩

/-- The loop over `l` leaves the entries of an LED outside `l` alone. -/
theorem handler_loop_frame (T : Nat → Int) (i : Nat) :
    ∀ (l : List Nat) (s : periph_ws2812_t × env_t), i ∉ l →
      state_at (handler_loop T l s).1 i = state_at s.1 i
      ∧ color_at (handler_loop T l s).1 i = color_at s.1 i := by
  intro l
  induction l with
  | nil => intro s _; exact ⟨rfl, rfl⟩
  | cons j l ih =>
    intro s hi
    rw [handler_loop_cons]
    have hij : i ≠ j := fun h => hi (h ▸ List.mem_cons_self _ _)
    have hil : i ∉ l := fun h => hi (List.mem_cons_of_mem _ h)
    obtain ⟨a, b⟩ := ih (ws2812_timer_handler_led T j s.1 s.2) hil
    have h := handler_led_only T j s.1 s.2
    exact ⟨a.trans (h.state_eq i hij), b.trans (h.color_eq i hij)⟩

theorem range_split (n i : Nat) (h : i < n) :
    List.range n = List.range i ++ (i :: List.range' (i + 1) (n - (i + 1))) := by
  have h1 : List.range' 0 n = List.range' 0 (1 + (n - (i + 1)) + i) := by
    congr 1; omega
  have h2 : List.range' i (1 + (n - (i + 1))) = i :: List.range' (i + 1) (n - (i + 1)) := by
    rw [Nat.add_comm 1, List.range'_succ]
  rw [List.range_eq_range', List.range_eq_range', h1,
    ← List.range'_append_1 0 i (1 + (n - (i + 1))), Nat.zero_add, h2]

/-- A tick, split at LED `i`. -/
theorem handler_split (T : Nat → Int) (ws : periph_ws2812_t) (env : env_t) (i : Nat)
    (h : i < ws.led_num) :
    ws2812_timer_handler T ws env
      = handler_loop T (List.range' (i + 1) (ws.led_num - (i + 1)))
          (ws2812_timer_handler_led T i (handler_upto T ws env i).1 (handler_upto T ws env i).2) := by
  rw [handler_eq_loop, range_split ws.led_num i h, handler_loop_append, handler_loop_cons]
  rfl

theorem not_mem_range_self (i : Nat) : i ∉ List.range i := by
  simp

theorem not_mem_range_after (i n : Nat) : i ∉ List.range' (i + 1) n := by
  simp only [List.mem_range'_1, not_and, not_lt]
  intro h; omega

/-- When the loop reaches LED `i`, its entries are what they were when the tick
began. -/
theorem handler_upto_frame (T : Nat → Int) (ws : periph_ws2812_t) (env : env_t) (i : Nat) :
    state_at (handler_upto T ws env i).1 i = state_at ws i
    ∧ color_at (handler_upto T ws env i).1 i = color_at ws i :=
  handler_loop_frame T i (List.range i) (ws, env) (not_mem_range_self i)

theorem handler_upto_len (T : Nat → Int) (ws : periph_ws2812_t) (env : env_t) (i : Nat) :
    (handler_upto T ws env i).1.led_num = ws.led_num
    ∧ (handler_upto T ws env i).1.state.length = ws.state.length
    ∧ (handler_upto T ws env i).1.color.length = ws.color.length :=
  handler_loop_len T (List.range i) (ws, env)

/-- After a tick, the entries of LED `i` are those its own evaluation left. -/
theorem handler_at (T : Nat → Int) (ws : periph_ws2812_t) (env : env_t) (i : Nat)
    (h : i < ws.led_num) :
    state_at (ws2812_timer_handler T ws env).1 i
        = state_at (ws2812_timer_handler_led T i (handler_upto T ws env i).1
            (handler_upto T ws env i).2).1 i
    ∧ color_at (ws2812_timer_handler T ws env).1 i
        = color_at (ws2812_timer_handler_led T i (handler_upto T ws env i).1
            (handler_upto T ws env i).2).1 i := by
  rw [handler_split T ws env i h]
  exact handler_loop_frame T i _ _ (not_mem_range_after i _)

theorem handler_len (T : Nat → Int) (ws : periph_ws2812_t) (env : env_t) :
    (ws2812_timer_handler T ws env).1.led_num = ws.led_num
    ∧ (ws2812_timer_handler T ws env).1.state.length = ws.state.length
    ∧ (ws2812_timer_handler T ws env).1.color.length = ws.color.length :=
  handler_loop_len T (List.range ws.led_num) (ws, env)

theorem handler_led_one (T : Nat → Int) (i : Nat) (ws : periph_ws2812_t) (env : env_t)
    (hm : (state_at ws i).mode = periph_ws2812_mode_t.PERIPH_WS2812_ONE) :
    ws2812_timer_handler_led T i ws env = handler_one i ws env := by
  unfold ws2812_timer_handler_led
  rw [hm]

/-! ### The heap oracle is never changed -/

theorem handler_one_malloc_ok (i : Nat) (ws : periph_ws2812_t) (env : env_t) :
    (handler_one i ws env).2.malloc_ok = env.malloc_ok := by
  unfold handler_one
  split
  · simp only [set_colors_malloc_ok]
  · rfl

theorem handler_blink_phase_malloc_ok (T : Nat → Int) (i : Nat) (ws : periph_ws2812_t)
    (env : env_t) : (handler_blink_phase T i ws env).2.malloc_ok = env.malloc_ok := by
  unfold handler_blink_phase
  simp only [audio_sys_get_time_ms]
  split_ifs <;> simp only [set_colors_malloc_ok]

theorem handler_blink_malloc_ok (T : Nat → Int) (i : Nat) (ws : periph_ws2812_t) (env : env_t) :
    (handler_blink T i ws env).2.malloc_ok = env.malloc_ok := by
  unfold handler_blink
  split_ifs
  · rfl
  · simp only [handler_blink_phase_malloc_ok, set_colors_malloc_ok]
  · simp only [handler_blink_phase_malloc_ok]

theorem handler_fade_phase_malloc_ok (T : Nat → Int) (i : Nat) (ws : periph_ws2812_t)
    (env : env_t) : (handler_fade_phase T i ws env).2.malloc_ok = env.malloc_ok := by
  unfold handler_fade_phase
  simp only [audio_sys_get_time_ms]
  split_ifs <;> simp only [set_colors_malloc_ok]

theorem handler_fade_malloc_ok (T : Nat → Int) (i : Nat) (ws : periph_ws2812_t) (env : env_t) :
    (handler_fade T i ws env).2.malloc_ok = env.malloc_ok := by
  unfold handler_fade
  split_ifs
  · rfl
  · simp only [set_colors_malloc_ok]
  · exact handler_fade_phase_malloc_ok T i ws env

theorem handler_led_malloc_ok (T : Nat → Int) (j : Nat) (ws : periph_ws2812_t) (env : env_t) :
    (ws2812_timer_handler_led T j ws env).2.malloc_ok = env.malloc_ok := by
  unfold ws2812_timer_handler_led
  split
  · exact handler_one_malloc_ok j ws env
  · exact handler_blink_malloc_ok T j ws env
  · exact handler_fade_malloc_ok T j ws env
  · rfl

theorem handler_loop_malloc_ok (T : Nat → Int) :
    ∀ (l : List Nat) (s : periph_ws2812_t × env_t),
      (handler_loop T l s).2.malloc_ok = s.2.malloc_ok := by
  intro l
  induction l with
  | nil => intro s; rfl
  | cons j l ih =>
    intro s
    rw [handler_loop_cons, ih, handler_led_malloc_ok]

/-- A heap on which every allocation succeeds stays so through the loop. -/
theorem handler_loop_malloc (T : Nat → Int) (l : List Nat) (s : periph_ws2812_t × env_t)
    (h : malloc_succeeds s.2) : malloc_succeeds (handler_loop T l s).2 := by
  unfold malloc_succeeds
  rw [handler_loop_malloc_ok]
  exact h

theorem handler_upto_malloc (T : Nat → Int) (ws : periph_ws2812_t) (env : env_t) (i : Nat)
    (h : malloc_succeeds env) : malloc_succeeds (handler_upto T ws env i).2 :=
  handler_loop_malloc T (List.range i) (ws, env) h

theorem handler_malloc (T : Nat → Int) (ws : periph_ws2812_t) (env : env_t)
    (h : malloc_succeeds env) : malloc_succeeds (ws2812_timer_handler T ws env).2 :=
  handler_loop_malloc T (List.range ws.led_num) (ws, env) h

/-- A ONE-SHOT LED that fires calls `ws2812_set_colors`, hence `audio_malloc`,
once. -/
theorem handler_one_fire_mallocs (i : Nat) (ws : periph_ws2812_t) (env : env_t)
    (hon : (state_at ws i).is_on = true) :
    (handler_one i ws env).2.mallocs = env.mallocs + 1 := by
  unfold handler_one
  rw [if_pos hon]
  simp only [set_colors_mallocs]

/-- Bytes of LED `i` in the frame serialised from a color array whose entry `i`
has just been set to `c`. -/
theorem frame_bytes_of_set_color (ws : periph_ws2812_t) (i c : Nat)
    (hi : i < ws.led_num) (hc : i < ws.color.length) (hL : ws.led_num * 3 < 4294967296) :
    (set_colors_buffer (set_color ws i c)).getD (3 * i) 0 = rgb_g c
    ∧ (set_colors_buffer (set_color ws i c)).getD (3 * i + 1) 0 = rgb_r c
    ∧ (set_colors_buffer (set_color ws i c)).getD (3 * i + 2) 0 = rgb_b c := by
  have hn : (set_color ws i c).led_num = ws.led_num := rfl
  have hcol : (set_color ws i c).color.getD i 0 = c := color_at_col ws i c hc
  have h0 : (3 * i) / 3 = i := by omega
  have h1 : (3 * i + 1) / 3 = i := by omega
  have h2 : (3 * i + 2) / 3 = i := by omega
  have m0 : (3 * i) % 3 = 0 := by omega
  have m1 : (3 * i + 1) % 3 = 1 := by omega
  have m2 : (3 * i + 2) % 3 = 2 := by omega
  rw [set_colors_buffer_getD _ (by rw [hn]; exact hL),
    set_colors_buffer_getD _ (by rw [hn]; exact hL),
    set_colors_buffer_getD _ (by rw [hn]; exact hL), hn,
    if_pos (by omega), if_pos (by omega), if_pos (by omega), h0, h1, h2, m0, m1, m2, hcol]
  simp [wire_byte]

/-- Claim C5: a ONE-SHOT LED `i` with `is_on` set is served by one tick: its
color is written to `color[i]`, `is_on` becomes false, `loop` becomes 0 and no
other field of `state[i]` changes; when the buffer allocation made in its
evaluation succeeds, one frame carrying that color is transmitted during that
evaluation (when `audio_malloc` returns `NULL` no frame is sent, the state
changes all the same).  The following tick neither changes the LED nor
transmits for it: its evaluation returns driver record and environment as they
are. -/
theorem C5_one_shot_fires_once (T : Nat → Int) (ws : periph_ws2812_t) (env : env_t) (i : Nat)
    (hi : i < ws.led_num) (hs : ws.state.length = ws.led_num)
    (hc : ws.color.length = ws.led_num) (hL : ws.led_num * 3 < 4294967296)
    (hm : (state_at ws i).mode = periph_ws2812_mode_t.PERIPH_WS2812_ONE)
    (hon : (state_at ws i).is_on = true) :
    state_at (ws2812_timer_handler T ws env).1 i
        = { state_at ws i with is_on := false, loop := 0 }
    ∧ color_at (ws2812_timer_handler T ws env).1 i = (state_at ws i).color
    ∧ ((handler_upto T ws env i).2.malloc_ok (handler_upto T ws env i).2.mallocs = true →
        ∃ frame : List Nat,
          (ws2812_timer_handler_led T i (handler_upto T ws env i).1
              (handler_upto T ws env i).2).2.frames
            = (handler_upto T ws env i).2.frames ++ [frame]
          ∧ frame.getD (3 * i) 0 = rgb_g (state_at ws i).color
          ∧ frame.getD (3 * i + 1) 0 = rgb_r (state_at ws i).color
          ∧ frame.getD (3 * i + 2) 0 = rgb_b (state_at ws i).color)
    ∧ (¬ (handler_upto T ws env i).2.malloc_ok (handler_upto T ws env i).2.mallocs = true →
        (ws2812_timer_handler_led T i (handler_upto T ws env i).1
            (handler_upto T ws env i).2).2.frames
          = (handler_upto T ws env i).2.frames)
    ∧ state_at (ws2812_timer_handler T (ws2812_timer_handler T ws env).1
          (ws2812_timer_handler T ws env).2).1 i
        = state_at (ws2812_timer_handler T ws env).1 i
    ∧ color_at (ws2812_timer_handler T (ws2812_timer_handler T ws env).1
          (ws2812_timer_handler T ws env).2).1 i
        = color_at (ws2812_timer_handler T ws env).1 i
    ∧ ws2812_timer_handler_led T i
        (handler_upto T (ws2812_timer_handler T ws env).1 (ws2812_timer_handler T ws env).2 i).1
        (handler_upto T (ws2812_timer_handler T ws env).1 (ws2812_timer_handler T ws env).2 i).2
        = handler_upto T (ws2812_timer_handler T ws env).1 (ws2812_timer_handler T ws env).2 i := by
  -- the first tick
  obtain ⟨ms, mc⟩ := handler_upto_frame T ws env i
  obtain ⟨mn, msl, mcl⟩ := handler_upto_len T ws env i
  have hm1 : (state_at (handler_upto T ws env i).1 i).mode
      = periph_ws2812_mode_t.PERIPH_WS2812_ONE := by rw [ms]; exact hm
  have hon1 : (state_at (handler_upto T ws env i).1 i).is_on = true := by rw [ms]; exact hon
  obtain ⟨f1, f2, f3, _⟩ := handler_one_fire i (handler_upto T ws env i).1
    (handler_upto T ws env i).2 (by omega) (by omega) hon1
  obtain ⟨a1, a2⟩ := handler_at T ws env i hi
  rw [handler_led_one T i _ _ hm1] at a1 a2
  rw [f1, ms] at a1
  rw [f2, ms] at a2
  -- the following tick
  obtain ⟨tn, tsl, tcl⟩ := handler_len T ws env
  obtain ⟨ns, _⟩ := handler_upto_frame T (ws2812_timer_handler T ws env).1
    (ws2812_timer_handler T ws env).2 i
  have hm2 : (state_at (handler_upto T (ws2812_timer_handler T ws env).1
      (ws2812_timer_handler T ws env).2 i).1 i).mode
      = periph_ws2812_mode_t.PERIPH_WS2812_ONE := by rw [ns, a1]; exact hm
  have hoff2 : (state_at (handler_upto T (ws2812_timer_handler T ws env).1
      (ws2812_timer_handler T ws env).2 i).1 i).is_on = false := by rw [ns, a1]
  have hid : ws2812_timer_handler_led T i
      (handler_upto T (ws2812_timer_handler T ws env).1 (ws2812_timer_handler T ws env).2 i).1
      (handler_upto T (ws2812_timer_handler T ws env).1 (ws2812_timer_handler T ws env).2 i).2
      = handler_upto T (ws2812_timer_handler T ws env).1 (ws2812_timer_handler T ws env).2 i := by
    rw [handler_led_one T i _ _ hm2, handler_one_idle i _ _ hoff2]
  obtain ⟨b1, b2⟩ := handler_at T (ws2812_timer_handler T ws env).1
    (ws2812_timer_handler T ws env).2 i (by omega)
  rw [hid] at b1 b2
  obtain ⟨ns1, nc1⟩ := handler_upto_frame T (ws2812_timer_handler T ws env).1
    (ws2812_timer_handler T ws env).2 i
  rw [ms] at f3
  refine ⟨a1, a2, fun hmal =>
    ⟨set_colors_buffer (set_color (handler_upto T ws env i).1 i (state_at ws i).color), ?_, ?_⟩,
    fun hmal => ?_, b1.trans ns1, b2.trans nc1, hid⟩
  · rw [handler_led_one T i _ _ hm1, f3, if_pos hmal]
  · exact frame_bytes_of_set_color _ i _ (by omega) (by omega) (by rw [mn]; exact hL)
  · rw [handler_led_one T i _ _ hm1, f3, if_neg hmal]

theorem C5_witness :
    (1 < (strip_of [0, 0, 0]).led_num
      ∧ (strip_of [0, 0, 0]).state.length = (strip_of [0, 0, 0]).led_num
      ∧ (strip_of [0, 0, 0]).color.length = (strip_of [0, 0, 0]).led_num
      ∧ (strip_of [0, 0, 0]).led_num * 3 < 4294967296)
    ∧ state_at
        (ws2812_timer_handler (fun n => n)
          (upd_state (strip_of [0, 0, 0]) 1 (fun s =>
            { s with color := 0x0000FF, mode := periph_ws2812_mode_t.PERIPH_WS2812_ONE,
                     is_on := true, loop := 5 }))
          env_idle).1 1
        = { state_zero with color := 0x0000FF,
                            mode := periph_ws2812_mode_t.PERIPH_WS2812_ONE,
                            is_on := false, loop := 0 }
    ∧ (ws2812_timer_handler (fun n => n)
          (upd_state (strip_of [0, 0, 0]) 1 (fun s =>
            { s with color := 0x0000FF, mode := periph_ws2812_mode_t.PERIPH_WS2812_ONE,
                     is_on := true, loop := 5 }))
          env_idle).2.frames = [[0, 0, 0, 0, 255, 0, 0, 0, 0]]
    ∧ (ws2812_timer_handler (fun n => n)
          (upd_state (strip_of [0, 0, 0]) 1 (fun s =>
            { s with color := 0x0000FF, mode := periph_ws2812_mode_t.PERIPH_WS2812_ONE,
                     is_on := true, loop := 5 }))
          env_no_heap).2.frames = []
    ∧ (state_at (ws2812_timer_handler (fun n => n)
          (upd_state (strip_of [0, 0, 0]) 1 (fun s =>
            { s with color := 0x0000FF, mode := periph_ws2812_mode_t.PERIPH_WS2812_ONE,
                     is_on := true, loop := 5 }))
          env_no_heap).1 1).is_on = false :=
  ⟨⟨by decide, by decide, by decide, by decide⟩,
   (C5_one_shot_fires_once (fun n => n)
      (upd_state (strip_of [0, 0, 0]) 1 (fun s =>
        { s with color := 0x0000FF, mode := periph_ws2812_mode_t.PERIPH_WS2812_ONE,
                 is_on := true, loop := 5 }))
      env_idle 1 (by decide) (by decide) (by decide) (by decide) (by decide) (by decide)).1,
   by decide, by decide, by decide⟩

theorem handler_led_fade (T : Nat → Int) (i : Nat) (ws : periph_ws2812_t) (env : env_t)
    (hm : (state_at ws i).mode = periph_ws2812_mode_t.PERIPH_WS2812_FADE) :
    ws2812_timer_handler_led T i ws env = handler_fade T i ws env := by
  unfold ws2812_timer_handler_led
  rw [hm]

theorem handler_led_blink (T : Nat → Int) (i : Nat) (ws : periph_ws2812_t) (env : env_t)
    (hm : (state_at ws i).mode = periph_ws2812_mode_t.PERIPH_WS2812_BLINK) :
    ws2812_timer_handler_led T i ws env = handler_blink T i ws env := by
  unfold ws2812_timer_handler_led
  rw [hm]

/-- FADE, fade-down step (`is_on` set, threshold exceeded). -/
theorem fade_down_step (T : Nat → Int) (i : Nat) (ws : periph_ws2812_t) (env : env_t)
    (hs : i < ws.state.length) (hc : i < ws.color.length)
    (hset : (state_at ws i).is_set = true) (hloop : (state_at ws i).loop ≠ 0)
    (hon : (state_at ws i).is_on = true)
    (ht : T env.clock - (state_at ws i).tick
        > ((u32 ((state_at ws i).time_on_ms / FADE_STEP) : Nat) : Int)) :
    color_at (handler_fade T i ws env).1 i
        = rgb_num (color_at ws i)
            (u8_sub (rgb_r (color_at ws i)) (rgb_r (state_at ws i).color / FADE_STEP))
            (u8_sub (rgb_g (color_at ws i)) (rgb_g (state_at ws i).color / FADE_STEP))
            (u8_sub (rgb_b (color_at ws i)) (rgb_b (state_at ws i).color / FADE_STEP))
    ∧ (handler_fade T i ws env).2.frames
        = (if env.malloc_ok env.mallocs = true
           then env.frames ++ [set_colors_buffer (upd_state ws i (fun s => { s with tick := T (env.clock + 1) }))]
           else env.frames)
    ∧ (handler_fade T i ws env).2.clock = env.clock + 2
    ∧ state_at (handler_fade T i ws env).1 i
        = if u8_sub (rgb_r (color_at ws i)) (rgb_r (state_at ws i).color / FADE_STEP)
              ≤ rgb_r (state_at ws i).color / FADE_STEP
            ∧ u8_sub (rgb_g (color_at ws i)) (rgb_g (state_at ws i).color / FADE_STEP)
              ≤ rgb_g (state_at ws i).color / FADE_STEP
            ∧ u8_sub (rgb_b (color_at ws i)) (rgb_b (state_at ws i).color / FADE_STEP)
              ≤ rgb_b (state_at ws i).color / FADE_STEP
          then { state_at ws i with tick := T (env.clock + 1), is_on := false,
                                    loop := u32_sub (state_at ws i).loop 1 }
          else { state_at ws i with tick := T (env.clock + 1) } := by
  have hset2 : ¬ ((state_at ws i).is_set = false) := by rw [hset]; decide
  unfold handler_fade
  rw [if_neg hset2, if_neg hloop]
  unfold handler_fade_phase
  simp only [audio_sys_get_time_ms]
  rw [if_pos hon, if_pos ht]
  simp only [state_at_upd, color_at_upd, state_at_col, color_at_col, state_at_tx, color_at_tx,
    state_len_upd, state_len_col, state_len_tx, color_len_upd, color_len_col, color_len_tx,
    set_colors_frames, set_colors_clock, hs, hc]
  split_ifs <;>
  simp_all only [state_at_upd, color_at_upd, state_at_col, color_at_col, state_at_tx,
    color_at_tx, state_len_upd, state_len_col, state_len_tx, color_len_upd, color_len_col,
    color_len_tx, set_colors_frames, set_colors_clock, if_true, if_false, and_self,
    Bool.false_eq_true, true_and, and_true]

/-- FADE, fade-up step (`is_on` clear, threshold exceeded). -/
theorem fade_up_step (T : Nat → Int) (i : Nat) (ws : periph_ws2812_t) (env : env_t)
    (hs : i < ws.state.length) (hc : i < ws.color.length)
    (hset : (state_at ws i).is_set = true) (hloop : (state_at ws i).loop ≠ 0)
    (hoff : (state_at ws i).is_on = false)
    (ht : T env.clock - (state_at ws i).tick
        > ((u32 ((state_at ws i).time_off_ms / FADE_STEP) : Nat) : Int)) :
    color_at (handler_fade T i ws env).1 i
        = rgb_num (color_at ws i)
            (u8_add (rgb_r (color_at ws i)) (rgb_r (state_at ws i).color / FADE_STEP))
            (u8_add (rgb_g (color_at ws i)) (rgb_g (state_at ws i).color / FADE_STEP))
            (u8_add (rgb_b (color_at ws i)) (rgb_b (state_at ws i).color / FADE_STEP))
    ∧ (handler_fade T i ws env).2.frames
        = (if env.malloc_ok env.mallocs = true
           then env.frames ++ [set_colors_buffer (upd_state ws i (fun s => { s with tick := T (env.clock + 1) }))]
           else env.frames)
    ∧ (handler_fade T i ws env).2.clock = env.clock + 2
    ∧ state_at (handler_fade T i ws env).1 i
        = if ((rgb_r (state_at ws i).color : Int)
                - (u8_add (rgb_r (color_at ws i)) (rgb_r (state_at ws i).color / FADE_STEP) : Int)
              ≤ ((rgb_r (state_at ws i).color / FADE_STEP : Nat) : Int))
            ∧ ((rgb_g (state_at ws i).color : Int)
                - (u8_add (rgb_g (color_at ws i)) (rgb_g (state_at ws i).color / FADE_STEP) : Int)
              ≤ ((rgb_g (state_at ws i).color / FADE_STEP : Nat) : Int))
            ∧ ((rgb_b (state_at ws i).color : Int)
                - (u8_add (rgb_b (color_at ws i)) (rgb_b (state_at ws i).color / FADE_STEP) : Int)
              ≤ ((rgb_b (state_at ws i).color / FADE_STEP : Nat) : Int))
          then { state_at ws i with tick := T (env.clock + 1), is_on := true }
          else { state_at ws i with tick := T (env.clock + 1) } := by
  have hset2 : ¬ ((state_at ws i).is_set = false) := by rw [hset]; decide
  have hoff2 : ¬ ((state_at ws i).is_on = true) := by rw [hoff]; decide
  unfold handler_fade
  rw [if_neg hset2, if_neg hloop]
  unfold handler_fade_phase
  simp only [audio_sys_get_time_ms]
  rw [if_neg hoff2, if_pos ht]
  simp only [state_at_upd, color_at_upd, state_at_col, color_at_col, state_at_tx, color_at_tx,
    state_len_upd, state_len_col, state_len_tx, color_len_upd, color_len_col, color_len_tx,
    set_colors_frames, set_colors_clock, hs, hc]
  split_ifs <;>
  simp_all only [state_at_upd, color_at_upd, state_at_col, color_at_col, state_at_tx,
    color_at_tx, state_len_upd, state_len_col, state_len_tx, color_len_upd, color_len_col,
    color_len_tx, set_colors_frames, set_colors_clock, if_true, if_false, and_self,
    Bool.false_eq_true, true_and, and_true]

/-- FADE, no step due: the phase test fails and only the clock has been read. -/
theorem fade_wait (T : Nat → Int) (i : Nat) (ws : periph_ws2812_t) (env : env_t)
    (hset : (state_at ws i).is_set = true) (hloop : (state_at ws i).loop ≠ 0)
    (ht : ¬ (T env.clock - (state_at ws i).tick
        > ((u32 ((if (state_at ws i).is_on then (state_at ws i).time_on_ms
                  else (state_at ws i).time_off_ms) / FADE_STEP) : Nat) : Int))) :
    handler_fade T i ws env = (ws, { env with clock := env.clock + 1 }) := by
  have hset2 : ¬ ((state_at ws i).is_set = false) := by rw [hset]; decide
  unfold handler_fade
  rw [if_neg hset2, if_neg hloop]
  unfold handler_fade_phase
  simp only [audio_sys_get_time_ms]
  by_cases hon : (state_at ws i).is_on = true
  · rw [if_pos hon] at ht
    rw [if_pos hon, if_neg ht]
  · rw [if_neg hon] at ht
    rw [if_neg hon, if_neg ht]

/-- FADE, terminal frame (`loop` is 0): one black frame, `is_set` cleared. -/
theorem fade_terminal (T : Nat → Int) (i : Nat) (ws : periph_ws2812_t) (env : env_t)
    (hs : i < ws.state.length) (hc : i < ws.color.length)
    (hset : (state_at ws i).is_set = true) (hloop : (state_at ws i).loop = 0) :
    color_at (handler_fade T i ws env).1 i = LED2812_COLOR_BLACK
    ∧ (handler_fade T i ws env).2.frames
        = (if env.malloc_ok env.mallocs = true
           then env.frames ++ [set_colors_buffer (set_color ws i LED2812_COLOR_BLACK)]
           else env.frames)
    ∧ (handler_fade T i ws env).2.clock = env.clock
    ∧ state_at (handler_fade T i ws env).1 i = { state_at ws i with is_set := false } := by
  have hset2 : ¬ ((state_at ws i).is_set = false) := by rw [hset]; decide
  unfold handler_fade
  rw [if_neg hset2, if_pos hloop]
  simp only [state_at_upd, color_at_upd, state_at_col, color_at_col, state_at_tx, color_at_tx,
    state_len_upd, state_len_col, state_len_tx, color_len_upd, color_len_col, color_len_tx,
    set_colors_frames, set_colors_clock, hs, hc, and_self]

/-- BLINK or FADE with `is_set` clear: the LED is skipped. -/
theorem fade_skip (T : Nat → Int) (i : Nat) (ws : periph_ws2812_t) (env : env_t)
    (hset : (state_at ws i).is_set = false) :
    handler_fade T i ws env = (ws, env) := by
  unfold handler_fade
  rw [if_pos hset]

theorem blink_skip (T : Nat → Int) (i : Nat) (ws : periph_ws2812_t) (env : env_t)
    (hset : (state_at ws i).is_set = false) :
    handler_blink T i ws env = (ws, env) := by
  unfold handler_blink
  rw [if_pos hset]

/-- BLINK phase tests: nothing is due (the test of the current phase fails, or
`is_on` is set with `loop` at 0); only the clock has been read. -/
theorem blink_phase_idle (T : Nat → Int) (i : Nat) (ws : periph_ws2812_t) (env : env_t)
    (h : ((state_at ws i).is_on = true ∧ (state_at ws i).loop = 0)
      ∨ ¬ (T env.clock - (state_at ws i).tick
            > (((if (state_at ws i).is_on then (state_at ws i).time_off_ms
                else (state_at ws i).time_on_ms) : Nat) : Int))) :
    handler_blink_phase T i ws env = (ws, { env with clock := env.clock + 1 }) := by
  unfold handler_blink_phase
  simp only [audio_sys_get_time_ms]
  by_cases hon : (state_at ws i).is_on = true
  · rw [if_pos hon]
    rw [if_pos hon] at h
    by_cases ht : T env.clock - (state_at ws i).tick > ((state_at ws i).time_off_ms : Int)
    · rw [if_pos ht]
      rcases h with h | h
      · rw [if_neg (by rw [h.2]; exact Nat.lt_irrefl 0)]
      · exact absurd ht h
    · rw [if_neg ht]
  · rw [if_neg hon]
    rw [if_neg hon] at h
    rcases h with h | h
    · exact absurd h.1 hon
    · rw [if_neg h]

/-- BLINK phase tests, `is_on` set, off-time elapsed, `loop` positive: the
target color is shown. -/
theorem blink_phase_on_fire (T : Nat → Int) (i : Nat) (ws : periph_ws2812_t) (env : env_t)
    (hs : i < ws.state.length) (hc : i < ws.color.length)
    (hon : (state_at ws i).is_on = true) (hloop : (state_at ws i).loop > 0)
    (ht : T env.clock - (state_at ws i).tick > ((state_at ws i).time_off_ms : Int)) :
    color_at (handler_blink_phase T i ws env).1 i = (state_at ws i).color
    ∧ (handler_blink_phase T i ws env).2.frames
        = (if env.malloc_ok env.mallocs = true
           then env.frames ++ [set_colors_buffer (set_color
                (upd_state ws i (fun s =>
                  { s with loop := u32_sub s.loop 1, is_on := false, tick := T (env.clock + 1) }))
                i (state_at ws i).color)]
           else env.frames)
    ∧ (handler_blink_phase T i ws env).2.clock = env.clock + 2
    ∧ state_at (handler_blink_phase T i ws env).1 i
        = { state_at ws i with loop := u32_sub (state_at ws i).loop 1, is_on := false,
                               tick := T (env.clock + 1) } := by
  have hu : upd_state (upd_state (upd_state ws i (fun s => { s with loop := u32_sub s.loop 1 }))
        i (fun s => { s with is_on := false })) i (fun s => { s with tick := T (env.clock + 1) })
      = upd_state ws i (fun s =>
          { s with loop := u32_sub s.loop 1, is_on := false, tick := T (env.clock + 1) }) := by
    simp only [upd_state, state_at, getD_set_any, List.length_set, List.set_set, hs, and_self,
      if_true]
  unfold handler_blink_phase
  simp only [audio_sys_get_time_ms]
  rw [if_pos hon, if_pos ht, if_pos hloop]
  simp only [hu]
  simp only [state_at_upd, color_at_upd, state_at_col, color_at_col, state_at_tx, color_at_tx,
    state_len_upd, state_len_col, state_len_tx, color_len_upd, color_len_col, color_len_tx,
    set_colors_frames, set_colors_clock, hs, hc, and_self]

/-- BLINK phase tests, `is_on` clear, on-time elapsed: black is shown. -/
theorem blink_phase_off_fire (T : Nat → Int) (i : Nat) (ws : periph_ws2812_t) (env : env_t)
    (hs : i < ws.state.length) (hc : i < ws.color.length)
    (hoff : (state_at ws i).is_on = false)
    (ht : T env.clock - (state_at ws i).tick > ((state_at ws i).time_on_ms : Int)) :
    color_at (handler_blink_phase T i ws env).1 i = LED2812_COLOR_BLACK
    ∧ (handler_blink_phase T i ws env).2.frames
        = (if env.malloc_ok env.mallocs = true
           then env.frames ++ [set_colors_buffer (set_color
                (upd_state ws i (fun s => { s with is_on := true, tick := T (env.clock + 1) }))
                i LED2812_COLOR_BLACK)]
           else env.frames)
    ∧ (handler_blink_phase T i ws env).2.clock = env.clock + 2
    ∧ state_at (handler_blink_phase T i ws env).1 i
        = { state_at ws i with is_on := true, tick := T (env.clock + 1) } := by
  have hoff2 : ¬ ((state_at ws i).is_on = true) := by rw [hoff]; decide
  have hu : upd_state (upd_state ws i (fun s => { s with is_on := true }))
        i (fun s => { s with tick := T (env.clock + 1) })
      = upd_state ws i (fun s => { s with is_on := true, tick := T (env.clock + 1) }) := by
    simp only [upd_state, state_at, getD_set_any, List.length_set, List.set_set, hs, and_self,
      if_true]
  unfold handler_blink_phase
  simp only [audio_sys_get_time_ms]
  rw [if_neg hoff2, if_pos ht]
  simp only [hu]
  simp only [state_at_upd, color_at_upd, state_at_col, color_at_col, state_at_tx, color_at_tx,
    state_len_upd, state_len_col, state_len_tx, color_len_upd, color_len_col, color_len_tx,
    set_colors_frames, set_colors_clock, hs, hc, and_self]

/-- BLINK with `loop` at 0: the terminal block, then the phase tests on the
record it leaves. -/
theorem blink_terminal_eq (T : Nat → Int) (i : Nat) (ws : periph_ws2812_t) (env : env_t)
    (hset : (state_at ws i).is_set = true) (hloop : (state_at ws i).loop = 0) :
    handler_blink T i ws env
      = handler_blink_phase T i
          (upd_state (ws2812_set_colors (set_color ws i LED2812_COLOR_BLACK) env).2.1 i
            (fun s => { s with is_set := false }))
          (ws2812_set_colors (set_color ws i LED2812_COLOR_BLACK) env).2.2 := by
  have hset2 : ¬ ((state_at ws i).is_set = false) := by rw [hset]; decide
  unfold handler_blink
  rw [if_neg hset2]
  simp only [if_pos hloop]

/-- BLINK with `loop` positive: the phase tests alone. -/
theorem blink_running_eq (T : Nat → Int) (i : Nat) (ws : periph_ws2812_t) (env : env_t)
    (hset : (state_at ws i).is_set = true) (hloop : (state_at ws i).loop ≠ 0) :
    handler_blink T i ws env = handler_blink_phase T i ws env := by
  have hset2 : ¬ ((state_at ws i).is_set = false) := by rw [hset]; decide
  unfold handler_blink
  rw [if_neg hset2]
  simp only [if_neg hloop]

/-- The record the terminal block of BLINK leaves, seen at LED `i`. -/
theorem blink_terminal_mid (i : Nat) (ws : periph_ws2812_t) (env : env_t)
    (hs : i < ws.state.length) (hc : i < ws.color.length) :
    state_at (upd_state (ws2812_set_colors (set_color ws i LED2812_COLOR_BLACK) env).2.1 i
        (fun s => { s with is_set := false })) i = { state_at ws i with is_set := false }
    ∧ color_at (upd_state (ws2812_set_colors (set_color ws i LED2812_COLOR_BLACK) env).2.1 i
        (fun s => { s with is_set := false })) i = LED2812_COLOR_BLACK
    ∧ i < (upd_state (ws2812_set_colors (set_color ws i LED2812_COLOR_BLACK) env).2.1 i
        (fun s => { s with is_set := false })).state.length
    ∧ i < (upd_state (ws2812_set_colors (set_color ws i LED2812_COLOR_BLACK) env).2.1 i
        (fun s => { s with is_set := false })).color.length := by
  simp only [state_at_upd, color_at_upd, state_at_col, color_at_col, state_at_tx, color_at_tx,
    state_len_upd, state_len_col, state_len_tx, color_len_upd, color_len_col, color_len_tx,
    set_colors_frames, set_colors_clock, hs, hc, and_self]

/-- BLINK, terminal frame when the phase tests that follow do nothing (`is_on`
set, or the on-time not yet elapsed): one black frame, `is_set` cleared. -/
theorem blink_terminal_single (T : Nat → Int) (i : Nat) (ws : periph_ws2812_t) (env : env_t)
    (hs : i < ws.state.length) (hc : i < ws.color.length)
    (hset : (state_at ws i).is_set = true) (hloop : (state_at ws i).loop = 0)
    (h : (state_at ws i).is_on = true
      ∨ ¬ (T env.clock - (state_at ws i).tick > ((state_at ws i).time_on_ms : Int))) :
    color_at (handler_blink T i ws env).1 i = LED2812_COLOR_BLACK
    ∧ (handler_blink T i ws env).2.frames
        = (if env.malloc_ok env.mallocs = true
           then env.frames ++ [set_colors_buffer (set_color ws i LED2812_COLOR_BLACK)]
           else env.frames)
    ∧ (handler_blink T i ws env).2.clock = env.clock + 1
    ∧ state_at (handler_blink T i ws env).1 i = { state_at ws i with is_set := false } := by
  obtain ⟨m1, m2, _, _⟩ := blink_terminal_mid i ws env hs hc
  rw [blink_terminal_eq T i ws env hset hloop, blink_phase_idle]
  · simp only []
    refine ⟨m2, ?_, ?_, m1⟩
    · rw [set_colors_frames]
    · rw [set_colors_clock]
  · rw [m1, set_colors_clock]
    simp only []
    rcases h with h | h
    · exact Or.inl ⟨h, hloop⟩
    · by_cases hon : (state_at ws i).is_on = true
      · exact Or.inl ⟨hon, hloop⟩
      · right
        rw [if_neg hon]
        exact h

/-- BLINK, terminal frame while `is_on` is clear and the on-time has elapsed:
the phase test that follows the terminal block fires as well, so two black
frames are transmitted and `is_on`, `tick` change along with `is_set`. -/
theorem blink_terminal_double (T : Nat → Int) (i : Nat) (ws : periph_ws2812_t) (env : env_t)
    (hs : i < ws.state.length) (hc : i < ws.color.length)
    (hset : (state_at ws i).is_set = true) (hloop : (state_at ws i).loop = 0)
    (hoff : (state_at ws i).is_on = false)
    (ht : T env.clock - (state_at ws i).tick > ((state_at ws i).time_on_ms : Int)) :
    color_at (handler_blink T i ws env).1 i = LED2812_COLOR_BLACK
    ∧ (env.malloc_ok env.mallocs = true → env.malloc_ok (env.mallocs + 1) = true →
        ∃ f1 f2 : List Nat, (handler_blink T i ws env).2.frames = env.frames ++ [f1, f2])
    ∧ (handler_blink T i ws env).2.clock = env.clock + 2
    ∧ state_at (handler_blink T i ws env).1 i
        = { state_at ws i with is_set := false, is_on := true, tick := T (env.clock + 1) } := by
  obtain ⟨m1, m2, m3, m4⟩ := blink_terminal_mid i ws env hs hc
  obtain ⟨p1, p2, p3, p4⟩ := blink_phase_off_fire T i
    (upd_state (ws2812_set_colors (set_color ws i LED2812_COLOR_BLACK) env).2.1 i
      (fun s => { s with is_set := false }))
    (ws2812_set_colors (set_color ws i LED2812_COLOR_BLACK) env).2.2 m3 m4
    (by rw [m1]; exact hoff) (by rw [m1, set_colors_clock]; exact ht)
  rw [set_colors_frames, set_colors_malloc_ok, set_colors_mallocs] at p2
  rw [blink_terminal_eq T i ws env hset hloop]
  refine ⟨p1, fun h1 h2 => ?_, ?_, ?_⟩
  · rw [p2, if_pos h1, if_pos h2, List.append_assoc, List.singleton_append]
    exact ⟨_, _, rfl⟩
  · rw [p3, set_colors_clock]
  · rw [p4, m1, set_colors_clock]

/-- Claim C6, evaluated on a run the claim covers: one LED, BLINK with
`loop = 1`, both durations 0, target color `0x0000FF`, a clock that advances
10 ms per reading.  The first tick transmits the target color and leaves
`loop = 0`; the second tick clears `is_set` and transmits two black frames, not
one. -/
theorem C6_blink_terminal_tick_two_frames :
    (run_ticks clock_10ms 1 (after_control clock_10ms (strip_of [0])
        [cfg_of periph_ws2812_mode_t.PERIPH_WS2812_BLINK 0x0000FF 1] env_idle)).2.frames
      = [[0, 255, 0]]
    ∧ (state_at (run_ticks clock_10ms 1 (after_control clock_10ms (strip_of [0])
        [cfg_of periph_ws2812_mode_t.PERIPH_WS2812_BLINK 0x0000FF 1] env_idle)).1 0).is_set
      = true
    ∧ (run_ticks clock_10ms 2 (after_control clock_10ms (strip_of [0])
        [cfg_of periph_ws2812_mode_t.PERIPH_WS2812_BLINK 0x0000FF 1] env_idle)).2.frames
      = [[0, 255, 0], [0, 0, 0], [0, 0, 0]]
    ∧ (state_at (run_ticks clock_10ms 2 (after_control clock_10ms (strip_of [0])
        [cfg_of periph_ws2812_mode_t.PERIPH_WS2812_BLINK 0x0000FF 1] env_idle)).1 0).is_set
      = false := by
  decide

/-- Claim C7, case by case: an LED with `is_set` set and `loop = 0` is
evaluated.  In FADE mode, and in BLINK mode when `is_on` is set or the on-time
has not elapsed, black is written, one frame is transmitted (when its buffer
allocation succeeds) and `is_set` is cleared.  In BLINK mode with `is_on` clear
and the on-time elapsed, the evaluation runs on into the phase test: two frames
are transmitted (when both buffer allocations succeed), and `is_on` and `tick`
change as well. -/
theorem C7_terminal_frame_cases (T : Nat → Int) (i : Nat) (ws : periph_ws2812_t) (env : env_t)
    (hs : i < ws.state.length) (hc : i < ws.color.length)
    (hset : (state_at ws i).is_set = true) (hloop : (state_at ws i).loop = 0) :
    ((state_at ws i).mode = periph_ws2812_mode_t.PERIPH_WS2812_FADE →
      color_at (ws2812_timer_handler_led T i ws env).1 i = LED2812_COLOR_BLACK
      ∧ (env.malloc_ok env.mallocs = true →
          (ws2812_timer_handler_led T i ws env).2.frames
            = env.frames ++ [set_colors_buffer (set_color ws i LED2812_COLOR_BLACK)])
      ∧ state_at (ws2812_timer_handler_led T i ws env).1 i
          = { state_at ws i with is_set := false })
    ∧ ((state_at ws i).mode = periph_ws2812_mode_t.PERIPH_WS2812_BLINK →
      ((state_at ws i).is_on = true
        ∨ ¬ (T env.clock - (state_at ws i).tick > ((state_at ws i).time_on_ms : Int))) →
      color_at (ws2812_timer_handler_led T i ws env).1 i = LED2812_COLOR_BLACK
      ∧ (env.malloc_ok env.mallocs = true →
          (ws2812_timer_handler_led T i ws env).2.frames
            = env.frames ++ [set_colors_buffer (set_color ws i LED2812_COLOR_BLACK)])
      ∧ state_at (ws2812_timer_handler_led T i ws env).1 i
          = { state_at ws i with is_set := false })
    ∧ ((state_at ws i).mode = periph_ws2812_mode_t.PERIPH_WS2812_BLINK →
      (state_at ws i).is_on = false →
      T env.clock - (state_at ws i).tick > ((state_at ws i).time_on_ms : Int) →
      color_at (ws2812_timer_handler_led T i ws env).1 i = LED2812_COLOR_BLACK
      ∧ (env.malloc_ok env.mallocs = true → env.malloc_ok (env.mallocs + 1) = true →
          ∃ f1 f2 : List Nat,
            (ws2812_timer_handler_led T i ws env).2.frames = env.frames ++ [f1, f2])
      ∧ state_at (ws2812_timer_handler_led T i ws env).1 i
          = { state_at ws i with is_set := false, is_on := true,
                                 tick := T (env.clock + 1) }) := by
  refine ⟨fun hm => ?_, fun hm h => ?_, fun hm hoff ht => ?_⟩
  · rw [handler_led_fade T i ws env hm]
    obtain ⟨a, b, _, d⟩ := fade_terminal T i ws env hs hc hset hloop
    exact ⟨a, fun hmal => by rw [b, if_pos hmal], d⟩
  · rw [handler_led_blink T i ws env hm]
    obtain ⟨a, b, _, d⟩ := blink_terminal_single T i ws env hs hc hset hloop h
    exact ⟨a, fun hmal => by rw [b, if_pos hmal], d⟩
  · rw [handler_led_blink T i ws env hm]
    obtain ⟨a, b, _, d⟩ := blink_terminal_double T i ws env hs hc hset hloop hoff ht
    exact ⟨a, b, d⟩

theorem C7_witness :
    (0 < (upd_state (strip_of [0x0000FF]) 0 (fun s =>
          { s with color := 0x0000FF, mode := periph_ws2812_mode_t.PERIPH_WS2812_BLINK,
                   is_set := true, loop := 0, is_on := false })).state.length
      ∧ 0 < (upd_state (strip_of [0x0000FF]) 0 (fun s =>
          { s with color := 0x0000FF, mode := periph_ws2812_mode_t.PERIPH_WS2812_BLINK,
                   is_set := true, loop := 0, is_on := false })).color.length)
    ∧ ∃ f1 f2 : List Nat,
        (ws2812_timer_handler_led clock_10ms 0
          (upd_state (strip_of [0x0000FF]) 0 (fun s =>
            { s with color := 0x0000FF, mode := periph_ws2812_mode_t.PERIPH_WS2812_BLINK,
                     is_set := true, loop := 0, is_on := false }))
          (env_at 1)).2.frames = (env_at 1).frames ++ [f1, f2] :=
  ⟨⟨by decide, by decide⟩,
   ((C7_terminal_frame_cases clock_10ms 0
      (upd_state (strip_of [0x0000FF]) 0 (fun s =>
        { s with color := 0x0000FF, mode := periph_ws2812_mode_t.PERIPH_WS2812_BLINK,
                 is_set := true, loop := 0, is_on := false }))
      (env_at 1) (by decide) (by decide) (by decide) (by decide)).2.2
        (by decide) (by decide) (by decide)).2.1 (by decide) (by decide)⟩

/-- Bytes of LED `i` in the frame serialised from the color array. -/
theorem frame_bytes_at (ws : periph_ws2812_t) (i : Nat)
    (hi : i < ws.led_num) (hL : ws.led_num * 3 < 4294967296) :
    (set_colors_buffer ws).getD (3 * i) 0 = rgb_g (color_at ws i)
    ∧ (set_colors_buffer ws).getD (3 * i + 1) 0 = rgb_r (color_at ws i)
    ∧ (set_colors_buffer ws).getD (3 * i + 2) 0 = rgb_b (color_at ws i) := by
  have h0 : (3 * i) / 3 = i := by omega
  have h1 : (3 * i + 1) / 3 = i := by omega
  have h2 : (3 * i + 2) / 3 = i := by omega
  have m0 : (3 * i) % 3 = 0 := by omega
  have m1 : (3 * i + 1) % 3 = 1 := by omega
  have m2 : (3 * i + 2) % 3 = 2 := by omega
  rw [set_colors_buffer_getD ws hL, set_colors_buffer_getD ws hL, set_colors_buffer_getD ws hL,
    if_pos (by omega), if_pos (by omega), if_pos (by omega), h0, h1, h2, m0, m1, m2]
  simp [wire_byte, color_at]

/-- Claim C9, as the code has it: in a FADE step of either phase the frame is
handed to `ws2812_set_colors` before the new value is stored, so the frame of
that tick (sent when the buffer allocation succeeds) carries the previous color
of LED `i`, and `color[i]` holds the newly computed channels only afterwards. -/
theorem C9_fade_transmits_previous_color (T : Nat → Int) (i : Nat) (ws : periph_ws2812_t)
    (env : env_t) (hi : i < ws.led_num) (hs : i < ws.state.length) (hc : i < ws.color.length)
    (hL : ws.led_num * 3 < 4294967296)
    (hm : (state_at ws i).mode = periph_ws2812_mode_t.PERIPH_WS2812_FADE)
    (hset : (state_at ws i).is_set = true) (hloop : (state_at ws i).loop ≠ 0)
    (ht : T env.clock - (state_at ws i).tick
        > ((u32 ((if (state_at ws i).is_on then (state_at ws i).time_on_ms
                  else (state_at ws i).time_off_ms) / FADE_STEP) : Nat) : Int)) :
    (env.malloc_ok env.mallocs = true →
      ∃ frame : List Nat,
        (ws2812_timer_handler_led T i ws env).2.frames = env.frames ++ [frame]
        ∧ frame.getD (3 * i) 0 = rgb_g (color_at ws i)
        ∧ frame.getD (3 * i + 1) 0 = rgb_r (color_at ws i)
        ∧ frame.getD (3 * i + 2) 0 = rgb_b (color_at ws i))
    ∧ color_at (ws2812_timer_handler_led T i ws env).1 i
        = if (state_at ws i).is_on
          then rgb_num (color_at ws i)
            (u8_sub (rgb_r (color_at ws i)) (rgb_r (state_at ws i).color / FADE_STEP))
            (u8_sub (rgb_g (color_at ws i)) (rgb_g (state_at ws i).color / FADE_STEP))
            (u8_sub (rgb_b (color_at ws i)) (rgb_b (state_at ws i).color / FADE_STEP))
          else rgb_num (color_at ws i)
            (u8_add (rgb_r (color_at ws i)) (rgb_r (state_at ws i).color / FADE_STEP))
            (u8_add (rgb_g (color_at ws i)) (rgb_g (state_at ws i).color / FADE_STEP))
            (u8_add (rgb_b (color_at ws i)) (rgb_b (state_at ws i).color / FADE_STEP)) := by
  have hb := frame_bytes_at (upd_state ws i (fun s => { s with tick := T (env.clock + 1) })) i
    hi hL
  simp only [color_at_upd] at hb
  rw [handler_led_fade T i ws env hm]
  by_cases hon : (state_at ws i).is_on = true
  · rw [if_pos hon] at ht
    obtain ⟨a, b, _, _⟩ := fade_down_step T i ws env hs hc hset hloop hon ht
    rw [if_pos hon]
    exact ⟨fun hmal => ⟨_, by rw [b, if_pos hmal], hb⟩, a⟩
  · rw [if_neg hon] at ht
    have hoff : (state_at ws i).is_on = false := by
      cases h : (state_at ws i).is_on
      · rfl
      · exact absurd h hon
    obtain ⟨a, b, _, _⟩ := fade_up_step T i ws env hs hc hset hloop hoff ht
    rw [if_neg hon]
    exact ⟨fun hmal => ⟨_, by rw [b, if_pos hmal], hb⟩, a⟩

theorem C9_witness :
    (0 < (after_control clock_10ms (strip_of [0])
            [cfg_of periph_ws2812_mode_t.PERIPH_WS2812_FADE 0x00003C 1] env_idle).1.led_num
      ∧ (after_control clock_10ms (strip_of [0])
            [cfg_of periph_ws2812_mode_t.PERIPH_WS2812_FADE 0x00003C 1] env_idle).1.led_num * 3
          < 4294967296)
    ∧ (∃ frame : List Nat,
        (ws2812_timer_handler_led clock_10ms 0
          (after_control clock_10ms (strip_of [0])
            [cfg_of periph_ws2812_mode_t.PERIPH_WS2812_FADE 0x00003C 1] env_idle).1
          (after_control clock_10ms (strip_of [0])
            [cfg_of periph_ws2812_mode_t.PERIPH_WS2812_FADE 0x00003C 1] env_idle).2).2.frames
          = (after_control clock_10ms (strip_of [0])
              [cfg_of periph_ws2812_mode_t.PERIPH_WS2812_FADE 0x00003C 1] env_idle).2.frames
            ++ [frame]
        ∧ frame.getD (3 * 0) 0 = rgb_g (color_at (after_control clock_10ms (strip_of [0])
            [cfg_of periph_ws2812_mode_t.PERIPH_WS2812_FADE 0x00003C 1] env_idle).1 0)
        ∧ frame.getD (3 * 0 + 1) 0 = rgb_r (color_at (after_control clock_10ms (strip_of [0])
            [cfg_of periph_ws2812_mode_t.PERIPH_WS2812_FADE 0x00003C 1] env_idle).1 0)
        ∧ frame.getD (3 * 0 + 2) 0 = rgb_b (color_at (after_control clock_10ms (strip_of [0])
            [cfg_of periph_ws2812_mode_t.PERIPH_WS2812_FADE 0x00003C 1] env_idle).1 0))
    ∧ (ws2812_timer_handler_led clock_10ms 0
          (after_control clock_10ms (strip_of [0])
            [cfg_of periph_ws2812_mode_t.PERIPH_WS2812_FADE 0x00003C 1] env_idle).1
          (after_control clock_10ms (strip_of [0])
            [cfg_of periph_ws2812_mode_t.PERIPH_WS2812_FADE 0x00003C 1] env_idle).2).2.frames
        = [[0, 60, 0]]
    ∧ color_at (ws2812_timer_handler_led clock_10ms 0
          (after_control clock_10ms (strip_of [0])
            [cfg_of periph_ws2812_mode_t.PERIPH_WS2812_FADE 0x00003C 1] env_idle).1
          (after_control clock_10ms (strip_of [0])
            [cfg_of periph_ws2812_mode_t.PERIPH_WS2812_FADE 0x00003C 1] env_idle).2).1 0
        = 58 :=
  ⟨⟨by decide, by decide⟩,
   (C9_fade_transmits_previous_color clock_10ms 0
      (after_control clock_10ms (strip_of [0])
        [cfg_of periph_ws2812_mode_t.PERIPH_WS2812_FADE 0x00003C 1] env_idle).1
      (after_control clock_10ms (strip_of [0])
        [cfg_of periph_ws2812_mode_t.PERIPH_WS2812_FADE 0x00003C 1] env_idle).2
      (by decide) (by decide) (by decide) (by decide) (by decide) (by decide) (by decide)
      (by decide)).1 (by decide),
   by decide, by decide⟩

theorem C10_counterexample :
    (ws2812_timer_handler clock_10ms
        (after_control clock_10ms (strip_of [0, 0, 0])
          [cfg_of periph_ws2812_mode_t.PERIPH_WS2812_ONE 0xFF0000 1,
           cfg_of periph_ws2812_mode_t.PERIPH_WS2812_ONE 0x000000 1,
           cfg_of periph_ws2812_mode_t.PERIPH_WS2812_ONE 0x000000 1] env_idle).1
        (after_control clock_10ms (strip_of [0, 0, 0])
          [cfg_of periph_ws2812_mode_t.PERIPH_WS2812_ONE 0xFF0000 1,
           cfg_of periph_ws2812_mode_t.PERIPH_WS2812_ONE 0x000000 1,
           cfg_of periph_ws2812_mode_t.PERIPH_WS2812_ONE 0x000000 1] env_idle).2).2.frames
      = [[0, 0, 255, 0, 0, 0, 0, 0, 0], [0, 0, 255, 0, 0, 0, 0, 0, 0],
         [0, 0, 255, 0, 0, 0, 0, 0, 0]]
    ∧ ¬ ((ws2812_timer_handler clock_10ms
        (after_control clock_10ms (strip_of [0, 0, 0])
          [cfg_of periph_ws2812_mode_t.PERIPH_WS2812_ONE 0xFF0000 1,
           cfg_of periph_ws2812_mode_t.PERIPH_WS2812_ONE 0x000000 1,
           cfg_of periph_ws2812_mode_t.PERIPH_WS2812_ONE 0x000000 1] env_idle).1
        (after_control clock_10ms (strip_of [0, 0, 0])
          [cfg_of periph_ws2812_mode_t.PERIPH_WS2812_ONE 0xFF0000 1,
           cfg_of periph_ws2812_mode_t.PERIPH_WS2812_ONE 0x000000 1,
           cfg_of periph_ws2812_mode_t.PERIPH_WS2812_ONE 0x000000 1] env_idle).2).2.frames.length
      ≤ (after_control clock_10ms (strip_of [0, 0, 0])
          [cfg_of periph_ws2812_mode_t.PERIPH_WS2812_ONE 0xFF0000 1,
           cfg_of periph_ws2812_mode_t.PERIPH_WS2812_ONE 0x000000 1,
           cfg_of periph_ws2812_mode_t.PERIPH_WS2812_ONE 0x000000 1] env_idle).2.frames.length
        + 1) := by
  decide

/-- The loop over ONE-SHOT LEDs calls `ws2812_set_colors` once for every LED of
the list whose `is_on` is set (each call makes one call of `audio_malloc`), and
when every allocation succeeds each of these calls transmits a frame. -/
theorem loop_one_frames (T : Nat → Int) :
    ∀ (l : List Nat) (s : periph_ws2812_t × env_t), l.Nodup →
      (∀ j ∈ l, j < s.1.state.length ∧ j < s.1.color.length
        ∧ (state_at s.1 j).mode = periph_ws2812_mode_t.PERIPH_WS2812_ONE) →
      (handler_loop T l s).2.mallocs
        = s.2.mallocs + (l.filter (fun j => (state_at s.1 j).is_on)).length
      ∧ (malloc_succeeds s.2 →
        (handler_loop T l s).2.frames.length
          = s.2.frames.length + (l.filter (fun j => (state_at s.1 j).is_on)).length) := by
  intro l
  induction l with
  | nil => intro s _ _; exact ⟨rfl, fun _ => rfl⟩
  | cons j l ih =>
    intro s hnd hall
    obtain ⟨hjs, hjc, hjm⟩ := hall j (List.mem_cons_self _ _)
    have hnd2 : l.Nodup := (List.nodup_cons.1 hnd).2
    have hjl : j ∉ l := (List.nodup_cons.1 hnd).1
    have honly := handler_led_only T j s.1 s.2
    have hall2 : ∀ k ∈ l, k < (ws2812_timer_handler_led T j s.1 s.2).1.state.length
        ∧ k < (ws2812_timer_handler_led T j s.1 s.2).1.color.length
        ∧ (state_at (ws2812_timer_handler_led T j s.1 s.2).1 k).mode
            = periph_ws2812_mode_t.PERIPH_WS2812_ONE := by
      intro k hk
      obtain ⟨a, b, c⟩ := hall k (List.mem_cons_of_mem _ hk)
      have hkj : k ≠ j := fun h => hjl (h ▸ hk)
      refine ⟨by rw [honly.state_len]; exact a, by rw [honly.color_len]; exact b, ?_⟩
      rw [honly.state_eq k hkj]; exact c
    have hfilter : l.filter (fun k => (state_at (ws2812_timer_handler_led T j s.1 s.2).1 k).is_on)
        = l.filter (fun k => (state_at s.1 k).is_on) := by
      apply List.filter_congr
      intro k hk
      have hkj : k ≠ j := fun h => hjl (h ▸ hk)
      rw [honly.state_eq k hkj]
    have hmo := handler_led_malloc_ok T j s.1 s.2
    obtain ⟨ih1, ih2⟩ := ih _ hnd2 hall2
    rw [hfilter] at ih1 ih2
    rw [handler_loop_cons]
    rw [handler_led_one T j s.1 s.2 hjm] at ih1 ih2 hmo ⊢
    by_cases hon : (state_at s.1 j).is_on = true
    · obtain ⟨_, _, f3, _⟩ := handler_one_fire j s.1 s.2 hjs hjc hon
      have f5 := handler_one_fire_mallocs j s.1 s.2 hon
      have hf : (j :: l).filter (fun k => (state_at s.1 k).is_on)
          = j :: l.filter (fun k => (state_at s.1 k).is_on) :=
        List.filter_cons_of_pos hon
      rw [hf]
      refine ⟨?_, fun hmal => ?_⟩
      · rw [ih1, f5]
        simp only [List.length_cons]
        omega
      · rw [ih2 (by unfold malloc_succeeds; rw [hmo]; exact hmal), f3, if_pos (hmal _)]
        simp only [List.length_append, List.length_cons, List.length_nil]
        omega
    · have hoff : (state_at s.1 j).is_on = false := by
        cases h : (state_at s.1 j).is_on
        · rfl
        · exact absurd h hon
      have hf : (j :: l).filter (fun k => (state_at s.1 k).is_on)
          = l.filter (fun k => (state_at s.1 k).is_on) :=
        List.filter_cons_of_neg (by rw [hoff]; decide)
      rw [handler_one_idle j s.1 s.2 hoff] at ih1 ih2 ⊢
      rw [hf]
      exact ⟨ih1, ih2⟩

/-- Claim C10, amended: `ws2812_set_colors` is called inside the loop over the
LEDs, once for every LED that fires.  In a strip whose LEDs are all ONE-SHOT a
tick makes as many calls of `ws2812_set_colors` (counted by their calls of
`audio_malloc`) as there are LEDs with `is_on` set, and when every buffer
allocation succeeds it transmits that many frames; after
`periph_ws2812_control` has applied ONE-SHOT configurations to the three LEDs of
a strip (LED 0 = `0xFF0000`, the others black) the next tick transmits three
frames. -/
theorem C10_one_transmit_per_firing_led (T : Nat → Int) (ws : periph_ws2812_t) (env : env_t)
    (hs : ws.state.length = ws.led_num) (hc : ws.color.length = ws.led_num)
    (hall : ∀ i, i < ws.led_num →
      (state_at ws i).mode = periph_ws2812_mode_t.PERIPH_WS2812_ONE) :
    (ws2812_timer_handler T ws env).2.mallocs
        = env.mallocs
          + ((List.range ws.led_num).filter (fun i => (state_at ws i).is_on)).length
    ∧ (malloc_succeeds env →
      (ws2812_timer_handler T ws env).2.frames.length
          = env.frames.length
            + ((List.range ws.led_num).filter (fun i => (state_at ws i).is_on)).length)
    ∧ (ws2812_timer_handler clock_10ms
        (after_control clock_10ms (strip_of [0, 0, 0])
          [cfg_of periph_ws2812_mode_t.PERIPH_WS2812_ONE 0xFF0000 1,
           cfg_of periph_ws2812_mode_t.PERIPH_WS2812_ONE 0x000000 1,
           cfg_of periph_ws2812_mode_t.PERIPH_WS2812_ONE 0x000000 1] env_idle).1
        (after_control clock_10ms (strip_of [0, 0, 0])
          [cfg_of periph_ws2812_mode_t.PERIPH_WS2812_ONE 0xFF0000 1,
           cfg_of periph_ws2812_mode_t.PERIPH_WS2812_ONE 0x000000 1,
           cfg_of periph_ws2812_mode_t.PERIPH_WS2812_ONE 0x000000 1] env_idle).2).2.frames.length
      = 3 := by
  have h := loop_one_frames T (List.range ws.led_num) (ws, env) (List.nodup_range _)
    (fun j hj => by
      have hj2 : j < ws.led_num := List.mem_range.1 hj
      exact ⟨by simp only []; omega, by simp only []; omega, hall j hj2⟩)
  rw [handler_eq_loop]
  exact ⟨h.1, h.2, by decide⟩

theorem C10_witness :
    ((strip_of [7, 8]).state.length = (strip_of [7, 8]).led_num
      ∧ (strip_of [7, 8]).color.length = (strip_of [7, 8]).led_num
      ∧ ∀ i, i < (upd_state (upd_state (strip_of [7, 8]) 0 (fun s =>
            { s with mode := periph_ws2812_mode_t.PERIPH_WS2812_ONE, is_on := true }))
          1 (fun s => { s with mode := periph_ws2812_mode_t.PERIPH_WS2812_ONE })).led_num →
        (state_at (upd_state (upd_state (strip_of [7, 8]) 0 (fun s =>
            { s with mode := periph_ws2812_mode_t.PERIPH_WS2812_ONE, is_on := true }))
          1 (fun s => { s with mode := periph_ws2812_mode_t.PERIPH_WS2812_ONE })) i).mode
          = periph_ws2812_mode_t.PERIPH_WS2812_ONE)
    ∧ malloc_succeeds env_idle
    ∧ (ws2812_timer_handler clock_10ms
        (upd_state (upd_state (strip_of [7, 8]) 0 (fun s =>
            { s with mode := periph_ws2812_mode_t.PERIPH_WS2812_ONE, is_on := true }))
          1 (fun s => { s with mode := periph_ws2812_mode_t.PERIPH_WS2812_ONE }))
        env_idle).2.frames.length
      = env_idle.frames.length
        + ((List.range (upd_state (upd_state (strip_of [7, 8]) 0 (fun s =>
            { s with mode := periph_ws2812_mode_t.PERIPH_WS2812_ONE, is_on := true }))
          1 (fun s => { s with mode := periph_ws2812_mode_t.PERIPH_WS2812_ONE })).led_num).filter
          (fun i => (state_at (upd_state (upd_state (strip_of [7, 8]) 0 (fun s =>
            { s with mode := periph_ws2812_mode_t.PERIPH_WS2812_ONE, is_on := true }))
          1 (fun s => { s with mode := periph_ws2812_mode_t.PERIPH_WS2812_ONE })) i).is_on)).length :=
  ⟨⟨by decide, by decide, by decide⟩, fun _ => rfl,
   (C10_one_transmit_per_firing_led clock_10ms
      (upd_state (upd_state (strip_of [7, 8]) 0 (fun s =>
          { s with mode := periph_ws2812_mode_t.PERIPH_WS2812_ONE, is_on := true }))
        1 (fun s => { s with mode := periph_ws2812_mode_t.PERIPH_WS2812_ONE }))
      env_idle (by decide) (by decide) (by decide)).2.1 (fun _ => rfl)⟩

theorem control_eq_loop (T : Nat → Int) (ws : periph_ws2812_t)
    (cfg : List periph_ws2812_ctrl_cfg_t) (env : env_t) :
    periph_ws2812_control T (some ws) (some cfg) env
      = (esp_err_t.ESP_OK,
         some (control_loop T cfg (List.range ws.led_num) (ws, env)).1,
         (control_loop T cfg (List.range ws.led_num) (ws, env)).2) := rfl

theorem after_control_eq (T : Nat → Int) (ws : periph_ws2812_t)
    (cfg : List periph_ws2812_ctrl_cfg_t) (env : env_t) :
    after_control T ws cfg env = control_loop T cfg (List.range ws.led_num) (ws, env) := rfl

theorem control_loop_cons (T : Nat → Int) (cfg : List periph_ws2812_ctrl_cfg_t) (j : Nat)
    (l : List Nat) (s : periph_ws2812_t × env_t) :
    control_loop T cfg (j :: l) s = control_loop T cfg l (control_led T cfg j s.1 s.2) := rfl

theorem control_led_only (T : Nat → Int) (cfg : List periph_ws2812_ctrl_cfg_t) (j : Nat)
    (ws : periph_ws2812_t) (env : env_t) :
    only_led j ws (control_led T cfg j ws env).1 := by
  unfold control_led
  simp only []
  exact ol_upd _ (ol_upd _ (ol_upd _ (ol_upd _ (ol_upd _ (ol_upd _ (ol_upd _ (ol_col _
    (ol_upd _ (only_led_refl j ws)))))))))

/-- What `periph_ws2812_control` does for LED `j`. -/
theorem control_led_at (T : Nat → Int) (cfg : List periph_ws2812_ctrl_cfg_t) (j : Nat)
    (ws : periph_ws2812_t) (env : env_t) (hs : j < ws.state.length) (hc : j < ws.color.length) :
    state_at (control_led T cfg j ws env).1 j = state_of_cfg (cfg.getD j cfg_zero) (T env.clock)
    ∧ color_at (control_led T cfg j ws env).1 j = (cfg.getD j cfg_zero).color
    ∧ (control_led T cfg j ws env).2 = { env with clock := env.clock + 1 }
    ∧ (control_led T cfg j ws env).1.process = ws.process := by
  unfold control_led
  simp only [audio_sys_get_time_ms, state_at_upd, color_at_upd, state_at_col, color_at_col,
    state_len_upd, state_len_col, color_len_upd, color_len_col, hs, hc, state_of_cfg, true_and]
  rfl

/-- The loop of `periph_ws2812_control` over `a, a+1, .., a+n-1`. -/
theorem control_loop_range (T : Nat → Int) (cfg : List periph_ws2812_ctrl_cfg_t) :
    ∀ (n a : Nat) (s : periph_ws2812_t × env_t),
      a + n ≤ s.1.state.length → a + n ≤ s.1.color.length →
      (control_loop T cfg (List.range' a n) s).1.led_num = s.1.led_num
      ∧ (control_loop T cfg (List.range' a n) s).1.state.length = s.1.state.length
      ∧ (control_loop T cfg (List.range' a n) s).1.color.length = s.1.color.length
      ∧ (control_loop T cfg (List.range' a n) s).1.process = s.1.process
      ∧ (control_loop T cfg (List.range' a n) s).2 = { s.2 with clock := s.2.clock + n }
      ∧ ∀ i,
          state_at (control_loop T cfg (List.range' a n) s).1 i
            = (if a ≤ i ∧ i < a + n
               then state_of_cfg (cfg.getD i cfg_zero) (T (s.2.clock + (i - a)))
               else state_at s.1 i)
          ∧ color_at (control_loop T cfg (List.range' a n) s).1 i
            = (if a ≤ i ∧ i < a + n then (cfg.getD i cfg_zero).color else color_at s.1 i) := by
  intro n
  induction n with
  | zero =>
    intro a s _ _
    refine ⟨rfl, rfl, rfl, rfl, rfl, fun i => ?_⟩
    rw [if_neg (by omega), if_neg (by omega)]
    exact ⟨rfl, rfl⟩
  | succ n ih =>
    intro a s hs hc
    have honly := control_led_only T cfg a s.1 s.2
    obtain ⟨c1, c2, c3, c4⟩ := control_led_at T cfg a s.1 s.2 (by omega) (by omega)
    obtain ⟨i1, i2, i3, i4, i5, i6⟩ := ih (a + 1) (control_led T cfg a s.1 s.2)
      (by rw [honly.state_len]; omega) (by rw [honly.color_len]; omega)
    rw [List.range'_succ, control_loop_cons]
    refine ⟨i1.trans honly.led_num, i2.trans honly.state_len, i3.trans honly.color_len,
      i4.trans c4, ?_, fun i => ?_⟩
    · rw [i5, c3]
      simp only [Nat.add_assoc, Nat.add_comm 1 n]
    · obtain ⟨j1, j2⟩ := i6 i
      rw [j1, j2, c3]
      simp only []
      by_cases hia : i = a
      · subst hia
        have h1 : ¬ (i + 1 ≤ i ∧ i < i + 1 + n) := by omega
        have h2 : i ≤ i ∧ i < i + (n + 1) := by omega
        rw [if_neg h1, if_neg h1, if_pos h2, if_pos h2, c1, c2, Nat.sub_self, Nat.add_zero]
        exact ⟨rfl, rfl⟩
      · rw [honly.state_eq i hia, honly.color_eq i hia]
        by_cases hin : a + 1 ≤ i ∧ i < a + 1 + n
        · have h3 : a ≤ i ∧ i < a + (n + 1) := by omega
          have h4 : s.2.clock + 1 + (i - (a + 1)) = s.2.clock + (i - a) := by omega
          rw [if_pos hin, if_pos hin, if_pos h3, if_pos h3, h4]
          exact ⟨rfl, rfl⟩
        · have h3 : ¬ (a ≤ i ∧ i < a + (n + 1)) := by omega
          rw [if_neg hin, if_neg hin, if_neg h3, if_neg h3]
          exact ⟨rfl, rfl⟩

/-- The record `periph_ws2812_control` leaves. -/
theorem after_control_spec (T : Nat → Int) (ws : periph_ws2812_t)
    (cfg : List periph_ws2812_ctrl_cfg_t) (env : env_t)
    (hs : ws.led_num ≤ ws.state.length) (hc : ws.led_num ≤ ws.color.length) :
    (after_control T ws cfg env).1.led_num = ws.led_num
    ∧ (after_control T ws cfg env).1.state.length = ws.state.length
    ∧ (after_control T ws cfg env).1.color.length = ws.color.length
    ∧ (after_control T ws cfg env).1.process = ws.process
    ∧ (after_control T ws cfg env).2 = { env with clock := env.clock + ws.led_num }
    ∧ ∀ i, i < ws.led_num →
        state_at (after_control T ws cfg env).1 i
          = state_of_cfg (cfg.getD i cfg_zero) (T (env.clock + i))
        ∧ color_at (after_control T ws cfg env).1 i = (cfg.getD i cfg_zero).color := by
  rw [after_control_eq, List.range_eq_range']
  obtain ⟨a, b, c, d, e, f⟩ := control_loop_range T cfg ws.led_num 0 (ws, env)
    (by simp only []; omega) (by simp only []; omega)
  refine ⟨a, b, c, d, e, fun i hi => ?_⟩
  obtain ⟨f1, f2⟩ := f i
  rw [if_pos (by omega)] at f1 f2
  simp only [Nat.sub_zero] at f1
  exact ⟨f1, f2⟩

theorem rgb_r_num (c r g b : Nat) : rgb_r (rgb_num c r g b) = r % 256 := by
  unfold rgb_r rgb_num u8 u32; omega

theorem rgb_g_num (c r g b : Nat) : rgb_g (rgb_num c r g b) = g % 256 := by
  unfold rgb_g rgb_num u8 u32; omega

theorem rgb_b_num (c r g b : Nat) : rgb_b (rgb_num c r g b) = b % 256 := by
  unfold rgb_b rgb_num u8 u32; omega

/-- A decrement that fits does not wrap. -/
theorem u8_sub_fit (v s : Nat) (hv : v < 256) (hs : s ≤ v) :
    u8_sub v s = v - s ∧ u8_sub v s % 256 = v - s := by
  unfold u8_sub u8; omega

theorem run_ticks_succ (T : Nat → Int) (n : Nat) (s : periph_ws2812_t × env_t) :
    run_ticks T (n + 1) s = ws2812_timer_handler T (run_ticks T n s).1 (run_ticks T n s).2 := rfl

theorem run_ticks_len (T : Nat → Int) (s : periph_ws2812_t × env_t) :
    ∀ n, (run_ticks T n s).1.led_num = s.1.led_num
      ∧ (run_ticks T n s).1.state.length = s.1.state.length
      ∧ (run_ticks T n s).1.color.length = s.1.color.length := by
  intro n
  induction n with
  | zero => exact ⟨rfl, rfl, rfl⟩
  | succ n ih =>
    rw [run_ticks_succ]
    obtain ⟨a, b, c⟩ := handler_len T (run_ticks T n s).1 (run_ticks T n s).2
    exact ⟨a.trans ih.1, b.trans ih.2.1, c.trans ih.2.2⟩

theorem getD_of_getElem? (cfg : List periph_ws2812_ctrl_cfg_t) (i : Nat)
    (c : periph_ws2812_ctrl_cfg_t) (h : cfg[i]? = some c) : cfg.getD i cfg_zero = c := by
  rw [List.getD_eq_getElem?_getD, h]
  rfl

/-- Claim C11: `periph_ws2812_control` with a valid handle (a driver record
whose state and color arrays have at least `led_num` entries) and a non-null
configuration array returns `ESP_OK`, keeps `led_num`, and for every
`i < led_num` leaves `state[i].color`, `mode`, `time_on_ms`, `time_off_ms` and
`loop` equal to the fields of `control_cfg[i]`, `is_on` and `is_set` true and
`tick` the value the clock returned when LED `i` was configured (reading number
`env.clock + i`); with a null configuration array it returns `ESP_FAIL` and
leaves the driver record and the environment as they are. -/
theorem C11_control_applies_configuration (T : Nat → Int) (ws : periph_ws2812_t)
    (cfg : List periph_ws2812_ctrl_cfg_t) (env : env_t)
    (hs : ws.led_num ≤ ws.state.length) (hc : ws.led_num ≤ ws.color.length) :
    (∃ ws1 env1,
      periph_ws2812_control T (some ws) (some cfg) env = (esp_err_t.ESP_OK, some ws1, env1)
      ∧ ws1.led_num = ws.led_num
      ∧ ∀ i c, i < ws.led_num → cfg[i]? = some c →
          (state_at ws1 i).color = c.color
          ∧ (state_at ws1 i).mode = c.mode
          ∧ (state_at ws1 i).time_on_ms = c.time_on_ms
          ∧ (state_at ws1 i).time_off_ms = c.time_off_ms
          ∧ (state_at ws1 i).loop = c.loop
          ∧ (state_at ws1 i).is_on = true
          ∧ (state_at ws1 i).is_set = true
          ∧ (state_at ws1 i).tick = T (env.clock + i))
    ∧ periph_ws2812_control T (some ws) none env = (esp_err_t.ESP_FAIL, some ws, env) := by
  obtain ⟨a, _, _, _, _, f⟩ := after_control_spec T ws cfg env hs hc
  rw [after_control_eq] at a f
  refine ⟨⟨_, _, control_eq_loop T ws cfg env, a, fun i c hi hcfg => ?_⟩, rfl⟩
  obtain ⟨f1, _⟩ := f i hi
  rw [f1, getD_of_getElem? cfg i c hcfg]
  exact ⟨rfl, rfl, rfl, rfl, rfl, rfl, rfl, rfl⟩

theorem C11_witness :
    ((strip_of [0, 0]).led_num ≤ (strip_of [0, 0]).state.length
      ∧ (strip_of [0, 0]).led_num ≤ (strip_of [0, 0]).color.length)
    ∧ (∃ ws1 env1,
        periph_ws2812_control clock_10ms (some (strip_of [0, 0]))
            (some [cfg_of periph_ws2812_mode_t.PERIPH_WS2812_BLINK 0x0000FF 2,
                   cfg_of periph_ws2812_mode_t.PERIPH_WS2812_FADE 0x003C00 1]) env_idle
          = (esp_err_t.ESP_OK, some ws1, env1)
        ∧ ws1.led_num = (strip_of [0, 0]).led_num
        ∧ ∀ i c, i < (strip_of [0, 0]).led_num →
            [cfg_of periph_ws2812_mode_t.PERIPH_WS2812_BLINK 0x0000FF 2,
             cfg_of periph_ws2812_mode_t.PERIPH_WS2812_FADE 0x003C00 1][i]? = some c →
            (state_at ws1 i).color = c.color
            ∧ (state_at ws1 i).mode = c.mode
            ∧ (state_at ws1 i).time_on_ms = c.time_on_ms
            ∧ (state_at ws1 i).time_off_ms = c.time_off_ms
            ∧ (state_at ws1 i).loop = c.loop
            ∧ (state_at ws1 i).is_on = true
            ∧ (state_at ws1 i).is_set = true
            ∧ (state_at ws1 i).tick = clock_10ms (env_idle.clock + i))
    ∧ state_at (after_control clock_10ms (strip_of [0, 0])
          [cfg_of periph_ws2812_mode_t.PERIPH_WS2812_BLINK 0x0000FF 2,
           cfg_of periph_ws2812_mode_t.PERIPH_WS2812_FADE 0x003C00 1] env_idle).1 1
        = { color := 0x003C00, mode := periph_ws2812_mode_t.PERIPH_WS2812_FADE,
            time_on_ms := 0, time_off_ms := 0, tick := 10, loop := 1,
            is_on := true, is_set := true } :=
  ⟨⟨by decide, by decide⟩,
   (C11_control_applies_configuration clock_10ms (strip_of [0, 0])
      [cfg_of periph_ws2812_mode_t.PERIPH_WS2812_BLINK 0x0000FF 2,
       cfg_of periph_ws2812_mode_t.PERIPH_WS2812_FADE 0x003C00 1] env_idle
      (by decide) (by decide)).1,
   by decide⟩

/-- Claim C12, at the failing input: a one-LED strip that shows 0x0000FF (set
by a ONE-SHOT configuration and one tick).  `periph_ws2812_stop` returns
`ESP_OK` and sets `state[0]` to ONE-SHOT black with `is_on` set, but it does not
write `color[0]`: the color array still holds 0x0000FF when stop returns and
the frame stop transmits is `[0, 255, 0]`, the color shown before, not the
all-zero buffer. -/
theorem C12_stop_transmits_current_colors :
    color_at (run_ticks clock_10ms 1 (after_control clock_10ms (strip_of [0])
        [cfg_of periph_ws2812_mode_t.PERIPH_WS2812_ONE 0x0000FF 1] env_idle)).1 0 = 0x0000FF
    ∧ (periph_ws2812_stop
        (some (run_ticks clock_10ms 1 (after_control clock_10ms (strip_of [0])
          [cfg_of periph_ws2812_mode_t.PERIPH_WS2812_ONE 0x0000FF 1] env_idle)).1)
        (run_ticks clock_10ms 1 (after_control clock_10ms (strip_of [0])
          [cfg_of periph_ws2812_mode_t.PERIPH_WS2812_ONE 0x0000FF 1] env_idle)).2).1
        = esp_err_t.ESP_OK
    ∧ (state_at (after_stop
        (run_ticks clock_10ms 1 (after_control clock_10ms (strip_of [0])
          [cfg_of periph_ws2812_mode_t.PERIPH_WS2812_ONE 0x0000FF 1] env_idle)).1
        (run_ticks clock_10ms 1 (after_control clock_10ms (strip_of [0])
          [cfg_of periph_ws2812_mode_t.PERIPH_WS2812_ONE 0x0000FF 1] env_idle)).2).1 0).color
        = LED2812_COLOR_BLACK
    ∧ color_at (after_stop
        (run_ticks clock_10ms 1 (after_control clock_10ms (strip_of [0])
          [cfg_of periph_ws2812_mode_t.PERIPH_WS2812_ONE 0x0000FF 1] env_idle)).1
        (run_ticks clock_10ms 1 (after_control clock_10ms (strip_of [0])
          [cfg_of periph_ws2812_mode_t.PERIPH_WS2812_ONE 0x0000FF 1] env_idle)).2).1 0
        = 0x0000FF
    ∧ (after_stop
        (run_ticks clock_10ms 1 (after_control clock_10ms (strip_of [0])
          [cfg_of periph_ws2812_mode_t.PERIPH_WS2812_ONE 0x0000FF 1] env_idle)).1
        (run_ticks clock_10ms 1 (after_control clock_10ms (strip_of [0])
          [cfg_of periph_ws2812_mode_t.PERIPH_WS2812_ONE 0x0000FF 1] env_idle)).2).2.frames
        = [[0, 255, 0], [0, 255, 0]] := by
  decide

/-- An LED with an invalid mode: the `default` case changes nothing. -/
theorem handler_led_invalid (T : Nat → Int) (i : Nat) (ws : periph_ws2812_t) (env : env_t)
    (raw : Nat) (hm : (state_at ws i).mode = periph_ws2812_mode_t.INVALID raw) :
    ws2812_timer_handler_led T i ws env = (ws, env) := by
  unfold ws2812_timer_handler_led
  rw [hm]

/-- An LED with `is_set` clear whose mode is not ONE-SHOT is skipped. -/
theorem handler_led_skip (T : Nat → Int) (i : Nat) (ws : periph_ws2812_t) (env : env_t)
    (hset : (state_at ws i).is_set = false)
    (hm : (state_at ws i).mode ≠ periph_ws2812_mode_t.PERIPH_WS2812_ONE) :
    ws2812_timer_handler_led T i ws env = (ws, env) := by
  cases h : (state_at ws i).mode with
  | PERIPH_WS2812_BLINK => rw [handler_led_blink T i ws env h, blink_skip T i ws env hset]
  | PERIPH_WS2812_FADE => rw [handler_led_fade T i ws env h, fade_skip T i ws env hset]
  | PERIPH_WS2812_ONE => exact absurd h hm
  | INVALID raw => exact handler_led_invalid T i ws env raw h

/-- A tick in which the evaluation of LED `i` changes nothing is the loop over
the other LEDs. -/
theorem handler_without (T : Nat → Int) (ws : periph_ws2812_t) (env : env_t) (i : Nat)
    (hi : i < ws.led_num)
    (h : ws2812_timer_handler_led T i (handler_upto T ws env i).1 (handler_upto T ws env i).2
      = handler_upto T ws env i) :
    ws2812_timer_handler T ws env
      = handler_loop T (List.range i ++ List.range' (i + 1) (ws.led_num - (i + 1))) (ws, env) := by
  rw [handler_split T ws env i hi, h, handler_loop_append]
  rfl

/-- Claim C13, counterexample: a one-LED strip showing 0x0000FF whose state is
idle (`is_set` clear) is stopped; `periph_ws2812_stop` makes the LED ONE-SHOT
with `is_on` set and leaves `is_set` clear.  The next tick serves the LED all
the same: it clears `is_on`, writes `color[0]` and transmits one frame. -/
theorem C13_counterexample :
    (state_at (after_stop (strip_of [0x0000FF]) env_idle).1 0).is_set = false
    ∧ (state_at (after_stop (strip_of [0x0000FF]) env_idle).1 0).mode
        = periph_ws2812_mode_t.PERIPH_WS2812_ONE
    ∧ (state_at (after_stop (strip_of [0x0000FF]) env_idle).1 0).is_on = true
    ∧ color_at (after_stop (strip_of [0x0000FF]) env_idle).1 0 = 0x0000FF
    ∧ (state_at (ws2812_timer_handler clock_10ms
          (after_stop (strip_of [0x0000FF]) env_idle).1
          (after_stop (strip_of [0x0000FF]) env_idle).2).1 0).is_on = false
    ∧ color_at (ws2812_timer_handler clock_10ms
          (after_stop (strip_of [0x0000FF]) env_idle).1
          (after_stop (strip_of [0x0000FF]) env_idle).2).1 0 = 0
    ∧ (ws2812_timer_handler clock_10ms
          (after_stop (strip_of [0x0000FF]) env_idle).1
          (after_stop (strip_of [0x0000FF]) env_idle).2).2.frames
        = (after_stop (strip_of [0x0000FF]) env_idle).2.frames ++ [[0, 0, 0]]
    ∧ ¬ (state_at (ws2812_timer_handler clock_10ms
            (after_stop (strip_of [0x0000FF]) env_idle).1
            (after_stop (strip_of [0x0000FF]) env_idle).2).1 0
          = state_at (after_stop (strip_of [0x0000FF]) env_idle).1 0
        ∧ color_at (ws2812_timer_handler clock_10ms
            (after_stop (strip_of [0x0000FF]) env_idle).1
            (after_stop (strip_of [0x0000FF]) env_idle).2).1 0
          = color_at (after_stop (strip_of [0x0000FF]) env_idle).1 0) := by
  decide

/-- Claim C13, amended: an LED with `is_set` clear whose mode is BLINK, FADE or
invalid (any mode but ONE-SHOT, with any other field values) is skipped: a tick
leaves its animation state and its color array entry unchanged, and its
evaluation within the tick returns the driver record and the environment as
they are, so no frame is transmitted on its behalf and the clock is not read. -/
theorem C13_inactive_led_skipped (T : Nat → Int) (ws : periph_ws2812_t) (env : env_t) (i : Nat)
    (hi : i < ws.led_num) (hset : (state_at ws i).is_set = false)
    (hm : (state_at ws i).mode ≠ periph_ws2812_mode_t.PERIPH_WS2812_ONE) :
    state_at (ws2812_timer_handler T ws env).1 i = state_at ws i
    ∧ color_at (ws2812_timer_handler T ws env).1 i = color_at ws i
    ∧ ws2812_timer_handler_led T i (handler_upto T ws env i).1 (handler_upto T ws env i).2
        = handler_upto T ws env i := by
  obtain ⟨u1, u2⟩ := handler_upto_frame T ws env i
  obtain ⟨a1, a2⟩ := handler_at T ws env i hi
  have hskip := handler_led_skip T i (handler_upto T ws env i).1 (handler_upto T ws env i).2
    (by rw [u1]; exact hset) (by rw [u1]; exact hm)
  rw [hskip] at a1 a2
  exact ⟨a1.trans u1, a2.trans u2, hskip⟩

theorem C13_witness :
    (0 < (run_ticks clock_10ms 1 (after_control clock_10ms (strip_of [0])
          [cfg_of periph_ws2812_mode_t.PERIPH_WS2812_BLINK 0x0000FF 0] env_idle)).1.led_num
      ∧ (state_at (run_ticks clock_10ms 1 (after_control clock_10ms (strip_of [0])
          [cfg_of periph_ws2812_mode_t.PERIPH_WS2812_BLINK 0x0000FF 0] env_idle)).1 0).is_set
          = false
      ∧ (state_at (run_ticks clock_10ms 1 (after_control clock_10ms (strip_of [0])
          [cfg_of periph_ws2812_mode_t.PERIPH_WS2812_BLINK 0x0000FF 0] env_idle)).1 0).mode
          ≠ periph_ws2812_mode_t.PERIPH_WS2812_ONE)
    ∧ state_at (ws2812_timer_handler clock_10ms
          (run_ticks clock_10ms 1 (after_control clock_10ms (strip_of [0])
            [cfg_of periph_ws2812_mode_t.PERIPH_WS2812_BLINK 0x0000FF 0] env_idle)).1
          (run_ticks clock_10ms 1 (after_control clock_10ms (strip_of [0])
            [cfg_of periph_ws2812_mode_t.PERIPH_WS2812_BLINK 0x0000FF 0] env_idle)).2).1 0
        = state_at (run_ticks clock_10ms 1 (after_control clock_10ms (strip_of [0])
            [cfg_of periph_ws2812_mode_t.PERIPH_WS2812_BLINK 0x0000FF 0] env_idle)).1 0
    ∧ color_at (ws2812_timer_handler clock_10ms
          (run_ticks clock_10ms 1 (after_control clock_10ms (strip_of [0])
            [cfg_of periph_ws2812_mode_t.PERIPH_WS2812_BLINK 0x0000FF 0] env_idle)).1
          (run_ticks clock_10ms 1 (after_control clock_10ms (strip_of [0])
            [cfg_of periph_ws2812_mode_t.PERIPH_WS2812_BLINK 0x0000FF 0] env_idle)).2).1 0
        = color_at (run_ticks clock_10ms 1 (after_control clock_10ms (strip_of [0])
            [cfg_of periph_ws2812_mode_t.PERIPH_WS2812_BLINK 0x0000FF 0] env_idle)).1 0 :=
  ⟨⟨by decide, by decide, by decide⟩,
   (C13_inactive_led_skipped clock_10ms
      (run_ticks clock_10ms 1 (after_control clock_10ms (strip_of [0])
        [cfg_of periph_ws2812_mode_t.PERIPH_WS2812_BLINK 0x0000FF 0] env_idle)).1
      (run_ticks clock_10ms 1 (after_control clock_10ms (strip_of [0])
        [cfg_of periph_ws2812_mode_t.PERIPH_WS2812_BLINK 0x0000FF 0] env_idle)).2 0
      (by decide) (by decide) (by decide)).1,
   (C13_inactive_led_skipped clock_10ms
      (run_ticks clock_10ms 1 (after_control clock_10ms (strip_of [0])
        [cfg_of periph_ws2812_mode_t.PERIPH_WS2812_BLINK 0x0000FF 0] env_idle)).1
      (run_ticks clock_10ms 1 (after_control clock_10ms (strip_of [0])
        [cfg_of periph_ws2812_mode_t.PERIPH_WS2812_BLINK 0x0000FF 0] env_idle)).2 0
      (by decide) (by decide) (by decide)).2.1⟩

/-- Claim C14: an LED `i` whose mode is none of ONE-SHOT, BLINK and FADE is a
no-op of the tick: its animation state and its color array entry are unchanged,
its evaluation returns the driver record and the environment as they are (no
transmit), and the tick is the loop over the remaining LEDs `0 .. i-1` and
`i+1 .. led_num-1` in order, as if LED `i` were absent. -/
theorem C14_invalid_mode_noop (T : Nat → Int) (ws : periph_ws2812_t) (env : env_t) (i raw : Nat)
    (hi : i < ws.led_num)
    (hm : (state_at ws i).mode = periph_ws2812_mode_t.INVALID raw) :
    state_at (ws2812_timer_handler T ws env).1 i = state_at ws i
    ∧ color_at (ws2812_timer_handler T ws env).1 i = color_at ws i
    ∧ ws2812_timer_handler_led T i (handler_upto T ws env i).1 (handler_upto T ws env i).2
        = handler_upto T ws env i
    ∧ ws2812_timer_handler T ws env
        = handler_loop T (List.range i ++ List.range' (i + 1) (ws.led_num - (i + 1)))
            (ws, env) := by
  obtain ⟨u1, u2⟩ := handler_upto_frame T ws env i
  obtain ⟨a1, a2⟩ := handler_at T ws env i hi
  have hskip := handler_led_invalid T i (handler_upto T ws env i).1 (handler_upto T ws env i).2
    raw (by rw [u1]; exact hm)
  rw [hskip] at a1 a2
  exact ⟨a1.trans u1, a2.trans u2, hskip, handler_without T ws env i hi hskip⟩

theorem level0_set_duration1 (v d : Nat) : level0 (set_duration1 v d) = level0 v := by
  simp only [level0, set_duration1]; omega

theorem level0_bit_code (byte j : Nat) : level0 (bit_code byte j) = 1 := by
  unfold bit_code
  split <;> decide

theorem level0_pulse_of (B : List Nat) (n : Nat) : level0 (pulse_of B n) = 1 := by
  unfold pulse_of
  split
  · rw [level0_set_duration1, level0_bit_code]
  · exact level0_bit_code _ _

theorem chunk_len_eq (ws : periph_ws2812_t) :
    chunk_len ws = min (3 * ws.led_num - ws.process.pos) 4 := by
  unfold chunk_len
  rw [Nat.mul_comm]

/-- The driver record a call of `ws2812_data_copy` leaves, for a cursor within
the buffer. -/
theorem data_copy_proc (ws : periph_ws2812_t) (mem : rmt_mem)
    (hL : ws.led_num * 3 < 4294967296) (hh : ws.process.half ≤ 1)
    (hp : ws.process.pos ≤ ws.led_num * 3) :
    (ws2812_data_copy ws mem).2.1
      = { ws with process := { pos := ws.process.pos + chunk_len ws,
                               half := 1 - ws.process.half,
                               buffer := ws.process.buffer } }
    ∧ ((ws2812_data_copy ws mem).1 = esp_err_t.ESP_OK ↔ ws.process.pos < ws.led_num * 3) := by
  have hlen := data_copy_len ws hL hp
  have hc4 : chunk_len ws ≤ 4 := by simp only [chunk_len]; omega
  have hcl : chunk_len ws ≤ ws.led_num * 3 - ws.process.pos := by simp only [chunk_len]; omega
  have hpos : u32 (ws.process.pos + chunk_len ws) = ws.process.pos + chunk_len ws := by
    simp only [u32]; omega
  by_cases hc : chunk_len ws = 0
  · have hpe : ¬ ws.process.pos < ws.led_num * 3 := by
      simp only [chunk_len] at hc; omega
    unfold ws2812_data_copy
    simp only [hlen, hc, if_true, data_copy_toggle ws hh, Nat.add_zero, hpe, iff_false]
    exact ⟨trivial, by decide⟩
  · have hpl : ws.process.pos < ws.led_num * 3 := by
      simp only [chunk_len] at hc; omega
    unfold ws2812_data_copy
    simp only [hlen, if_neg hc, data_copy_toggle ws hh, hpos, hpl, iff_true, and_self]

/-- Claim C15: single-call contract of `ws2812_data_copy`.  For a well-formed
feeder state with `pos < 3 * led_num` the call returns `ESP_OK` and advances
`pos` by `len = min (3 * led_num - pos) 4`; descriptor `8 * i + j` of the
selected bank (`i < len`, `j < 8`) encodes bit `7 - j` of `buffer[pos + i]`: it
has level 1 first, its high time decodes to that bit, and it is the word
`PULSE_BIT1` or `PULSE_BIT0` of that bit (only the final descriptor of the whole
buffer carries the reset gap in its low time); the remaining `32 - 8 * len`
descriptors of the bank are zero. -/
theorem C15_data_copy_single_call (ws : periph_ws2812_t) (mem : rmt_mem)
    (hw : feeder_ok ws) (hp : ws.process.pos < 3 * ws.led_num) :
    (ws2812_data_copy ws mem).1 = esp_err_t.ESP_OK
    ∧ (ws2812_data_copy ws mem).2.1.process.pos
        = ws.process.pos + min (3 * ws.led_num - ws.process.pos) 4
    ∧ (∀ i j, i < min (3 * ws.led_num - ws.process.pos) 4 → j < 8 →
        (ws2812_data_copy ws mem).2.2 (32 * ws.process.half + 8 * i + j)
          = (if 8 * (ws.process.pos + i) + j + 1 = 8 * (3 * ws.led_num)
             then set_duration1
               (if (ws.process.buffer.getD (ws.process.pos + i) 0).testBit (7 - j)
                then PULSE_BIT1 else PULSE_BIT0) PULSE_TRS
             else (if (ws.process.buffer.getD (ws.process.pos + i) 0).testBit (7 - j)
                   then PULSE_BIT1 else PULSE_BIT0))
        ∧ level0 ((ws2812_data_copy ws mem).2.2 (32 * ws.process.half + 8 * i + j)) = 1
        ∧ decode_bit ((ws2812_data_copy ws mem).2.2 (32 * ws.process.half + 8 * i + j))
            = if (ws.process.buffer.getD (ws.process.pos + i) 0).testBit (7 - j) then 1 else 0)
    ∧ ∀ k, 8 * min (3 * ws.led_num - ws.process.pos) 4 ≤ k → k < 32 →
        (ws2812_data_copy ws mem).2.2 (32 * ws.process.half + k) = 0 := by
  have hp2 : ws.process.pos < ws.led_num * 3 := by omega
  have hok := data_copy_ok ws mem hw hp2
  have hce := chunk_len_eq ws
  have hlen := hw.len_eq
  refine ⟨by rw [hok], ?_, fun i j hi hj => ?_, fun k hk1 hk2 => ?_⟩
  · rw [hok]
    simp only [hce]
  · have hval := data_copy_ok_mem ws mem hw hp2 (32 * ws.process.half + 8 * i + j)
    rw [if_pos (by rw [hce]; omega)] at hval
    have hidx : 8 * ws.process.pos + (32 * ws.process.half + 8 * i + j - 32 * ws.process.half)
        = 8 * (ws.process.pos + i) + j := by omega
    rw [hidx] at hval
    have hd : (8 * (ws.process.pos + i) + j) / 8 = ws.process.pos + i := by omega
    have hm : (8 * (ws.process.pos + i) + j) % 8 = j := by omega
    refine ⟨?_, ?_, ?_⟩
    · rw [hval]
      have h3 : ws.led_num * 3 = 3 * ws.led_num := Nat.mul_comm _ _
      simp only [pulse_of, hd, hm, bit_code, Nat.testBit_to_div_mod, decide_eq_true_eq, hlen, h3]
    · rw [hval, level0_pulse_of]
    · rw [hval, decode_bit_pulse_of, hd, hm]
      simp only [Nat.testBit_to_div_mod, decide_eq_true_eq]
      split <;> omega
  · rw [data_copy_ok_mem ws mem hw hp2, if_neg (by rw [hce]; omega), if_pos (by omega)]

theorem C15_witness :
    (feeder_ok (feeder_at 2 [1, 2, 3, 4, 5, 6] 4 1)
      ∧ (feeder_at 2 [1, 2, 3, 4, 5, 6] 4 1).process.pos
          < 3 * (feeder_at 2 [1, 2, 3, 4, 5, 6] 4 1).led_num)
    ∧ (ws2812_data_copy (feeder_at 2 [1, 2, 3, 4, 5, 6] 4 1) (fun _ => 77)).1 = esp_err_t.ESP_OK
    ∧ (ws2812_data_copy (feeder_at 2 [1, 2, 3, 4, 5, 6] 4 1) (fun _ => 77)).2.1.process.pos
        = (feeder_at 2 [1, 2, 3, 4, 5, 6] 4 1).process.pos
          + min (3 * (feeder_at 2 [1, 2, 3, 4, 5, 6] 4 1).led_num
                  - (feeder_at 2 [1, 2, 3, 4, 5, 6] 4 1).process.pos) 4
    ∧ (ws2812_data_copy (feeder_at 2 [1, 2, 3, 4, 5, 6] 4 1) (fun _ => 77)).2.1.process.pos = 6
    ∧ (ws2812_data_copy (feeder_at 2 [1, 2, 3, 4, 5, 6] 4 1) (fun _ => 77)).2.2 (32 + 5)
        = PULSE_BIT1
    ∧ (ws2812_data_copy (feeder_at 2 [1, 2, 3, 4, 5, 6] 4 1) (fun _ => 77)).2.2 (32 + 16) = 0 :=
  ⟨⟨⟨by decide, by decide, by decide, by decide⟩, by decide⟩,
   (C15_data_copy_single_call (feeder_at 2 [1, 2, 3, 4, 5, 6] 4 1) (fun _ => 77)
      ⟨by decide, by decide, by decide, by decide⟩ (by decide)).1,
   (C15_data_copy_single_call (feeder_at 2 [1, 2, 3, 4, 5, 6] 4 1) (fun _ => 77)
      ⟨by decide, by decide, by decide, by decide⟩ (by decide)).2.1,
   by decide, by decide, by decide⟩

/-- A call of `ws2812_data_copy` leaves everything outside the selected bank as
it was. -/
theorem data_copy_other_bank (ws : periph_ws2812_t) (mem : rmt_mem) (hw : feeder_ok ws)
    (hp : ws.process.pos ≤ ws.led_num * 3) (k : Nat)
    (hk : k < 32 * ws.process.half ∨ 32 * ws.process.half + 32 ≤ k) :
    (ws2812_data_copy ws mem).2.2 k = mem k := by
  have hc4 : chunk_len ws ≤ 4 := by simp only [chunk_len]; omega
  by_cases hlt : ws.process.pos < ws.led_num * 3
  · rw [data_copy_ok_mem ws mem hw hlt, if_neg (by omega), if_neg (by omega)]
  · rw [data_copy_end_mem ws mem hw.len_lt hw.half_le (by omega), if_neg (by omega)]

/-- A call of `ws2812_data_copy` keeps the feeder state well formed, keeps the
cursor within the buffer and never moves it back. -/
theorem data_copy_keeps (ws : periph_ws2812_t) (mem : rmt_mem) (hw : feeder_ok ws)
    (hp : ws.process.pos ≤ ws.led_num * 3) :
    feeder_ok (ws2812_data_copy ws mem).2.1
    ∧ (ws2812_data_copy ws mem).2.1.process.pos ≤ (ws2812_data_copy ws mem).2.1.led_num * 3
    ∧ ws.process.pos ≤ (ws2812_data_copy ws mem).2.1.process.pos
    ∧ (ws2812_data_copy ws mem).2.1.process.half = 1 - ws.process.half
    ∧ (ws2812_data_copy ws mem).2.1.led_num = ws.led_num
    ∧ (ws2812_data_copy ws mem).2.1.process.buffer = ws.process.buffer := by
  have hcl : chunk_len ws ≤ ws.led_num * 3 - ws.process.pos := by simp only [chunk_len]; omega
  rw [(data_copy_proc ws mem hw.len_lt hw.half_le hp).1]
  simp only []
  refine ⟨⟨hw.len_eq, hw.len_lt, hw.bytes, ?_⟩, ?_, ?_, trivial, trivial, trivial⟩
  · simp only []
    omega
  · omega
  · omega

theorem data_copy_calls_succ (n : Nat) (s : periph_ws2812_t × rmt_mem) :
    data_copy_calls (n + 1) s
      = (ws2812_data_copy (data_copy_calls n s).1 (data_copy_calls n s).2).2 := rfl

theorem reset_feeder_ok (w : periph_ws2812_t) (hL : w.led_num * 3 < 4294967296) :
    feeder_ok (set_colors_reset w) :=
  prime_feeder_ok w hL

/-- The feeder state after `n` calls of `ws2812_data_copy` that follow the reset
in `ws2812_set_colors`. -/
theorem calls_inv (w : periph_ws2812_t) (mem : rmt_mem) (hL : w.led_num * 3 < 4294967296) :
    ∀ n, feeder_ok (data_copy_calls n (set_colors_reset w, mem)).1
      ∧ (data_copy_calls n (set_colors_reset w, mem)).1.process.pos
          ≤ (data_copy_calls n (set_colors_reset w, mem)).1.led_num * 3
      ∧ (data_copy_calls n (set_colors_reset w, mem)).1.process.half = n % 2
      ∧ (data_copy_calls n (set_colors_reset w, mem)).1.led_num = w.led_num := by
  intro n
  induction n with
  | zero => exact ⟨reset_feeder_ok w hL, Nat.zero_le _, rfl, rfl⟩
  | succ n ih =>
    obtain ⟨i1, i2, i3, i4⟩ := ih
    obtain ⟨k1, k2, _, k4, k5, _⟩ := data_copy_keeps _
      (data_copy_calls n (set_colors_reset w, mem)).2 i1 i2
    rw [data_copy_calls_succ]
    refine ⟨k1, k2, ?_, k5.trans i4⟩
    rw [k4, i3]
    omega

/-- The calls `ws2812_set_colors` makes before it starts the hardware are the
first one or two of that sequence. -/
theorem prime_eq_calls (w : periph_ws2812_t) (mem : rmt_mem) :
    ((ws2812_set_colors_prime w mem).1, (ws2812_set_colors_prime w mem).2.1)
      = data_copy_calls (ws2812_set_colors_prime w mem).2.2 (set_colors_reset w, mem) := by
  simp only [ws2812_set_colors_prime]
  split_ifs <;> rfl

/-- Claim C16: ping-pong banks.  A call of `ws2812_data_copy` on a well-formed
feeder state, whether or not bytes remain (`pos ≤ 3 * led_num`), leaves every
descriptor outside the bank selected by `half` (indices `32 * half` to
`32 * half + 31`) unchanged, in particular all 32 descriptors of the other
bank, and toggles `half`; a threshold interrupt is such a call; and after
`ws2812_set_colors` has reset `half` to 0, the feeder selects bank `n % 2` after
`n` calls, so call number `n` (counted from 0) writes bank `n % 2` only. -/
theorem C16_ping_pong_banks (ws w : periph_ws2812_t) (mem mem0 : rmt_mem)
    (hw : feeder_ok ws) (hp : ws.process.pos ≤ 3 * ws.led_num)
    (hL : w.led_num * 3 < 4294967296) :
    (∀ k, k < 32 * ws.process.half ∨ 32 * ws.process.half + 32 ≤ k →
        (ws2812_data_copy ws mem).2.2 k = mem k)
    ∧ (∀ k, k < 32 → (ws2812_data_copy ws mem).2.2 (32 * (1 - ws.process.half) + k)
        = mem (32 * (1 - ws.process.half) + k))
    ∧ (ws2812_data_copy ws mem).2.1.process.half = 1 - ws.process.half
    ∧ (∀ tx_end, ws2812_handle_interrupt true tx_end ws mem = (ws2812_data_copy ws mem).2)
    ∧ (set_colors_reset w).process.half = 0
    ∧ ((ws2812_set_colors_prime w mem0).1, (ws2812_set_colors_prime w mem0).2.1)
        = data_copy_calls (ws2812_set_colors_prime w mem0).2.2 (set_colors_reset w, mem0)
    ∧ ∀ n, (data_copy_calls n (set_colors_reset w, mem0)).1.process.half = n % 2
        ∧ ∀ k, k < 32 * (n % 2) ∨ 32 * (n % 2) + 32 ≤ k →
            (data_copy_calls (n + 1) (set_colors_reset w, mem0)).2 k
              = (data_copy_calls n (set_colors_reset w, mem0)).2 k := by
  have hp2 : ws.process.pos ≤ ws.led_num * 3 := by omega
  have hh := hw.half_le
  refine ⟨fun k hk => data_copy_other_bank ws mem hw hp2 k hk,
    fun k hk => data_copy_other_bank ws mem hw hp2 _ (by omega),
    (data_copy_keeps ws mem hw hp2).2.2.2.1, fun _ => rfl, rfl, prime_eq_calls w mem0,
    fun n => ?_⟩
  obtain ⟨i1, i2, i3, _⟩ := calls_inv w mem0 hL n
  refine ⟨i3, fun k hk => ?_⟩
  rw [data_copy_calls_succ]
  exact data_copy_other_bank _ _ i1 i2 k (by rw [i3]; exact hk)

theorem C16_witness :
    (feeder_ok (feeder_at 2 [1, 2, 3, 4, 5, 6] 4 1)
      ∧ (feeder_at 2 [1, 2, 3, 4, 5, 6] 4 1).process.pos
          ≤ 3 * (feeder_at 2 [1, 2, 3, 4, 5, 6] 4 1).led_num
      ∧ (strip_of [0x0000FF, 0x00FF00, 0xFF0000]).led_num * 3 < 4294967296)
    ∧ (∀ k, k < 32 * (feeder_at 2 [1, 2, 3, 4, 5, 6] 4 1).process.half
          ∨ 32 * (feeder_at 2 [1, 2, 3, 4, 5, 6] 4 1).process.half + 32 ≤ k →
        (ws2812_data_copy (feeder_at 2 [1, 2, 3, 4, 5, 6] 4 1) (fun _ => 77)).2.2 k
          = (fun _ => 77) k)
    ∧ (ws2812_data_copy (feeder_at 2 [1, 2, 3, 4, 5, 6] 4 1) (fun _ => 77)).2.2 31 = 77
    ∧ (ws2812_data_copy (feeder_at 2 [1, 2, 3, 4, 5, 6] 4 1) (fun _ => 77)).2.2 63 = 0
    ∧ (ws2812_data_copy (feeder_at 2 [1, 2, 3, 4, 5, 6] 4 1) (fun _ => 77)).2.1.process.half = 0
    ∧ (data_copy_calls 3 (set_colors_reset (strip_of [0x0000FF, 0x00FF00, 0xFF0000]),
          fun _ => 77)).1.process.half = 1 :=
  ⟨⟨⟨by decide, by decide, by decide, by decide⟩, by decide, by decide⟩,
   (C16_ping_pong_banks (feeder_at 2 [1, 2, 3, 4, 5, 6] 4 1)
      (strip_of [0x0000FF, 0x00FF00, 0xFF0000]) (fun _ => 77) (fun _ => 77)
      ⟨by decide, by decide, by decide, by decide⟩ (by decide) (by decide)).1,
   by decide, by decide, by decide, by decide⟩

/-- Claim C17: pulse timing constants.  With `DIVIDER = 4` and `DURATION` 12.5 ns
(one tick is 50 ns), `PULSE_BIT0 = 0x00128007` is level 1 for 7 ticks (350 ns)
then level 0 for 18 ticks (900 ns), `PULSE_BIT1 = 0x00078012` is level 1 for 18
ticks then level 0 for 7 ticks, so 0 is short-high/long-low and 1 is
long-high/short-low; `PULSE_TRS` is 1000 ticks (50 us), fits the 15-bit duration
field and exceeds the low duration of either bit. -/
theorem C17_pulse_timing_constants :
    DIVIDER = 4 ∧ DURATION_x10 = 125 ∧ DURATION_x10 * DIVIDER = 50 * 10
    ∧ PULSE_BIT0 = 0x00128007
    ∧ level0 PULSE_BIT0 = 1 ∧ duration0 PULSE_BIT0 = 7
    ∧ level1 PULSE_BIT0 = 0 ∧ duration1 PULSE_BIT0 = 18
    ∧ duration0 PULSE_BIT0 * (DURATION_x10 * DIVIDER) = 350 * 10
    ∧ duration1 PULSE_BIT0 * (DURATION_x10 * DIVIDER) = 900 * 10
    ∧ PULSE_BIT1 = 0x00078012
    ∧ level0 PULSE_BIT1 = 1 ∧ duration0 PULSE_BIT1 = 18
    ∧ level1 PULSE_BIT1 = 0 ∧ duration1 PULSE_BIT1 = 7
    ∧ duration0 PULSE_BIT0 < duration1 PULSE_BIT0
    ∧ duration1 PULSE_BIT1 < duration0 PULSE_BIT1
    ∧ PULSE_TRS = 1000
    ∧ PULSE_TRS * (DURATION_x10 * DIVIDER) = 50000 * 10
    ∧ PULSE_TRS < 2 ^ 15
    ∧ duration1 (set_duration1 PULSE_BIT0 PULSE_TRS) = PULSE_TRS
    ∧ duration1 PULSE_BIT0 < PULSE_TRS ∧ duration1 PULSE_BIT1 < PULSE_TRS := by
  decide

theorem refills_eq_calls (s : periph_ws2812_t × rmt_mem) :
    ∀ n, refills n s = data_copy_calls n s := by
  intro n
  induction n with
  | zero => rfl
  | succ n ih =>
    show ws2812_handle_interrupt true false (refills n s).1 (refills n s).2 = _
    rw [ih]
    rfl

/-- Every buffer index a call reads lies inside the buffer. -/
theorem data_copy_reads_lt (ws : periph_ws2812_t) (hL : ws.led_num * 3 < 4294967296)
    (hp : ws.process.pos ≤ ws.led_num * 3) :
    ∀ r ∈ data_copy_reads ws, r < ws.led_num * 3 := by
  intro r hr
  unfold data_copy_reads at hr
  simp only [] at hr
  rw [data_copy_len ws hL hp] at hr
  obtain ⟨i, hi, rfl⟩ := List.mem_map.1 hr
  have hi2 := List.mem_range.1 hi
  have hcl : chunk_len ws ≤ ws.led_num * 3 - ws.process.pos := by simp only [chunk_len]; omega
  simp only [u32]
  omega

/-- Every descriptor index a call writes lies inside the selected bank. -/
theorem data_copy_writes_bank (ws : periph_ws2812_t) (hL : ws.led_num * 3 < 4294967296)
    (hh : ws.process.half ≤ 1) (hp : ws.process.pos ≤ ws.led_num * 3) :
    ∀ x ∈ data_copy_writes ws, 32 * ws.process.half ≤ x ∧ x < 32 * ws.process.half + 32 := by
  intro x hx
  have hc4 : chunk_len ws ≤ 4 := by simp only [chunk_len]; omega
  have h8 : u32 (chunk_len ws * 8) = 8 * chunk_len ws := by simp only [u32]; omega
  unfold data_copy_writes at hx
  simp only [] at hx
  rw [data_copy_len ws hL hp, data_copy_offset ws hh, h8] at hx
  simp only [MAX_PULSES] at hx
  by_cases hc : chunk_len ws = 0
  · rw [if_pos hc] at hx
    obtain ⟨i, hi, rfl⟩ := List.mem_map.1 hx
    have hi2 := List.mem_range'_1.1 hi
    simp only [u32]
    omega
  · rw [if_neg hc] at hx
    rcases List.mem_append.1 hx with h1 | h1
    · obtain ⟨i, hi, hxi⟩ := List.mem_flatMap.1 h1
      have hi2 := List.mem_range.1 hi
      unfold data_copy_writes_byte at hxi
      rcases List.mem_append.1 hxi with h2 | h2
      · obtain ⟨j, hj, rfl⟩ := List.mem_map.1 h2
        have hj2 := List.mem_range.1 hj
        simp only [u32]
        omega
      · split at h2
        · rw [List.mem_singleton] at h2
          subst h2
          simp only [u32]
          omega
        · exact absurd h2 (List.not_mem_nil _)
    · obtain ⟨i, hi, rfl⟩ := List.mem_map.1 h1
      have hi2 := List.mem_range'_1.1 hi
      simp only [u32]
      omega

/-- Every descriptor of the selected bank is among the indices written, so the
write trace covers all the call changes in the pulse memory. -/
theorem data_copy_writes_cover (ws : periph_ws2812_t) (mem : rmt_mem) (hw : feeder_ok ws)
    (hp : ws.process.pos ≤ ws.led_num * 3) (k : Nat) (hk : k ∉ data_copy_writes ws) :
    (ws2812_data_copy ws mem).2.2 k = mem k := by
  apply data_copy_other_bank ws mem hw hp k
  by_contra hin
  apply hk
  have hh := hw.half_le
  have hc4 : chunk_len ws ≤ 4 := by simp only [chunk_len]; omega
  have h8 : u32 (chunk_len ws * 8) = 8 * chunk_len ws := by simp only [u32]; omega
  unfold data_copy_writes
  simp only []
  rw [data_copy_len ws hw.len_lt hp, data_copy_offset ws hh, h8]
  simp only [MAX_PULSES]
  by_cases hc : chunk_len ws = 0
  · rw [if_pos hc]
    refine List.mem_map.2 ⟨k - 32 * ws.process.half, List.mem_range'_1.2 (by omega), ?_⟩
    simp only [u32]
    omega
  · rw [if_neg hc]
    by_cases hlow : k < 32 * ws.process.half + 8 * chunk_len ws
    · refine List.mem_append.2 (Or.inl (List.mem_flatMap.2
        ⟨(k - 32 * ws.process.half) / 8, List.mem_range.2 (by omega), ?_⟩))
      unfold data_copy_writes_byte
      refine List.mem_append.2 (Or.inl (List.mem_map.2
        ⟨(k - 32 * ws.process.half) % 8, List.mem_range.2 (by omega), ?_⟩))
      simp only [u32]
      omega
    · refine List.mem_append.2 (Or.inr (List.mem_map.2
        ⟨k - 32 * ws.process.half, List.mem_range'_1.2 (by omega), ?_⟩))
      simp only [u32]
      omega

theorem feeder_inv_reset (w : periph_ws2812_t) (hL : w.led_num * 3 < 4294967296) :
    feeder_inv (set_colors_reset w) := by
  have h := set_colors_buffer_length w hL
  unfold feeder_inv set_colors_reset
  simp only []
  omega

/-- Claim C18: feeder state invariant and bounds.  If `half` is 0 or 1,
`pos ≤ 3 * led_num` and the buffer holds `3 * led_num` bytes (a length that fits
`uint32_t`), then every buffer index a call of `ws2812_data_copy` reads is below
`3 * led_num`, every descriptor index it writes is below 64, and afterwards the
invariant still holds and `pos` has not decreased; the invariant holds right
after `ws2812_set_colors` has reset `pos` and `half`, hence after any number of
calls and of refill interrupts. -/
theorem C18_feeder_invariant (ws w : periph_ws2812_t) (mem mem0 : rmt_mem)
    (hinv : feeder_inv ws) (hL : 3 * ws.led_num < 4294967296)
    (hLw : w.led_num * 3 < 4294967296) :
    (∀ r ∈ data_copy_reads ws, r < 3 * ws.led_num ∧ r < ws.process.buffer.length)
    ∧ (∀ x ∈ data_copy_writes ws, x < 64)
    ∧ feeder_inv (ws2812_data_copy ws mem).2.1
    ∧ ws.process.pos ≤ (ws2812_data_copy ws mem).2.1.process.pos
    ∧ feeder_inv (set_colors_reset w)
    ∧ ∀ n, feeder_inv (data_copy_calls n (set_colors_reset w, mem0)).1
        ∧ feeder_inv (refills n (set_colors_reset w, mem0)).1 := by
  obtain ⟨hh, hp, hlen⟩ := hinv
  have hL2 : ws.led_num * 3 < 4294967296 := by omega
  have hp2 : ws.process.pos ≤ ws.led_num * 3 := by omega
  have hcl : chunk_len ws ≤ ws.led_num * 3 - ws.process.pos := by simp only [chunk_len]; omega
  refine ⟨fun r hr => ?_, fun x hx => ?_, ?_, ?_, feeder_inv_reset w hLw, fun n => ?_⟩
  · have := data_copy_reads_lt ws hL2 hp2 r hr
    omega
  · have := data_copy_writes_bank ws hL2 hh hp2 x hx
    omega
  · unfold feeder_inv
    rw [(data_copy_proc ws mem hL2 hh hp2).1]
    simp only []
    omega
  · rw [(data_copy_proc ws mem hL2 hh hp2).1]
    simp only []
    omega
  · obtain ⟨i1, i2, _, _⟩ := calls_inv w mem0 hLw n
    have hlen1 := i1.len_eq
    have hh1 := i1.half_le
    rw [refills_eq_calls]
    unfold feeder_inv
    omega

theorem C18_witness :
    (feeder_inv (feeder_at 2 [1, 2, 3, 4, 5, 6] 4 1)
      ∧ 3 * (feeder_at 2 [1, 2, 3, 4, 5, 6] 4 1).led_num < 4294967296
      ∧ (strip_of [0x0000FF, 0x00FF00, 0xFF0000]).led_num * 3 < 4294967296)
    ∧ (∀ r ∈ data_copy_reads (feeder_at 2 [1, 2, 3, 4, 5, 6] 4 1),
        r < 3 * (feeder_at 2 [1, 2, 3, 4, 5, 6] 4 1).led_num
        ∧ r < (feeder_at 2 [1, 2, 3, 4, 5, 6] 4 1).process.buffer.length)
    ∧ data_copy_reads (feeder_at 2 [1, 2, 3, 4, 5, 6] 4 1) = [4, 5]
    ∧ data_copy_writes (feeder_at 2 [1, 2, 3, 4, 5, 6] 4 1)
        = [32, 33, 34, 35, 36, 37, 38, 39, 40, 41, 42, 43, 44, 45, 46, 47, 47,
           48, 49, 50, 51, 52, 53, 54, 55, 56, 57, 58, 59, 60, 61, 62, 63]
    ∧ (refills 5 (set_colors_reset (strip_of [0x0000FF, 0x00FF00, 0xFF0000]),
          fun _ => 0)).1.process.pos = 9 :=
  ⟨⟨by decide, by decide, by decide⟩,
   (C18_feeder_invariant (feeder_at 2 [1, 2, 3, 4, 5, 6] 4 1)
      (strip_of [0x0000FF, 0x00FF00, 0xFF0000]) (fun _ => 77) (fun _ => 0)
      (by decide) (by decide) (by decide)).1,
   by decide, by decide, by decide⟩

/-- A dim channel at its target value is left where it is by a fade-down step,
and it fails the completion test. -/
theorem dim_step (t v : Nat) (hd : dim_chan t) (hv : v = t) :
    u8_sub v (t / FADE_STEP) % 256 = t ∧ ¬ (u8_sub v (t / FADE_STEP) ≤ t / FADE_STEP) := by
  unfold dim_chan FADE_STEP at hd
  have h0 : t / 30 = 0 := by omega
  obtain ⟨a, b⟩ := u8_sub_fit v 0 (by omega) (Nat.zero_le _)
  simp only [FADE_STEP, h0, a, b]
  omega

theorem dim_inv_congr (ws ws1 : periph_ws2812_t) (i tgt N : Nat)
    (hs : ws1.state.length = ws.state.length) (hc : ws1.color.length = ws.color.length)
    (h1 : state_at ws1 i = state_at ws i) (h2 : color_at ws1 i = color_at ws i)
    (h : dim_inv ws i tgt N) : dim_inv ws1 i tgt N := by
  unfold dim_inv at h ⊢
  rw [hs, hc, h1, h2]
  exact h

/-- The evaluation of a FADE LED with a dim channel keeps `dim_inv`. -/
theorem dim_inv_led (T : Nat → Int) (i : Nat) (ws : periph_ws2812_t) (env : env_t)
    (tgt N : Nat) (hN : N ≠ 0)
    (hd : dim_chan (rgb_r tgt) ∨ dim_chan (rgb_g tgt) ∨ dim_chan (rgb_b tgt))
    (hinv : dim_inv ws i tgt N) :
    dim_inv (ws2812_timer_handler_led T i ws env).1 i tgt N := by
  obtain ⟨hs, hc, hm, htgt, hset, hon, hloop, dr, dg, db⟩ := hinv
  subst htgt
  have hloop0 : (state_at ws i).loop ≠ 0 := by rw [hloop]; exact hN
  rw [handler_led_fade T i ws env hm]
  have hsl := (handler_fade_only T i ws env).state_len
  have hcl := (handler_fade_only T i ws env).color_len
  by_cases ht : T env.clock - (state_at ws i).tick
      > ((u32 ((if (state_at ws i).is_on then (state_at ws i).time_on_ms
                else (state_at ws i).time_off_ms) / FADE_STEP) : Nat) : Int)
  swap
  · rw [fade_wait T i ws env hset hloop0 ht]
    exact ⟨hs, hc, hm, rfl, hset, hon, hloop, dr, dg, db⟩
  rw [if_pos hon] at ht
  obtain ⟨a, _, _, d⟩ := fade_down_step T i ws env hs hc hset hloop0 hon ht
  generalize handler_fade T i ws env = r at a d hsl hcl ⊢
  have hcond : ¬ (u8_sub (rgb_r (color_at ws i)) (rgb_r (state_at ws i).color / FADE_STEP)
        ≤ rgb_r (state_at ws i).color / FADE_STEP
      ∧ u8_sub (rgb_g (color_at ws i)) (rgb_g (state_at ws i).color / FADE_STEP)
        ≤ rgb_g (state_at ws i).color / FADE_STEP
      ∧ u8_sub (rgb_b (color_at ws i)) (rgb_b (state_at ws i).color / FADE_STEP)
        ≤ rgb_b (state_at ws i).color / FADE_STEP) := by
    rintro ⟨c1, c2, c3⟩
    rcases hd with h | h | h
    · exact (dim_step _ _ h (dr h)).2 c1
    · exact (dim_step _ _ h (dg h)).2 c2
    · exact (dim_step _ _ h (db h)).2 c3
  rw [if_neg hcond] at d
  unfold dim_inv
  rw [hsl, hcl, d, a, rgb_r_num, rgb_g_num, rgb_b_num]
  simp only []
  exact ⟨hs, hc, hm, trivial, hset, hon, hloop,
    fun h => (dim_step _ _ h (dr h)).1, fun h => (dim_step _ _ h (dg h)).1,
    fun h => (dim_step _ _ h (db h)).1⟩

/-- One tick keeps `dim_inv` of LED `i`. -/
theorem dim_inv_tick (T : Nat → Int) (ws : periph_ws2812_t) (env : env_t) (i tgt N : Nat)
    (hi : i < ws.led_num) (hN : N ≠ 0)
    (hd : dim_chan (rgb_r tgt) ∨ dim_chan (rgb_g tgt) ∨ dim_chan (rgb_b tgt))
    (hinv : dim_inv ws i tgt N) :
    dim_inv (ws2812_timer_handler T ws env).1 i tgt N := by
  obtain ⟨u1, u2⟩ := handler_upto_frame T ws env i
  obtain ⟨_, l2, l3⟩ := handler_upto_len T ws env i
  obtain ⟨a1, a2⟩ := handler_at T ws env i hi
  obtain ⟨_, m2, m3⟩ := handler_len T ws env
  have hinv1 := dim_inv_congr ws (handler_upto T ws env i).1 i tgt N l2 l3 u1 u2 hinv
  have k := dim_inv_led T i (handler_upto T ws env i).1 (handler_upto T ws env i).2 tgt N hN hd
    hinv1
  have o := handler_led_only T i (handler_upto T ws env i).1 (handler_upto T ws env i).2
  exact dim_inv_congr _ _ i tgt N (m2.trans (l2.symm.trans o.state_len.symm))
    (m3.trans (l3.symm.trans o.color_len.symm)) a1 a2 k

/-- Claim C19: a FADE LED `i` with `is_set` and `is_on` set, `loop = N > 0` and
its current color equal to its target, the target having a channel between 1
and `FADE_STEP - 1 = 29`, never finishes: after any number of ticks, whatever
the clock returns, `is_on` and `is_set` are still set, `loop` is still `N`, the
mode and the target are unchanged, and every such dim channel still holds its
target value. -/
theorem C19_dim_fade_never_finishes (T : Nat → Int) (ws : periph_ws2812_t) (env : env_t)
    (i n : Nat) (hi : i < ws.led_num) (hs : i < ws.state.length) (hc : i < ws.color.length)
    (hm : (state_at ws i).mode = periph_ws2812_mode_t.PERIPH_WS2812_FADE)
    (hset : (state_at ws i).is_set = true) (hon : (state_at ws i).is_on = true)
    (hloop : 0 < (state_at ws i).loop)
    (hcur : color_at ws i = (state_at ws i).color)
    (hd : dim_chan (rgb_r (state_at ws i).color) ∨ dim_chan (rgb_g (state_at ws i).color)
      ∨ dim_chan (rgb_b (state_at ws i).color)) :
    (state_at (run_ticks T n (ws, env)).1 i).is_on = true
    ∧ (state_at (run_ticks T n (ws, env)).1 i).loop = (state_at ws i).loop
    ∧ (state_at (run_ticks T n (ws, env)).1 i).is_set = true
    ∧ (state_at (run_ticks T n (ws, env)).1 i).mode = periph_ws2812_mode_t.PERIPH_WS2812_FADE
    ∧ (state_at (run_ticks T n (ws, env)).1 i).color = (state_at ws i).color
    ∧ (dim_chan (rgb_r (state_at ws i).color) →
        rgb_r (color_at (run_ticks T n (ws, env)).1 i) = rgb_r (state_at ws i).color)
    ∧ (dim_chan (rgb_g (state_at ws i).color) →
        rgb_g (color_at (run_ticks T n (ws, env)).1 i) = rgb_g (state_at ws i).color)
    ∧ (dim_chan (rgb_b (state_at ws i).color) →
        rgb_b (color_at (run_ticks T n (ws, env)).1 i) = rgb_b (state_at ws i).color) := by
  have h0 : dim_inv ws i (state_at ws i).color (state_at ws i).loop :=
    ⟨hs, hc, hm, rfl, hset, hon, rfl, fun _ => by rw [hcur], fun _ => by rw [hcur],
      fun _ => by rw [hcur]⟩
  have hall : ∀ m, dim_inv (run_ticks T m (ws, env)).1 i (state_at ws i).color
      (state_at ws i).loop := by
    intro m
    induction m with
    | zero => exact h0
    | succ m ih =>
      rw [run_ticks_succ]
      exact dim_inv_tick T _ _ i _ _ (by rw [(run_ticks_len T (ws, env) m).1]; exact hi)
        (by omega) hd ih
  obtain ⟨_, _, k3, k4, k5, k6, k7, k8, k9, k10⟩ := hall n
  exact ⟨k6, k7, k5, k3, k4, k8, k9, k10⟩

theorem C19_witness :
    (0 < (after_control clock_10ms (strip_of [0])
          [cfg_of periph_ws2812_mode_t.PERIPH_WS2812_FADE 0x003C1D 2] env_idle).1.led_num
      ∧ 0 < (state_at (after_control clock_10ms (strip_of [0])
          [cfg_of periph_ws2812_mode_t.PERIPH_WS2812_FADE 0x003C1D 2] env_idle).1 0).loop
      ∧ dim_chan (rgb_r (state_at (after_control clock_10ms (strip_of [0])
          [cfg_of periph_ws2812_mode_t.PERIPH_WS2812_FADE 0x003C1D 2] env_idle).1 0).color))
    ∧ ((state_at (run_ticks clock_10ms 35
          ((after_control clock_10ms (strip_of [0])
            [cfg_of periph_ws2812_mode_t.PERIPH_WS2812_FADE 0x003C1D 2] env_idle).1,
           (after_control clock_10ms (strip_of [0])
            [cfg_of periph_ws2812_mode_t.PERIPH_WS2812_FADE 0x003C1D 2] env_idle).2)).1 0).is_on
        = true
      ∧ (state_at (run_ticks clock_10ms 35
          ((after_control clock_10ms (strip_of [0])
            [cfg_of periph_ws2812_mode_t.PERIPH_WS2812_FADE 0x003C1D 2] env_idle).1,
           (after_control clock_10ms (strip_of [0])
            [cfg_of periph_ws2812_mode_t.PERIPH_WS2812_FADE 0x003C1D 2] env_idle).2)).1 0).loop
        = (state_at (after_control clock_10ms (strip_of [0])
            [cfg_of periph_ws2812_mode_t.PERIPH_WS2812_FADE 0x003C1D 2] env_idle).1 0).loop)
    ∧ color_at (run_ticks clock_10ms 35
          (after_control clock_10ms (strip_of [0])
            [cfg_of periph_ws2812_mode_t.PERIPH_WS2812_FADE 0x003C1D 2] env_idle)).1 0
        = 0x00F61D :=
  ⟨⟨by decide, by decide, by decide⟩,
   ⟨(C19_dim_fade_never_finishes clock_10ms
      (after_control clock_10ms (strip_of [0])
        [cfg_of periph_ws2812_mode_t.PERIPH_WS2812_FADE 0x003C1D 2] env_idle).1
      (after_control clock_10ms (strip_of [0])
        [cfg_of periph_ws2812_mode_t.PERIPH_WS2812_FADE 0x003C1D 2] env_idle).2 0 35
      (by decide) (by decide) (by decide) (by decide) (by decide) (by decide) (by decide)
      (by decide) (Or.inl (by decide))).1,
    (C19_dim_fade_never_finishes clock_10ms
      (after_control clock_10ms (strip_of [0])
        [cfg_of periph_ws2812_mode_t.PERIPH_WS2812_FADE 0x003C1D 2] env_idle).1
      (after_control clock_10ms (strip_of [0])
        [cfg_of periph_ws2812_mode_t.PERIPH_WS2812_FADE 0x003C1D 2] env_idle).2 0 35
      (by decide) (by decide) (by decide) (by decide) (by decide) (by decide) (by decide)
      (by decide) (Or.inl (by decide))).2.1⟩,
   by decide⟩

theorem after_stop_eq (ws : periph_ws2812_t) (env : env_t) :
    after_stop ws env
      = ((ws2812_set_colors (stop_loop (List.range ws.led_num) ws) env).2.1,
         (ws2812_set_colors (stop_loop (List.range ws.led_num) ws) env).2.2) := rfl

theorem stop_loop_cons (j : Nat) (l : List Nat) (w : periph_ws2812_t) :
    stop_loop (j :: l) w = stop_loop l (stop_led w j) := rfl

theorem stop_led_only (w : periph_ws2812_t) (j : Nat) : only_led j w (stop_led w j) := by
  unfold stop_led
  exact ol_upd _ (ol_upd _ (ol_upd _ (only_led_refl j w)))

theorem stop_led_at (w : periph_ws2812_t) (j : Nat) (hs : j < w.state.length) :
    state_at (stop_led w j) j = state_stopped (state_at w j)
    ∧ (stop_led w j).color = w.color := by
  unfold stop_led
  simp only [state_at_upd, state_len_upd, hs, state_stopped, true_and]
  rfl

/-- The loop of `periph_ws2812_stop` over `a, a+1, .., a+n-1`. -/
theorem stop_loop_range :
    ∀ (n a : Nat) (w : periph_ws2812_t), a + n ≤ w.state.length →
      (stop_loop (List.range' a n) w).led_num = w.led_num
      ∧ (stop_loop (List.range' a n) w).state.length = w.state.length
      ∧ (stop_loop (List.range' a n) w).color = w.color
      ∧ ∀ i, state_at (stop_loop (List.range' a n) w) i
          = if a ≤ i ∧ i < a + n then state_stopped (state_at w i) else state_at w i := by
  intro n
  induction n with
  | zero =>
    intro a w _
    refine ⟨rfl, rfl, rfl, fun i => ?_⟩
    rw [if_neg (by omega)]
    rfl
  | succ n ih =>
    intro a w hs
    have honly := stop_led_only w a
    obtain ⟨c1, c2⟩ := stop_led_at w a (by omega)
    obtain ⟨i1, i2, i3, i4⟩ := ih (a + 1) (stop_led w a) (by rw [honly.state_len]; omega)
    rw [List.range'_succ, stop_loop_cons]
    refine ⟨i1.trans honly.led_num, i2.trans honly.state_len, i3.trans c2, fun i => ?_⟩
    rw [i4 i]
    by_cases hia : i = a
    · subst hia
      rw [if_neg (by omega), if_pos (by omega), c1]
    · rw [honly.state_eq i hia]
      by_cases hin : a + 1 ≤ i ∧ i < a + 1 + n
      · rw [if_pos hin, if_pos (by omega)]
      · rw [if_neg hin, if_neg (by omega)]

theorem set_colors_buffer_congr (w1 w2 : periph_ws2812_t) (h1 : w1.led_num = w2.led_num)
    (h2 : w1.color = w2.color) : set_colors_buffer w1 = set_colors_buffer w2 := by
  unfold set_colors_buffer
  rw [h1, h2]

/-- The record `periph_ws2812_stop` leaves: the color array is untouched, the
frame transmitted (when the buffer allocation succeeds) is the serialisation of
that array, and every LED is ONE-SHOT black with `is_on` set. -/
theorem after_stop_spec (ws : periph_ws2812_t) (env : env_t)
    (hs : ws.led_num ≤ ws.state.length) :
    (after_stop ws env).1.led_num = ws.led_num
    ∧ (after_stop ws env).1.state.length = ws.state.length
    ∧ (after_stop ws env).1.color = ws.color
    ∧ (after_stop ws env).2.frames
        = (if env.malloc_ok env.mallocs = true then env.frames ++ [set_colors_buffer ws]
           else env.frames)
    ∧ (after_stop ws env).2.clock = env.clock
    ∧ ∀ i, i < ws.led_num →
        state_at (after_stop ws env).1 i = state_stopped (state_at ws i) := by
  obtain ⟨a, b, c, d⟩ := stop_loop_range ws.led_num 0 ws (by omega)
  rw [← List.range_eq_range'] at a b c d
  rw [after_stop_eq]
  simp only []
  refine ⟨(set_colors_led_num _ _).trans a, (state_len_tx _ _).trans b,
    (set_colors_color _ _).trans c, ?_, set_colors_clock _ _, fun i hi => ?_⟩
  · rw [set_colors_frames, set_colors_buffer_congr _ ws a c]
  · rw [state_at_tx, d i, if_pos (by omega)]

theorem wire_byte_zero (j : Nat) : wire_byte 0 j = 0 := by
  unfold wire_byte
  split
  · rfl
  · split <;> rfl

/-- A strip whose colors are all black serialises to the all-zero buffer. -/
theorem buffer_black (ws : periph_ws2812_t) (hL : ws.led_num * 3 < 4294967296)
    (h : ∀ j, j < ws.led_num → color_at ws j = 0) :
    set_colors_buffer ws = List.replicate (3 * ws.led_num) 0 := by
  have hlen := set_colors_buffer_length ws hL
  apply List.ext_getElem
  · rw [hlen, List.length_replicate, Nat.mul_comm]
  · intro k h1 _
    rw [List.getElem_replicate, ← List.getD_eq_getElem _ 0 h1, set_colors_buffer_getD ws hL,
      if_pos (by omega)]
    have hk := h (k / 3) (by omega)
    unfold color_at at hk
    rw [hk, wire_byte_zero]

/-- A loop over ONE-SHOT LEDs whose `is_on` is clear changes nothing. -/
theorem loop_idle (T : Nat → Int) :
    ∀ (l : List Nat) (s : periph_ws2812_t × env_t),
      (∀ j ∈ l, (state_at s.1 j).mode = periph_ws2812_mode_t.PERIPH_WS2812_ONE
        ∧ (state_at s.1 j).is_on = false) →
      handler_loop T l s = s := by
  intro l
  induction l with
  | nil => intro s _; rfl
  | cons j l ih =>
    intro s h
    obtain ⟨hm, hoff⟩ := h j (List.mem_cons_self _ _)
    rw [handler_loop_cons, handler_led_one T j s.1 s.2 hm, handler_one_idle j s.1 s.2 hoff]
    exact ih s (fun k hk => h k (List.mem_cons_of_mem _ hk))

theorem after_stop_malloc (ws : periph_ws2812_t) (env : env_t) (h : malloc_succeeds env) :
    malloc_succeeds (after_stop ws env).2 := by
  rw [after_stop_eq]
  unfold malloc_succeeds
  simp only [set_colors_malloc_ok]
  exact h

/-- The loop of a tick over LEDs `a .. a+n-1` of a strip whose LEDs from `a` on
are ONE-SHOT black with `is_on` set and whose LEDs before `a` are already served
and black: every LED ends up served and black, and when every buffer allocation
succeeds one frame is transmitted per LED and the last one is all zero. -/
theorem black_loop (T : Nat → Int) :
    ∀ (n a : Nat) (s : periph_ws2812_t × env_t),
      a + n = s.1.led_num → s.1.state.length = s.1.led_num →
      s.1.color.length = s.1.led_num → s.1.led_num * 3 < 4294967296 →
      (∀ j, a ≤ j → j < s.1.led_num →
        (state_at s.1 j).mode = periph_ws2812_mode_t.PERIPH_WS2812_ONE
        ∧ (state_at s.1 j).is_on = true ∧ (state_at s.1 j).color = 0) →
      (∀ j, j < a →
        color_at s.1 j = 0
        ∧ (state_at s.1 j).mode = periph_ws2812_mode_t.PERIPH_WS2812_ONE
        ∧ (state_at s.1 j).is_on = false ∧ (state_at s.1 j).loop = 0) →
      (∀ j, j < s.1.led_num →
        color_at (handler_loop T (List.range' a n) s).1 j = 0
        ∧ (state_at (handler_loop T (List.range' a n) s).1 j).mode
            = periph_ws2812_mode_t.PERIPH_WS2812_ONE
        ∧ (state_at (handler_loop T (List.range' a n) s).1 j).is_on = false
        ∧ (state_at (handler_loop T (List.range' a n) s).1 j).loop = 0)
      ∧ (malloc_succeeds s.2 →
        (handler_loop T (List.range' a n) s).2.frames.length = s.2.frames.length + n
        ∧ (0 < n → (handler_loop T (List.range' a n) s).2.frames.getLast?
            = some (List.replicate (3 * s.1.led_num) 0))) := by
  intro n
  induction n with
  | zero =>
    intro a s ha _ _ _ _ hdone
    refine ⟨fun j hj => hdone j (by omega), fun _ => ⟨rfl, fun h => absurd h (by omega)⟩⟩
  | succ n ih =>
    intro a s ha hs hc hL hpend hdone
    obtain ⟨pm, pon, pcol⟩ := hpend a (le_refl a) (by omega)
    have honly := handler_led_only T a s.1 s.2
    have hled := handler_led_one T a s.1 s.2 pm
    have hmo := handler_led_malloc_ok T a s.1 s.2
    obtain ⟨f1, f2, f3, _⟩ := handler_one_fire a s.1 s.2 (by omega) (by omega) pon
    rw [← hled] at f1 f2 f3
    rw [pcol] at f2 f3
    rw [List.range'_succ, handler_loop_cons]
    generalize ws2812_timer_handler_led T a s.1 s.2 = s1 at honly f1 f2 f3 hmo ⊢
    have hn1 : s1.1.led_num = s.1.led_num := honly.led_num
    have hpend1 : ∀ j, a + 1 ≤ j → j < s1.1.led_num →
        (state_at s1.1 j).mode = periph_ws2812_mode_t.PERIPH_WS2812_ONE
        ∧ (state_at s1.1 j).is_on = true ∧ (state_at s1.1 j).color = 0 := by
      intro j h1 h2
      rw [honly.state_eq j (by omega)]
      exact hpend j (by omega) (by omega)
    have hdone1 : ∀ j, j < a + 1 →
        color_at s1.1 j = 0
        ∧ (state_at s1.1 j).mode = periph_ws2812_mode_t.PERIPH_WS2812_ONE
        ∧ (state_at s1.1 j).is_on = false ∧ (state_at s1.1 j).loop = 0 := by
      intro j hj
      by_cases hja : j = a
      · subst hja
        rw [f1, f2]
        exact ⟨rfl, pm, rfl, rfl⟩
      · rw [honly.state_eq j hja, honly.color_eq j hja]
        exact hdone j (by omega)
    obtain ⟨r1, r23⟩ := ih (a + 1) s1 (by omega) (by rw [honly.state_len, hn1]; exact hs)
      (by rw [honly.color_len, hn1]; exact hc) (by rw [hn1]; exact hL) hpend1 hdone1
    rw [hn1] at r1 r23
    refine ⟨r1, fun hmal => ?_⟩
    obtain ⟨r2, r3⟩ := r23 (by unfold malloc_succeeds; rw [hmo]; exact hmal)
    rw [if_pos (hmal _)] at f3
    refine ⟨?_, fun _ => ?_⟩
    · rw [r2, f3]
      simp only [List.length_append, List.length_cons, List.length_nil]
      omega
    · by_cases hn : 0 < n
      · exact r3 hn
      · have hn0 : n = 0 := by omega
        subst hn0
        have hblack : set_colors_buffer (set_color s.1 a 0)
            = List.replicate (3 * s.1.led_num) 0 := by
          apply buffer_black (set_color s.1 a 0) hL
          intro j hj
          by_cases hja : j = a
          · subst hja
            exact color_at_col s.1 j 0 (by omega)
          · rw [(only_led_set_color a s.1 0).color_eq j hja]
            exact (hdone j (by have : j < s.1.led_num := hj; omega)).1
        show s1.2.frames.getLast? = _
        rw [f3, hblack, List.getLast?_append]
        rfl

/-- Claim C20: stop takes effect on the next tick.  From any driver record whose
state and color arrays have `led_num` entries, `periph_ws2812_stop` followed by
one tick leaves every color array entry black and every LED ONE-SHOT with
`is_on` clear and `loop = 0`, whatever `audio_malloc` returns; when every buffer
allocation succeeds the tick transmits one frame per LED and the last of them is
all zero bytes; any number of further ticks leaves the driver record and the
environment as they are, so nothing is transmitted. -/
theorem C20_stop_takes_effect_next_tick (T : Nat → Int) (ws : periph_ws2812_t) (env : env_t)
    (hs : ws.state.length = ws.led_num) (hc : ws.color.length = ws.led_num)
    (hL : ws.led_num * 3 < 4294967296) :
    (∀ i, i < ws.led_num →
      color_at (ws2812_timer_handler T (after_stop ws env).1 (after_stop ws env).2).1 i = 0
      ∧ (state_at (ws2812_timer_handler T (after_stop ws env).1 (after_stop ws env).2).1 i).mode
          = periph_ws2812_mode_t.PERIPH_WS2812_ONE
      ∧ (state_at (ws2812_timer_handler T (after_stop ws env).1 (after_stop ws env).2).1 i).is_on
          = false
      ∧ (state_at (ws2812_timer_handler T (after_stop ws env).1 (after_stop ws env).2).1 i).loop
          = 0)
    ∧ (malloc_succeeds env →
      (ws2812_timer_handler T (after_stop ws env).1 (after_stop ws env).2).2.frames.length
          = (after_stop ws env).2.frames.length + ws.led_num
      ∧ (0 < ws.led_num →
          (ws2812_timer_handler T (after_stop ws env).1 (after_stop ws env).2).2.frames.getLast?
            = some (List.replicate (3 * ws.led_num) 0)))
    ∧ ∀ n, run_ticks T n (ws2812_timer_handler T (after_stop ws env).1 (after_stop ws env).2)
        = ws2812_timer_handler T (after_stop ws env).1 (after_stop ws env).2 := by
  obtain ⟨a1, a2, a3, _, _, a6⟩ := after_stop_spec ws env (by omega)
  have hpend : ∀ j, 0 ≤ j → j < (after_stop ws env).1.led_num →
      (state_at (after_stop ws env).1 j).mode = periph_ws2812_mode_t.PERIPH_WS2812_ONE
      ∧ (state_at (after_stop ws env).1 j).is_on = true
      ∧ (state_at (after_stop ws env).1 j).color = 0 := by
    intro j _ hj
    rw [a6 j (by omega)]
    exact ⟨rfl, rfl, rfl⟩
  obtain ⟨r1, r23⟩ := black_loop T (after_stop ws env).1.led_num 0
    ((after_stop ws env).1, (after_stop ws env).2) (by simp only []; omega)
    (by simp only []; omega) (by simp only []; rw [a3]; omega) (by simp only []; omega)
    hpend (fun j hj => absurd hj (by omega))
  simp only [← List.range_eq_range', ← handler_eq_loop] at r1 r23
  rw [a1] at r1 r23
  refine ⟨r1, fun hmal => r23 (after_stop_malloc ws env hmal), fun n => ?_⟩
  have hlen := (handler_len T (after_stop ws env).1 (after_stop ws env).2).1
  generalize ws2812_timer_handler T (after_stop ws env).1 (after_stop ws env).2 = s2
    at r1 hlen ⊢
  have hidle : ws2812_timer_handler T s2.1 s2.2 = s2 := by
    rw [handler_eq_loop]
    exact loop_idle T _ (s2.1, s2.2) (fun j hj => by
      have hj2 : j < ws.led_num := by
        have := List.mem_range.1 hj
        omega
      exact ⟨(r1 j hj2).2.1, (r1 j hj2).2.2.1⟩)
  induction n with
  | zero => rfl
  | succ n ih => rw [run_ticks_succ, ih, hidle]

theorem C20_witness :
    ((strip_of [0x0000FF, 0x00FF00]).state.length = (strip_of [0x0000FF, 0x00FF00]).led_num
      ∧ (strip_of [0x0000FF, 0x00FF00]).color.length = (strip_of [0x0000FF, 0x00FF00]).led_num
      ∧ (strip_of [0x0000FF, 0x00FF00]).led_num * 3 < 4294967296)
    ∧ (∀ i, i < (strip_of [0x0000FF, 0x00FF00]).led_num →
        color_at (ws2812_timer_handler clock_10ms
          (after_stop (strip_of [0x0000FF, 0x00FF00]) env_idle).1
          (after_stop (strip_of [0x0000FF, 0x00FF00]) env_idle).2).1 i = 0
        ∧ (state_at (ws2812_timer_handler clock_10ms
            (after_stop (strip_of [0x0000FF, 0x00FF00]) env_idle).1
            (after_stop (strip_of [0x0000FF, 0x00FF00]) env_idle).2).1 i).mode
            = periph_ws2812_mode_t.PERIPH_WS2812_ONE
        ∧ (state_at (ws2812_timer_handler clock_10ms
            (after_stop (strip_of [0x0000FF, 0x00FF00]) env_idle).1
            (after_stop (strip_of [0x0000FF, 0x00FF00]) env_idle).2).1 i).is_on = false
        ∧ (state_at (ws2812_timer_handler clock_10ms
            (after_stop (strip_of [0x0000FF, 0x00FF00]) env_idle).1
            (after_stop (strip_of [0x0000FF, 0x00FF00]) env_idle).2).1 i).loop = 0)
    ∧ (ws2812_timer_handler clock_10ms
          (after_stop (strip_of [0x0000FF, 0x00FF00]) env_idle).1
          (after_stop (strip_of [0x0000FF, 0x00FF00]) env_idle).2).2.frames.length
        = (after_stop (strip_of [0x0000FF, 0x00FF00]) env_idle).2.frames.length
          + (strip_of [0x0000FF, 0x00FF00]).led_num
    ∧ (after_stop (strip_of [0x0000FF, 0x00FF00]) env_idle).2.frames = [[0, 255, 0, 255, 0, 0]]
    ∧ (ws2812_timer_handler clock_10ms
          (after_stop (strip_of [0x0000FF, 0x00FF00]) env_idle).1
          (after_stop (strip_of [0x0000FF, 0x00FF00]) env_idle).2).2.frames
        = [[0, 255, 0, 255, 0, 0], [0, 0, 0, 255, 0, 0], [0, 0, 0, 0, 0, 0]]
    ∧ (ws2812_timer_handler clock_10ms
          (after_stop (strip_of [0x0000FF, 0x00FF00]) env_no_heap).1
          (after_stop (strip_of [0x0000FF, 0x00FF00]) env_no_heap).2).2.frames = []
    ∧ (ws2812_timer_handler clock_10ms
          (after_stop (strip_of [0x0000FF, 0x00FF00]) env_no_heap).1
          (after_stop (strip_of [0x0000FF, 0x00FF00]) env_no_heap).2).1.color = [0, 0] :=
  ⟨⟨by decide, by decide, by decide⟩,
   (C20_stop_takes_effect_next_tick clock_10ms (strip_of [0x0000FF, 0x00FF00]) env_idle
      (by decide) (by decide) (by decide)).1,
   ((C20_stop_takes_effect_next_tick clock_10ms (strip_of [0x0000FF, 0x00FF00]) env_idle
      (by decide) (by decide) (by decide)).2.1 (fun _ => rfl)).1,
   by decide, by decide, by decide, by decide⟩

theorem C14_witness :
    (0 < (strip_of [5, 7]).led_num
      ∧ (state_at (strip_of [5, 7]) 0).mode = periph_ws2812_mode_t.INVALID 0)
    ∧ (state_at (ws2812_timer_handler clock_10ms (strip_of [5, 7]) env_idle).1 0
        = state_at (strip_of [5, 7]) 0
      ∧ color_at (ws2812_timer_handler clock_10ms (strip_of [5, 7]) env_idle).1 0
        = color_at (strip_of [5, 7]) 0
      ∧ ws2812_timer_handler_led clock_10ms 0
          (handler_upto clock_10ms (strip_of [5, 7]) env_idle 0).1
          (handler_upto clock_10ms (strip_of [5, 7]) env_idle 0).2
        = handler_upto clock_10ms (strip_of [5, 7]) env_idle 0
      ∧ ws2812_timer_handler clock_10ms (strip_of [5, 7]) env_idle
        = handler_loop clock_10ms
            (List.range 0 ++ List.range' (0 + 1) ((strip_of [5, 7]).led_num - (0 + 1)))
            (strip_of [5, 7], env_idle))
    ∧ (ws2812_timer_handler clock_10ms (strip_of [5, 7]) env_idle).2.frames = [] :=
  ⟨⟨by decide, by decide⟩,
   C14_invalid_mode_noop clock_10ms (strip_of [5, 7]) env_idle 0 0 (by decide) (by decide),
   by decide⟩

end WS2812
